import Mathlib

/-!
# Window frame geometry, button layout and hit-testing (border.c)

A shallow embedding of the border code of the window manager:
`GetBorderSize`, `GetButtonCount`, `DrawBorderButtons`,
`GetBorderActionType`, `DrawBorder` and `DrawBorderHelper` of `border.c`,
with `StartupSettings` of `settings.c`, `DrawButton` and `GetScaledIconSize`
of `button.c`, and the RGB conversions of `color.c`.

C integers are modelled as mathematical integers with the conversions made
explicit: an `unsigned int` is a `Nat` below `2^32`, an `int` is an `Int`
in `[-2^31, 2^31)`, and every mixed `int`/`unsigned int` operation converts
its `int` operand with `toUnsigned` first, as the C usual arithmetic
conversions do.  `int` arithmetic wraps around (two's complement).
-/

namespace JWM

/-! ## C integer conversions -/

/-- Conversion of an `int` value to `unsigned int`: the value modulo `2^32`. -/
def toUnsigned (i : Int) : Nat := (i % 4294967296).toNat

/-- Conversion of an `unsigned int` value to `int` (two's complement). -/
def toInt (u : Nat) : Int :=
  if u % 4294967296 < 2147483648 then ((u % 4294967296 : Nat) : Int)
  else ((u % 4294967296 : Nat) : Int) - 4294967296

/-- Sum of two `unsigned int` values. -/
def uadd (a b : Nat) : Nat := (a + b) % 4294967296

/-- Difference of two `unsigned int` values. -/
def usub (a b : Nat) : Nat := (a % 4294967296 + 4294967296 - b % 4294967296) % 4294967296

/-- Product of two `unsigned int` values. -/
def umul (a b : Nat) : Nat := (a * b) % 4294967296

/-- Sum of two `int` values (wrapping). -/
def iadd (a b : Int) : Int := toInt (toUnsigned (a + b))

/-! ## Data model -/

/-- The fields of the global `settings` that `settings.c` initialises and
checks.  The numeric fields are `unsigned int` (they are passed to
`FixRange` by address); defaults are those of `InitializeSettings`. -/
structure Settings where
  borderWidth : Nat := 4
  titleHeight : Nat := 20
  borderRadius : Nat := 4
  handles : Bool := false
  doubleClickDelta : Nat := 2
  doubleClickSpeed : Nat := 400
  desktopWidth : Nat := 4
  desktopHeight : Nat := 1
  desktopCount : Nat := 0
deriving DecidableEq, Repr

/-- Modelled from the spec: the `STAT_*` bit masks of `client.h`, which is not
among the sources; the spec lists the window status flags
(mapped/shaded/hidden/fullscreen/active/flash, horizontal-maximized,
vertical-maximized, shaped).  Each field is the truth value of
`status & STAT_x`. -/
structure StatusFlags where
  STAT_ACTIVE : Bool := false
  STAT_MAPPED : Bool := false
  STAT_HMAX : Bool := false
  STAT_VMAX : Bool := false
  STAT_HIDDEN : Bool := false
  STAT_SHADED : Bool := false
  STAT_MINIMIZED : Bool := false
  STAT_FLASH : Bool := false
  STAT_FULLSCREEN : Bool := false
  STAT_SHAPED : Bool := false
deriving DecidableEq, Repr

/-- Modelled from the spec: the `BORDER_*` bit masks of `client.h`, which is
not among the sources; the spec lists the border style flags (outline, title
bar, close/maximize/minimize buttons, resizability, move-ability).  Each field
is the truth value of `border & BORDER_x`. -/
structure BorderFlags where
  BORDER_OUTLINE : Bool := false
  BORDER_TITLE : Bool := false
  BORDER_MIN : Bool := false
  BORDER_MAX : Bool := false
  BORDER_CLOSE : Bool := false
  BORDER_RESIZE : Bool := false
  BORDER_MOVE : Bool := false
deriving DecidableEq, Repr

/-- The `ClientState` of a client: status flags and border flags. -/
structure ClientState where
  status : StatusFlags := {}
  border : BorderFlags := {}
deriving DecidableEq, Repr

/-- The fields of `ClientNode` read by the border code: the state and the
client size (`int width, height`). -/
structure ClientNode where
  state : ClientState := {}
  width : Int := 0
  height : Int := 0
deriving DecidableEq, Repr

/-- The four out-parameters of `GetBorderSize`. -/
structure BorderSize where
  north : Int
  south : Int
  east : Int
  west : Int
deriving DecidableEq, Repr

/-! ## GetBorderSize -/

/-- `GetBorderSize` of `border.c`: the size of the borders for a client. -/
def GetBorderSize (settings : Settings) (state : ClientState) : BorderSize :=
  let b0 : BorderSize := ⟨0, 0, 0, 0⟩
  -- Full screen is a special case.
  if state.status.STAT_FULLSCREEN then b0
  else
    let b1 : BorderSize :=
      if state.border.BORDER_OUTLINE then
        let bv : BorderSize :=
          if !state.status.STAT_VMAX then
            { b0 with north := toInt settings.borderWidth,
                      south := toInt settings.borderWidth }
          else b0
        if !state.status.STAT_HMAX then
          { bv with east := toInt settings.borderWidth,
                    west := toInt settings.borderWidth }
        else bv
      else b0
    let b2 : BorderSize :=
      if state.border.BORDER_TITLE then
        if settings.handles then
          { b1 with north := toInt (uadd (toUnsigned b1.north) settings.titleHeight) }
        else
          { b1 with north := toInt settings.titleHeight }
      else b1
    if !settings.handles && state.status.STAT_SHADED then
      { b2 with south := 0 }
    else b2

/-- The inset an outline contributes to the north edge: `borderWidth` when an
outline is requested and the window is not vertically maximized. -/
def outlineNorth (settings : Settings) (state : ClientState) : Int :=
  if state.border.BORDER_OUTLINE && !state.status.STAT_VMAX then
    (settings.borderWidth : Int)
  else 0

/-- The inset an outline contributes to the east and west edges. -/
def outlineSide (settings : Settings) (state : ClientState) : Int :=
  if state.border.BORDER_OUTLINE && !state.status.STAT_HMAX then
    (settings.borderWidth : Int)
  else 0

/-! ## GetButtonCount

Code with early `return`s is embedded block by block: the function for a
block takes the current values of the local variables and gives what the
function returns when control reaches that block. -/

/-- `GetButtonCount` from `if(np->state.border & BORDER_MIN)` on. -/
def countFromMin (np : ClientNode) (count : Nat) : Nat :=
  if np.state.border.BORDER_MIN then count + 1 else count

/-- `GetButtonCount` from `if(np->state.border & BORDER_MAX)` on; the
comparison of the `int` `offset` with `2 * settings.titleHeight` is an
`unsigned int` comparison. -/
def countFromMax (settings : Settings) (np : ClientNode) (count : Nat) (offset : Int) : Nat :=
  if np.state.border.BORDER_MAX then
    if toUnsigned offset < umul 2 settings.titleHeight then count + 1
    else countFromMin np (count + 1)
  else countFromMin np count

/-- `GetButtonCount` from `if(np->state.border & BORDER_CLOSE)` on;
`offset -= settings.titleHeight` is an `unsigned int` subtraction stored in
the `int` `offset`. -/
def countFromClose (settings : Settings) (np : ClientNode) (count : Nat) (offset : Int) : Nat :=
  if np.state.border.BORDER_CLOSE then
    if toUnsigned offset ≤ umul 2 settings.titleHeight then count + 1
    else countFromMax settings np (count + 1)
      (toInt (usub (toUnsigned offset) settings.titleHeight))
  else countFromMax settings np count offset

/-- `GetButtonCount` of `border.c`: the number of buttons to be displayed for
a client. -/
def GetButtonCount (settings : Settings) (np : ClientNode) : Nat :=
  if np.state.border.BORDER_TITLE = false then 0
  else if settings.titleHeight ≤ settings.borderWidth then 0
  else
    let b := GetBorderSize settings np.state
    let offset : Int := iadd np.width b.west
    if toUnsigned offset ≤ umul 2 settings.titleHeight then 0
    else countFromClose settings np 0 offset

/-- One step of the shrink procedure of the spec: a button whose style flag is
set is accepted only while `offset > 2 × titleHeight`; accepting it adds one
to the count and takes `titleHeight` off the offset. -/
def specShrinkStep (titleHeight : Int) (acc : Nat × Int) (flag : Bool) : Nat × Int :=
  if flag = true ∧ acc.2 > 2 * titleHeight then (acc.1 + 1, acc.2 - titleHeight) else acc

/-- The button count as the spec words it (section 4.2), over mathematical
integers: 0 if no title bar is requested or `titleHeight ≤ borderWidth`;
otherwise start with `offset = clientWidth + west` and run the shrink step
for close, maximize, minimize in that order. -/
def specButtonCount (settings : Settings) (np : ClientNode) : Nat :=
  if np.state.border.BORDER_TITLE = false ∨ settings.titleHeight ≤ settings.borderWidth then 0
  else
    ([np.state.border.BORDER_CLOSE, np.state.border.BORDER_MAX,
      np.state.border.BORDER_MIN].foldl (specShrinkStep settings.titleHeight)
      (0, np.width + (GetBorderSize settings np.state).west)).1

/-! ## DrawBorderButtons -/

/-- The colour indices of `color.h` used by `DrawBorderButtons`. -/
abbrev ColorType := Nat

def COLOR_TITLE_FG : ColorType := 0
def COLOR_TITLE_ACTIVE_FG : ColorType := 1
def COLOR_BORDER_UP : ColorType := 56
def COLOR_BORDER_DOWN : ColorType := 57
def COLOR_BORDER_ACTIVE_UP : ColorType := 58
def COLOR_BORDER_ACTIVE_DOWN : ColorType := 59

/-- The drawing calls `DrawBorderButtons` issues on the title canvas.
`JXSetForeground c` stands for setting the foreground of `borderGC` to
`colors[c]`; the button calls carry the `xoffset` and `yoffset` the caller
passes, the top-left corner of the `titleHeight × titleHeight` button box. -/
inductive DrawCmd where
  | JXSetForeground (c : ColorType)
  | JXDrawLine (x1 y1 x2 y2 : Int)
  | DrawCloseButton (xoffset yoffset : Int)
  | DrawMaxIButton (xoffset yoffset : Int)
  | DrawMaxAButton (xoffset yoffset : Int)
  | DrawMinButton (xoffset yoffset : Int)
deriving DecidableEq, Repr

/-- The local variables of `DrawBorderButtons` that stay fixed once the
buttons are drawn: the three colours, the border size and `yoffset`. -/
structure ButtonPaint where
  color : ColorType
  pixelUp : ColorType
  pixelDown : ColorType
  b : BorderSize
  yoffset : Int
deriving DecidableEq, Repr

open DrawCmd in
/-- The block `if(settings.handles) { ... }` that precedes the maximize and
the minimize button: a dark and a light vertical line at `xoffset - 1` and
`xoffset`, from `south` to `south + settings.titleHeight`. -/
def separatorLines (settings : Settings) (p : ButtonPaint) (xoffset : Int) : List DrawCmd :=
  if settings.handles then
    [JXSetForeground p.pixelDown,
     JXDrawLine (iadd xoffset (-1)) p.b.south (iadd xoffset (-1))
       (toInt (uadd (toUnsigned p.b.south) settings.titleHeight)),
     JXSetForeground p.pixelUp,
     JXDrawLine xoffset p.b.south xoffset
       (toInt (uadd (toUnsigned p.b.south) settings.titleHeight))]
  else []

open DrawCmd in
/-- `DrawBorderButtons` from the separator lines before the minimize button
on. -/
def drawFromMin (settings : Settings) (np : ClientNode) (p : ButtonPaint)
    (xoffset : Int) : List DrawCmd :=
  separatorLines settings p xoffset ++
    (if np.state.border.BORDER_MIN then
      [JXSetForeground p.color, DrawMinButton xoffset p.yoffset]
    else [])

open DrawCmd in
/-- `DrawBorderButtons` from the separator lines before the maximize button
on; `xoffset -= settings.titleHeight` and `xoffset <= settings.titleHeight`
are `unsigned int` operations. -/
def drawFromMax (settings : Settings) (np : ClientNode) (p : ButtonPaint)
    (xoffset : Int) : List DrawCmd :=
  separatorLines settings p xoffset ++
    (if np.state.border.BORDER_MAX then
      [JXSetForeground p.color,
       if np.state.status.STAT_HMAX || np.state.status.STAT_VMAX then
         DrawMaxAButton xoffset p.yoffset
       else DrawMaxIButton xoffset p.yoffset] ++
      (if toUnsigned (toInt (usub (toUnsigned xoffset) settings.titleHeight))
            ≤ settings.titleHeight then []
       else drawFromMin settings np p
              (toInt (usub (toUnsigned xoffset) settings.titleHeight)))
    else drawFromMin settings np p xoffset)

open DrawCmd in
/-- `DrawBorderButtons` from the comment "Close button" on. -/
def drawFromClose (settings : Settings) (np : ClientNode) (p : ButtonPaint)
    (xoffset : Int) : List DrawCmd :=
  if np.state.border.BORDER_CLOSE then
    [JXSetForeground p.color, DrawCloseButton xoffset p.yoffset] ++
      (if toUnsigned (toInt (usub (toUnsigned xoffset) settings.titleHeight))
            ≤ settings.titleHeight then []
       else drawFromMax settings np p
              (toInt (usub (toUnsigned xoffset) settings.titleHeight)))
  else drawFromMax settings np p xoffset

open DrawCmd in
/-- `DrawBorderButtons` of `border.c`: the drawing calls for the buttons on a
client frame, in order.  `np->width + west - settings.titleHeight` and
`xoffset <= settings.titleHeight` are `unsigned int` operations on the `int`
`xoffset`; `xoffset -= 1` and `south - 1` are `int` operations. -/
def DrawBorderButtons (settings : Settings) (np : ClientNode) : List DrawCmd :=
  let b := GetBorderSize settings np.state
  let xoffset : Int :=
    toInt (usub (toUnsigned (iadd np.width b.west)) settings.titleHeight)
  if toUnsigned xoffset ≤ settings.titleHeight then []
  else
    -- Determine the colors to use.
    let active : Bool := np.state.status.STAT_ACTIVE || np.state.status.STAT_FLASH
    let color := if active then COLOR_TITLE_ACTIVE_FG else COLOR_TITLE_FG
    let pixelUp := if active then COLOR_BORDER_ACTIVE_UP else COLOR_BORDER_UP
    let pixelDown := if active then COLOR_BORDER_ACTIVE_DOWN else COLOR_BORDER_DOWN
    if settings.handles then
      [JXSetForeground pixelDown,
       JXDrawLine (toInt (usub (uadd (toUnsigned b.west) settings.titleHeight) 1)) b.south
         (toInt (usub (uadd (toUnsigned b.west) settings.titleHeight) 1))
         (toInt (uadd (toUnsigned b.south) settings.titleHeight)),
       JXDrawLine (iadd xoffset (-1)) b.south (iadd xoffset (-1))
         (toInt (uadd (toUnsigned b.south) settings.titleHeight)),
       JXSetForeground pixelUp,
       JXDrawLine (toInt (uadd (toUnsigned b.east) settings.titleHeight)) b.south
         (toInt (uadd (toUnsigned b.east) settings.titleHeight))
         (toInt (uadd (toUnsigned b.south) settings.titleHeight)),
       JXDrawLine xoffset b.south xoffset
         (toInt (uadd (toUnsigned b.south) settings.titleHeight))] ++
      drawFromClose settings np ⟨color, pixelUp, pixelDown, b, iadd b.south (-1)⟩
        (iadd xoffset (-1))
    else
      drawFromClose settings np ⟨color, pixelUp, pixelDown, b, 0⟩ xoffset

/-! ## GetBorderActionType -/

/-- Modelled from the spec: the `BorderActionType` bit field and the `BA_*`
constants of `border.h`, which is not among the sources.  The spec gives
`Action ∈ {None, Move, Menu, Close, Maximize, Minimize, Resize(edgeSet)}` with
`edgeSet ⊆ {N,S,E,W}`.  `BA_RESIZE n s e w` is the value with the `BA_RESIZE`
bit set and the bits `BA_RESIZE_N`, `BA_RESIZE_S`, `BA_RESIZE_E`,
`BA_RESIZE_W` set as the four flags say. -/
inductive BorderActionType where
  | BA_NONE
  | BA_RESIZE (n s e w : Bool)
  | BA_MOVE
  | BA_CLOSE
  | BA_MAXIMIZE
  | BA_MINIMIZE
  | BA_MENU
deriving DecidableEq, Repr

/-- The direction bits of the local `resizeMask` of `GetBorderActionType`
(the mask always contains the `BA_RESIZE` bit itself). -/
structure ResizeMask where
  n : Bool
  s : Bool
  e : Bool
  w : Bool
deriving DecidableEq, Repr

/-- The mask computed from the status: all four directions, with E and W
removed for `STAT_HMAX` and N and S removed for `STAT_VMAX` and for
`STAT_SHADED`. -/
def resizeMaskOf (status : StatusFlags) : ResizeMask :=
  let m0 : ResizeMask := ⟨true, true, true, true⟩
  let m1 : ResizeMask := if status.STAT_HMAX then { m0 with e := false, w := false } else m0
  let m2 : ResizeMask := if status.STAT_VMAX then { m1 with n := false, s := false } else m1
  if status.STAT_SHADED then { m2 with n := false, s := false } else m2

/-- The value `(dirs | BA_RESIZE) & resizeMask`. -/
def maskedResize (n s e w : Bool) (m : ResizeMask) : BorderActionType :=
  .BA_RESIZE (n && m.n) (s && m.s) (e && m.e) (w && m.w)

/-- The resize directions of an action: the `BA_RESIZE_N`, `BA_RESIZE_S`,
`BA_RESIZE_E`, `BA_RESIZE_W` bits of a resize action, none for the other
actions. -/
def BorderActionType.edges : BorderActionType → ResizeMask
  | .BA_RESIZE n s e w => ⟨n, s, e, w⟩
  | _ => ⟨false, false, false, false⟩

/-- The test `y >= settings.borderWidth && y <= titleHeight` (both
`unsigned int` comparisons). -/
def inTitleRows (settings : Settings) (titleHeight : Nat) (y : Int) : Prop :=
  settings.borderWidth ≤ toUnsigned y ∧ toUnsigned y ≤ titleHeight

instance (settings : Settings) (titleHeight : Nat) (y : Int) :
    Decidable (inTitleRows settings titleHeight y) := by
  unfold inTitleRows; infer_instance

/-- The test `offset > 2 * titleHeight` (an `unsigned int` comparison). -/
def buttonFits (titleHeight : Nat) (offset : Int) : Prop :=
  umul 2 titleHeight < toUnsigned offset

instance (titleHeight : Nat) (offset : Int) : Decidable (buttonFits titleHeight offset) := by
  unfold buttonFits; infer_instance

/-- The test `x > offset - titleHeight && x < offset`: the first comparison
is an `unsigned int` comparison, the second an `int` comparison. -/
def inButton (titleHeight : Nat) (offset x : Int) : Prop :=
  usub (toUnsigned offset) titleHeight < toUnsigned x ∧ x < offset

instance (titleHeight : Nat) (offset x : Int) : Decidable (inButton titleHeight offset x) := by
  unfold inButton; infer_instance

/-- The assignment `offset -= titleHeight` (an `unsigned int` subtraction
stored in the `int` `offset`). -/
def nextOffset (titleHeight : Nat) (offset : Int) : Int :=
  toInt (usub (toUnsigned offset) titleHeight)

open BorderActionType in
/-- The title bar block of `GetBorderActionType` from "Check for move" on:
`some a` when the block returns `a`, `none` when control leaves the block. -/
def hitFromMove (settings : Settings) (np : ClientNode) (titleHeight : Nat)
    (x y : Int) (offset : Int) : Option BorderActionType :=
  if inTitleRows settings titleHeight y then
    if settings.borderWidth < toUnsigned x ∧ x < offset then
      if np.state.border.BORDER_MOVE then some BA_MOVE else some BA_NONE
    else none
  else none

open BorderActionType in
/-- The title bar block from "Minimize button" on (the minimize check does
not change `offset`). -/
def hitFromMin (settings : Settings) (np : ClientNode) (titleHeight : Nat)
    (x y : Int) (offset : Int) : Option BorderActionType :=
  if np.state.border.BORDER_MIN = true ∧ buttonFits titleHeight offset then
    if inButton titleHeight offset x then some BA_MINIMIZE
    else hitFromMove settings np titleHeight x y offset
  else hitFromMove settings np titleHeight x y offset

open BorderActionType in
/-- The title bar block from "Maximize button" on. -/
def hitFromMax (settings : Settings) (np : ClientNode) (titleHeight : Nat)
    (x y : Int) (offset : Int) : Option BorderActionType :=
  if np.state.border.BORDER_MAX = true ∧ buttonFits titleHeight offset then
    if inButton titleHeight offset x then some BA_MAXIMIZE
    else hitFromMin settings np titleHeight x y (nextOffset titleHeight offset)
  else hitFromMin settings np titleHeight x y offset

open BorderActionType in
/-- The title bar block from "Close button" on. -/
def hitFromClose (settings : Settings) (np : ClientNode) (titleHeight : Nat)
    (x y : Int) (offset : Int) : Option BorderActionType :=
  if np.state.border.BORDER_CLOSE = true ∧ buttonFits titleHeight offset then
    if inButton titleHeight offset x then some BA_CLOSE
    else hitFromMax settings np titleHeight x y (nextOffset titleHeight offset)
  else hitFromMax settings np titleHeight x y offset

open BorderActionType in
/-- The block of `GetBorderActionType` under "Check title bar actions"
(entered when a title bar is requested and the local `titleHeight` exceeds
`settings.borderWidth`): `some a` when the block returns `a`, `none` when
control leaves the block.  The comparisons of `x`, `y` and `np->width` with
the `unsigned int` values `titleHeight` and `settings.borderWidth` are
`unsigned int` comparisons. -/
def titleBarAction (settings : Settings) (np : ClientNode) (titleHeight : Nat)
    (west : Int) (x y : Int) : Option BorderActionType :=
  -- Check buttons on the title bar.
  let offset : Int := iadd np.width west
  if inTitleRows settings titleHeight y then
    -- Menu button.
    if titleHeight ≤ toUnsigned np.width then
      if settings.borderWidth < toUnsigned x ∧ toUnsigned x ≤ titleHeight then
        some BA_MENU
      else hitFromClose settings np titleHeight x y offset
    else hitFromClose settings np titleHeight x y offset
  else hitFromMove settings np titleHeight x y offset

open BorderActionType in
/-- The edge checks of `GetBorderActionType` ("Check east, west, north, and
south resizing"); all four are `int` comparisons. -/
def edgeAction (np : ClientNode) (b : BorderSize) (resizeMask : ResizeMask)
    (x y : Int) : BorderActionType :=
  if x ≤ b.west then maskedResize false false false true resizeMask
  else if iadd np.width b.west ≤ x then maskedResize false false true false resizeMask
  else if iadd np.height b.north ≤ y then maskedResize false true false false resizeMask
  else if y ≤ b.south then maskedResize true false false false resizeMask
  else BA_NONE

/-- The east or west half of a corner check: `x < settings.titleHeight`
gives the west corner, `x > np->width + west - settings.titleHeight` the east
corner (`unsigned int` comparisons); otherwise control goes on to the edge
checks.  `n` and `s` say which of the two rows of corners is tested. -/
def cornerAction (settings : Settings) (np : ClientNode) (b : BorderSize)
    (resizeMask : ResizeMask) (n s : Bool) (x y : Int) : BorderActionType :=
  if toUnsigned x < settings.titleHeight then maskedResize n s false true resizeMask
  else if usub (toUnsigned (iadd np.width b.west)) settings.titleHeight < toUnsigned x then
    maskedResize n s true false resizeMask
  else edgeAction np b resizeMask x y

open BorderActionType in
/-- The part of `GetBorderActionType` from "Now we check resize actions" to
the end.  The comparisons with `settings.titleHeight * 2`,
`settings.titleHeight` and `... - settings.titleHeight` are `unsigned int`
comparisons. -/
def resizeAction (settings : Settings) (np : ClientNode) (b : BorderSize)
    (x y : Int) : BorderActionType :=
  -- There is no need to go further if resizing isn't allowed.
  if np.state.border.BORDER_RESIZE = false then BA_NONE
  else
    -- We don't allow resizing maximized windows.
    let resizeMask := resizeMaskOf np.state.status
    -- Check south east/west and north east/west resizing.
    if umul settings.titleHeight 2 ≤ toUnsigned np.width
        ∧ umul settings.titleHeight 2 ≤ toUnsigned np.height then
      if usub (toUnsigned (iadd np.height b.north)) settings.titleHeight < toUnsigned y then
        cornerAction settings np b resizeMask false true x y
      else if toUnsigned y < settings.titleHeight then
        cornerAction settings np b resizeMask true false x y
      else edgeAction np b resizeMask x y
    else edgeAction np b resizeMask x y

/-- The local `titleHeight` of `GetBorderActionType`: `settings.titleHeight`,
plus `settings.borderWidth` when handle style is on and the window is not
vertically maximized. -/
def hitTitleHeight (settings : Settings) (np : ClientNode) : Nat :=
  if settings.handles = true ∧ np.state.status.STAT_VMAX = false then
    uadd settings.titleHeight settings.borderWidth
  else settings.titleHeight

/-- `GetBorderActionType` of `border.c`: the border action to take given
coordinates: the title bar block first, then the resize checks. -/
def GetBorderActionType (settings : Settings) (np : ClientNode) (x y : Int) :
    BorderActionType :=
  let titleHeight := hitTitleHeight settings np
  let b := GetBorderSize settings np.state
  let titleResult : Option BorderActionType :=
    if np.state.border.BORDER_TITLE = true ∧ settings.borderWidth < titleHeight then
      titleBarAction settings np titleHeight b.west x y
    else none
  match titleResult with
  | some a => a
  | none => resizeAction settings np b x y

/-- The default settings of `InitializeSettings` (`titleHeight = 20`,
`borderWidth = 4`, handle style off). -/
def defaultSettings : Settings := {}

/-- A normal window 50 pixels wide: outline, title bar and all three control
buttons requested, mapped, not maximized or shaded. -/
def narrowClient : ClientNode :=
  { state := { status := { STAT_MAPPED := true },
               border := { BORDER_OUTLINE := true, BORDER_TITLE := true,
                           BORDER_MIN := true, BORDER_MAX := true,
                           BORDER_CLOSE := true, BORDER_RESIZE := true,
                           BORDER_MOVE := true } },
    width := 50, height := 100 }

/-! ## Auxiliary definitions for the statements -/

/-- The action and the top-left corner `(xoffset, yoffset)` of the button box
of a button drawing call; `none` for the other drawing calls. -/
def DrawCmd.buttonBox : DrawCmd → Option (BorderActionType × Int × Int)
  | .DrawCloseButton xoffset yoffset => some (.BA_CLOSE, xoffset, yoffset)
  | .DrawMaxIButton xoffset yoffset => some (.BA_MAXIMIZE, xoffset, yoffset)
  | .DrawMaxAButton xoffset yoffset => some (.BA_MAXIMIZE, xoffset, yoffset)
  | .DrawMinButton xoffset yoffset => some (.BA_MINIMIZE, xoffset, yoffset)
  | _ => none

/-- Scenario A of the spec: style {title, outline, close}, no maximize or shade
status, client width 200. -/
def scenarioAClient : ClientNode :=
  { state := { status := { STAT_MAPPED := true },
               border := { BORDER_OUTLINE := true, BORDER_TITLE := true,
                           BORDER_CLOSE := true } },
    width := 200, height := 100 }

/-- Settings with handle style on, as `StartupSettings` leaves them for a
configured title height of 20 and border width of 4 (`titleHeight = 24`). -/
def handleSettings : Settings := { titleHeight := 24, borderWidth := 4, handles := true }

/-- An action reports a resize direction only if the mask contains it. -/
def respectsMask (m : ResizeMask) (a : BorderActionType) : Prop :=
  (a.edges.n = true → m.n = true) ∧ (a.edges.s = true → m.s = true)
  ∧ (a.edges.e = true → m.e = true) ∧ (a.edges.w = true → m.w = true)

/-! ## StartupSettings (settings.c) -/

/-- `FixRange` of `settings.c`: the value, or `def_value` when the value is
below `min_value` or above `max_value`. -/
def FixRange (value min_value max_value def_value : Nat) : Nat :=
  if value < min_value ∨ value > max_value then def_value else value

/-- `StartupSettings` of `settings.c`: make sure settings are reasonable.
`settings.titleHeight += settings.borderWidth` and the product for
`desktopCount` are `unsigned int` operations. -/
def StartupSettings (settings : Settings) : Settings :=
  let s1 : Settings := { settings with borderWidth := FixRange settings.borderWidth 1 128 4 }
  let s2 : Settings :=
    if s1.handles then
      { s1 with titleHeight := FixRange (uadd s1.titleHeight s1.borderWidth) 1 256 20 }
    else
      { s1 with titleHeight := FixRange s1.titleHeight 1 256 20 }
  let s3 : Settings := { s2 with borderRadius := FixRange s2.borderRadius 1 64 4 }
  let s4 : Settings := { s3 with doubleClickDelta := FixRange s3.doubleClickDelta 0 64 2 }
  let s5 : Settings := { s4 with doubleClickSpeed := FixRange s4.doubleClickSpeed 1 2000 400 }
  let s6 : Settings := { s5 with desktopWidth := FixRange s5.desktopWidth 1 64 4 }
  let s7 : Settings := { s6 with desktopHeight := FixRange s6.desktopHeight 1 64 1 }
  { s7 with desktopCount := umul s7.desktopWidth s7.desktopHeight }

/-! ## DrawBorder -/

/-- `DrawBorder` of `border.c`: the drawing calls issued for a client border.
`shouldExit` is the global flag of that name; `DrawBorderHelper` is the helper
that does the actual drawing, given by the list of drawing calls it issues
for a client.  Every early `return` issues no call. -/
def DrawBorder {α : Type} (shouldExit : Bool) (DrawBorderHelper : ClientNode → List α)
    (np : ClientNode) : List α :=
  -- Don't draw any more if we are shutting down.
  if shouldExit then []
  -- Must be either mapped or shaded to have a border.
  else if !(np.state.status.STAT_MAPPED || np.state.status.STAT_SHADED) then []
  -- Hidden and fullscreen windows don't get borders.
  else if np.state.status.STAT_HIDDEN || np.state.status.STAT_FULLSCREEN then []
  -- Return if there is no border.
  else if !(np.state.border.BORDER_TITLE || np.state.border.BORDER_OUTLINE) then []
  -- Do the actual drawing.
  else DrawBorderHelper np

/-! ## Auxiliary definitions for the hit-testing statements -/

/-- The outcome of the title bar part of `GetBorderActionType`: `some a` when
the part under "Check title bar actions" returns `a` (the title strip claims
the point), `none` when control reaches the resize checks. -/
def titleStripResult (settings : Settings) (np : ClientNode) (x y : Int) :
    Option BorderActionType :=
  if np.state.border.BORDER_TITLE = true
      ∧ settings.borderWidth < hitTitleHeight settings np then
    titleBarAction settings np (hitTitleHeight settings np)
      (GetBorderSize settings np.state).west x y
  else none

/-- Whether an action is a resize action (has the `BA_RESIZE` bit). -/
def BorderActionType.isResize : BorderActionType → Bool
  | .BA_RESIZE _ _ _ _ => true
  | _ => false

/-- The effective title height in the words of the spec: `titleHeight`, plus
`borderWidth` when handle style is on and the window is not vertically
maximized. -/
def effectiveTitleHeight (settings : Settings) (np : ClientNode) : Int :=
  if settings.handles = true ∧ np.state.status.STAT_VMAX = false then
    (settings.titleHeight : Int) + (settings.borderWidth : Int)
  else (settings.titleHeight : Int)

/-- The right end of the title span after one button check, over mathematical
integers: a requested button is accepted while `offset > 2 × titleHeight` and
then takes `titleHeight` off the offset. -/
def offsetAfter (flag : Bool) (titleHeight offset : Int) : Int :=
  if flag = true ∧ 2 * titleHeight < offset then offset - titleHeight else offset

/-- Scenario C of the spec: style {title, close, maximize}, client width 30. -/
def scenarioCClient : ClientNode :=
  { state := { status := { STAT_MAPPED := true },
               border := { BORDER_TITLE := true, BORDER_CLOSE := true,
                           BORDER_MAX := true } },
    width := 30, height := 100 }

/-- Scenario B of the spec with resizing permitted: style {title, outline,
resize}, vertically maximized, client 200 × 100. -/
def scenarioBClient : ClientNode :=
  { state := { status := { STAT_MAPPED := true, STAT_VMAX := true },
               border := { BORDER_OUTLINE := true, BORDER_TITLE := true,
                           BORDER_RESIZE := true } },
    width := 200, height := 100 }

/-- A resizable client with a title bar and no outline, 200 × 100, not
maximized or shaded. -/
def borderlessClient : ClientNode :=
  { state := { status := { STAT_MAPPED := true },
               border := { BORDER_TITLE := true, BORDER_RESIZE := true } },
    width := 200, height := 100 }

/-- The start of the button scan in the title strip: `clientWidth + west`. -/
def stripOffset0 (settings : Settings) (np : ClientNode) : Int :=
  np.width + (GetBorderSize settings np.state).west

/-- The offset after the close button check (the left edge of the close
button when it is accepted). -/
def stripOffset1 (settings : Settings) (np : ClientNode) : Int :=
  offsetAfter np.state.border.BORDER_CLOSE (effectiveTitleHeight settings np)
    (stripOffset0 settings np)

/-- The offset after the maximize button check. -/
def stripOffset2 (settings : Settings) (np : ClientNode) : Int :=
  offsetAfter np.state.border.BORDER_MAX (effectiveTitleHeight settings np)
    (stripOffset1 settings np)

/-- The left edge of the last accepted button, or `clientWidth + west` if no
button is accepted. -/
def stripLeftEdge (settings : Settings) (np : ClientNode) : Int :=
  offsetAfter np.state.border.BORDER_MIN (effectiveTitleHeight settings np)
    (stripOffset2 settings np)

/-- The action of the rest of the title strip: Move if the style permits
moving, None otherwise. -/
def moveOrNone (np : ClientNode) : BorderActionType :=
  if np.state.border.BORDER_MOVE = true then .BA_MOVE else .BA_NONE

/-! ## ResetBorder: placement of the client window and of its shape -/

/-- The position `(west, north)` at which `ResetBorder` places the client
window inside the frame (`JXMoveResizeWindow(display, np->window, west,
north, ...)`). -/
def clientWindowPosition (settings : Settings) (np : ClientNode) : Int × Int :=
  ((GetBorderSize settings np.state).west, (GetBorderSize settings np.state).north)

/-- The offsets `ResetBorder` adds to the client's shape rectangles
(`rects[i].x += east; rects[i].y += north;`). -/
def shapeRectOffset (settings : Settings) (np : ClientNode) : Int × Int :=
  ((GetBorderSize settings np.state).east, (GetBorderSize settings np.state).north)

/-! ## Colours (color.c) -/

/-- The colour components of an `XColor` (`unsigned short` each) that
`color.c` reads and writes. -/
structure XColor where
  red : Nat
  green : Nat
  blue : Nat
deriving DecidableEq, Repr

/-- `GetRGBFromXColor` of `color.c`: an RGB value from an `XColor`. -/
def GetRGBFromXColor (c : XColor) : Nat :=
  let red := min ((c.red + 0x80) >>> 8) 0xFF
  let green := min ((c.green + 0x80) >>> 8) 0xFF
  let blue := min ((c.blue + 0x80) >>> 8) 0xFF
  (red <<< 16) ||| (green <<< 8) ||| blue

/-- `GetXColorFromRGB` of `color.c`: convert an RGB value to an `XColor`;
each component is cast to `unsigned short`. -/
def GetXColorFromRGB (rgb : Nat) : XColor :=
  { red := (((rgb >>> 16) &&& 0xFF) * 257) % 65536,
    green := (((rgb >>> 8) &&& 0xFF) * 257) % 65536,
    blue := ((rgb &&& 0xFF) * 257) % 65536 }

/-- The colour components `ParseColor` of `color.c` stores for a value
`#RRGGBB` read by `ReadHex` as `rgb` (`GetColor` then only sets the pixel). -/
def ParseColor_hex (rgb : Nat) : XColor :=
  { red := (((rgb >>> 16) &&& 0xFF) * 257) % 65536,
    green := (((rgb >>> 8) &&& 0xFF) * 257) % 65536,
    blue := ((rgb &&& 0xFF) * 257) % 65536 }

/-- The RGB value `StartupColors` records in `rgbColors` for a colour given
as `#RRGGBB`: `GetRGBFromXColor` of the parsed colour. -/
def StartupColors_rgb (rgb : Nat) : Nat := GetRGBFromXColor (ParseColor_hex rgb)

/-- The RGB value `SetDefaultColor` records in `rgbColors` for a default
colour: the table value itself. -/
def SetDefaultColor_rgb (rgb : Nat) : Nat := rgb

/-- A client 10 pixels wide with all three control buttons requested. -/
def tinyClient : ClientNode := { narrowClient with width := 10 }

/-! ## Buttons (button.c) -/

/-- The value an `int` computation leaves in an `int` (two's complement
wrap-around). -/
def wrapInt (i : Int) : Int := toInt (toUnsigned i)

/-- The size of the image of an icon (`ip->image->width`,
`ip->image->height`, both `int`). -/
structure ImageNode where
  width : Int
  height : Int
deriving DecidableEq, Repr

/-- An `IconNode` as `GetScaledIconSize` sees it: the distinguished
`emptyIcon`, or an icon with image data. -/
inductive IconNode where
  | emptyIcon
  | icon (image : ImageNode)
deriving DecidableEq, Repr

/-- `GetScaledIconSize` of `button.c`: the scaled size `(width, height)` of an
icon for a button; `none` stands for a division by zero.  `<< 16` is a
multiplication by 65536, `>> 16` the division by 65536 rounding down, and
`/` the C division, which truncates. -/
def GetScaledIconSize (ip : IconNode) (maxsize : Int) : Option (Int × Int) :=
  match ip with
  | .emptyIcon => some (maxsize, maxsize)
  | .icon image =>
    if image.height = 0 then none
    else
      -- Fixed point with 16-bit fraction.
      let ratio : Int := Int.tdiv (wrapInt (image.width * 65536)) image.height
      if image.width > image.height then
        -- Compute size wrt width
        if ratio = 0 then none
        else some (maxsize, Int.tdiv (wrapInt (maxsize * 65536)) ratio)
      else
        -- Compute size wrt height
        some (wrapInt (maxsize * ratio) / 65536, maxsize)

/-- The alignment of a button (`bp->alignment`). -/
inductive AlignmentType where
  | ALIGN_LEFT
  | ALIGN_CENTER
deriving DecidableEq, Repr

/-- The fields of `ButtonNode` that decide the placement of the icon and the
label in `DrawButton`; `text` is `none` for a `NULL` text. -/
structure ButtonNode where
  x : Int := 0
  y : Int := 0
  width : Int := 1
  height : Int := 1
  alignment : AlignmentType := .ALIGN_LEFT
  icon : Option IconNode := none
  text : Option String := none
deriving DecidableEq, Repr

/-- The calls with which `DrawButton` displays the icon and the label:
`PutIcon` at `(x, y)` with a size, `RenderString` at `(x, y)` with a width
and the text. -/
inductive ButtonCall where
  | PutIcon (x y width height : Int)
  | RenderString (x y width : Int) (text : String)
deriving DecidableEq, Repr

/-- `DrawButton`, "Determine the size of the icon (if any) to display":
`(iconWidth, iconHeight)`. -/
def buttonIconSize (bp : ButtonNode) : Option (Int × Int) :=
  match bp.icon with
  | none => some (0, 0)
  | some ip =>
    if bp.width < bp.height then GetScaledIconSize ip (wrapInt (bp.width - 5))
    else GetScaledIconSize ip (wrapInt (bp.height - 5))

/-- `DrawButton`, "Determine how much room is left for text": `textWidth`,
given `iconWidth` and the value `GetStringWidth` returns for the text. -/
def buttonTextWidth (bp : ButtonNode) (iconWidth stringWidth : Int) : Int :=
  match bp.text with
  | none => 0
  | some _ =>
    if wrapInt (wrapInt (stringWidth + iconWidth) + 8) > bp.width then
      if wrapInt (wrapInt (bp.width - iconWidth) - 8) < 0 then 0
      else wrapInt (wrapInt (bp.width - iconWidth) - 8)
    else stringWidth

/-- `DrawButton`, "Determine the offset of the text in the button":
`xoffset`. -/
def buttonAlignOffset (bp : ButtonNode) (iconWidth textWidth : Int) : Int :=
  if bp.alignment = .ALIGN_CENTER then
    if Int.tdiv (wrapInt (wrapInt (wrapInt (bp.width - iconWidth) - textWidth) + 1)) 2 < 0
    then 0
    else Int.tdiv (wrapInt (wrapInt (wrapInt (bp.width - iconWidth) - textWidth) + 1)) 2
  else 4

/-- The `xoffset` at which the label starts: the alignment offset, plus
`iconWidth + 2` when the button has an icon (`xoffset += iconWidth + 2`). -/
def buttonLabelOffset (bp : ButtonNode) (iconWidth textWidth : Int) : Int :=
  match bp.icon with
  | none => buttonAlignOffset bp iconWidth textWidth
  | some _ =>
    wrapInt (buttonAlignOffset bp iconWidth textWidth + wrapInt (iconWidth + 2))

/-- `DrawButton` of `button.c` from "Determine the size of the icon" on: the
calls that display the icon and the label (the background and the border
drawn before do not depend on them).  `stringWidth` and `stringHeight` are
the values of `GetStringWidth(bp->font, bp->text)` and
`GetStringHeight(bp->font)`; `none` stands for a division by zero in
`GetScaledIconSize`. -/
def DrawButton (bp : ButtonNode) (stringWidth stringHeight : Int) :
    Option (List ButtonCall) :=
  match buttonIconSize bp with
  | none => none
  | some (iconWidth, iconHeight) =>
    let textWidth := buttonTextWidth bp iconWidth stringWidth
    let textHeight : Int := match bp.text with
      | none => 0
      | some _ => stringHeight
    let xoffset := buttonAlignOffset bp iconWidth textWidth
    -- Display the icon.
    let iconCalls : List ButtonCall := match bp.icon with
      | none => []
      | some _ =>
        [.PutIcon (wrapInt (bp.x + xoffset))
          (wrapInt (bp.y + Int.tdiv (wrapInt (wrapInt (bp.height - iconHeight) + 1)) 2))
          iconWidth iconHeight]
    -- Display the label.
    let labelCalls : List ButtonCall := match bp.text with
      | none => []
      | some text =>
        if textWidth ≠ 0 then
          [.RenderString (wrapInt (bp.x + buttonLabelOffset bp iconWidth textWidth))
            (wrapInt (bp.y + Int.tdiv (wrapInt (wrapInt (bp.height - textHeight) + 1)) 2))
            textWidth text]
        else []
    some (iconCalls ++ labelCalls)


/-! ## DrawBorderHelper -/

def COLOR_TITLE_BG1 : ColorType := 2
def COLOR_TITLE_BG2 : ColorType := 3
def COLOR_TITLE_ACTIVE_BG1 : ColorType := 4
def COLOR_TITLE_ACTIVE_BG2 : ColorType := 5
def COLOR_BORDER_LINE : ColorType := 6
def COLOR_BORDER_ACTIVE_LINE : ColorType := 7

/-- `GetBorderIconSize` of `border.c`: `settings.titleHeight - 4`, an
`unsigned int` difference returned as `int`. -/
def GetBorderIconSize (settings : Settings) : Int := toInt (usub settings.titleHeight 4)

/-- The fields of `ClientNode` that `DrawBorderHelper` reads for the title:
whether `np->icon` is set, and `np->name` (`none` for `NULL`). -/
structure ClientTitle where
  icon : Bool := false
  name : Option String := none
deriving DecidableEq, Repr

/-- The calls `DrawBorderHelper` issues.  A colour argument `c` stands for
`colors[c]`; `JXFreePixmap`, `JXCreatePixmap` and the drawing calls on
`canvas` refer to the one pixmap of the function; `DrawBorderButtons` carries
the calls of that function and `DrawBorderHandles` stands for the call of
that name. -/
inductive FrameCall where
  | JXSetWindowBackground (c : ColorType)
  | JXCreatePixmap (width height : Nat)
  | JXSetForeground (c : ColorType)
  | JXFillRectangle (x y : Int) (width height : Nat)
  | DrawHorizontalGradient (c1 c2 : ColorType) (x y : Int) (width height : Nat)
  | PutIcon (c : ColorType) (x y width height : Int)
  | RenderString (c : ColorType) (x y width : Int) (text : String)
  | DrawBorderButtons (calls : List DrawCmd)
  | JXCopyArea (srcx srcy : Int) (width height : Nat) (destx desty : Int)
  | JXFreePixmap
  | JXClearArea (x y : Int) (width height : Nat)
  | DrawBorderHandles
  | DrawRoundedRectangle (x y width height radius : Int)
  | JXDrawRectangle (x y : Int) (width height : Nat)
deriving DecidableEq, Repr

/-- The local `width` of `DrawBorderHelper`: `np->width + east + west` stored
in an `unsigned int`. -/
def frameWidth (settings : Settings) (np : ClientNode) : Nat :=
  let b := GetBorderSize settings np.state
  toUnsigned (iadd (iadd np.width b.east) b.west)

/-- The local `height` of `DrawBorderHelper`. -/
def frameHeight (settings : Settings) (np : ClientNode) : Nat :=
  let b := GetBorderSize settings np.state
  if np.state.status.STAT_SHADED then toUnsigned (iadd b.north b.south)
  else toUnsigned (iadd (iadd np.height b.north) b.south)

/-- `DrawBorderHelper`, "Determine how many pixels may be used for the
title": the final value of the `int` `titleWidth`.  The first subtraction is
an `unsigned int` operation (`settings.titleHeight * buttonCount` is
unsigned), the second an `int` operation. -/
def titleWidth (settings : Settings) (np : ClientNode) : Int :=
  let iconSize := GetBorderIconSize settings
  let buttonCount := GetButtonCount settings np
  let titleWidth0 : Int := toInt (frameWidth settings np)
  let titleWidth1 : Int :=
    toInt (usub (toUnsigned titleWidth0) (umul settings.titleHeight buttonCount))
  wrapInt (titleWidth1 - wrapInt (wrapInt (iconSize + 7) + 6))

open FrameCall in
/-- `DrawBorderHelper`, the block under "Draw the top part (either a title or
north border)": the gradient, the icon, the title string and the buttons.
`sheight` is the value of `GetStringHeight(FONT_BORDER)`.  The sums with
`settings.titleHeight` are `unsigned int` operations passed to `int`
parameters. -/
def titleBarCalls (settings : Settings) (np : ClientNode) (tc : ClientTitle)
    (sheight : Int) : List FrameCall :=
  let b := GetBorderSize settings np.state
  let iconSize := GetBorderIconSize settings
  let width := frameWidth settings np
  let active : Bool := np.state.status.STAT_ACTIVE || np.state.status.STAT_FLASH
  let borderTextColor := if active then COLOR_TITLE_ACTIVE_FG else COLOR_TITLE_FG
  let titleColor1 := if active then COLOR_TITLE_ACTIVE_BG1 else COLOR_TITLE_BG1
  let titleColor2 := if active then COLOR_TITLE_ACTIVE_BG2 else COLOR_TITLE_BG2
  let startx : Int := wrapInt (b.west + 1)
  let starty : Int :=
    if settings.handles && !np.state.status.STAT_VMAX then b.west else 0
  -- Draw a title bar.
  [DrawHorizontalGradient titleColor1 titleColor2 1 1 (usub width 2)
     (usub settings.titleHeight 2)]
  -- Draw the icon.
  ++ (if tc.icon = true ∧ settings.titleHeight ≤ toUnsigned np.width then
        [PutIcon borderTextColor startx
           (toInt (uadd (toUnsigned starty)
              (usub settings.titleHeight (toUnsigned iconSize) / 2)))
           iconSize iconSize]
      else [])
  ++ (match tc.name with
      | none => []
      | some name =>
        if name ≠ "" ∧ titleWidth settings np > 0 then
          [RenderString borderTextColor
             (toInt (uadd (uadd (toUnsigned startx) settings.titleHeight) 4))
             (toInt (uadd (toUnsigned starty)
                (usub settings.titleHeight (toUnsigned sheight) / 2)))
             (titleWidth settings np) name]
        else [])
  ++ [FrameCall.DrawBorderButtons (JWM.DrawBorderButtons settings np)]

open FrameCall in
/-- `DrawBorderHelper`, the part after `JXClearArea` ("Window outline"):
the handles, or the outline colour and one rectangle. -/
def outlineCalls (settings : Settings) (np : ClientNode) : List FrameCall :=
  let b := GetBorderSize settings np.state
  let width := frameWidth settings np
  let height := frameHeight settings np
  let active : Bool := np.state.status.STAT_ACTIVE || np.state.status.STAT_FLASH
  let outlineColor := if active then COLOR_BORDER_ACTIVE_LINE else COLOR_BORDER_LINE
  if settings.handles then [DrawBorderHandles]
  else
    [JXSetForeground outlineColor,
     if np.state.status.STAT_SHADED then
       DrawRoundedRectangle 0 0 (toInt (usub width 1)) (wrapInt (b.north - 1))
         (toInt settings.borderRadius)
     else if np.state.status.STAT_HMAX || np.state.status.STAT_VMAX then
       JXDrawRectangle 0 0 (usub width 1) (usub height 1)
     else
       DrawRoundedRectangle 0 0 (toInt (usub width 1)) (toInt (usub height 1))
         (toInt settings.borderRadius)]

open FrameCall in
/-- `DrawBorderHelper` of `border.c`: the calls issued to draw the border of
a client, in order. -/
def DrawBorderHelper (settings : Settings) (np : ClientNode) (tc : ClientTitle)
    (sheight : Int) : List FrameCall :=
  let b := GetBorderSize settings np.state
  let width := frameWidth settings np
  let height := frameHeight settings np
  let active : Bool := np.state.status.STAT_ACTIVE || np.state.status.STAT_FLASH
  let titleColor2 := if active then COLOR_TITLE_ACTIVE_BG2 else COLOR_TITLE_BG2
  -- Set parent background to reduce flicker.
  [JXSetWindowBackground titleColor2,
   JXCreatePixmap width (toUnsigned b.north),
   -- Clear the window with the right color.
   JXSetForeground titleColor2,
   JXFillRectangle 0 0 width (toUnsigned b.north)]
  -- Draw the top part (either a title or north border).
  ++ (if np.state.border.BORDER_TITLE = true
          ∧ settings.borderWidth < settings.titleHeight then
        titleBarCalls settings np tc sheight
      else [])
  -- Copy the title bar to the window.
  ++ [JXCopyArea 1 1 (usub width 2) (toUnsigned (wrapInt (b.north - 1))) 1 1,
      JXFreePixmap,
      JXClearArea 0 b.north width (usub height (toUnsigned b.north))]
  -- Window outline.
  ++ outlineCalls settings np

/-- Whether a call draws an outline rectangle (plain or rounded). -/
def FrameCall.isOutline : FrameCall → Bool
  | .DrawRoundedRectangle _ _ _ _ _ => true
  | .JXDrawRectangle _ _ _ _ => true
  | _ => false

/-- A shaded window that is maximized on both axes, with outline and title
bar requested. -/
def shadedMaxClient : ClientNode :=
  { state := { status := { STAT_MAPPED := true, STAT_SHADED := true,
                           STAT_HMAX := true, STAT_VMAX := true },
               border := { BORDER_OUTLINE := true, BORDER_TITLE := true } },
    width := 200, height := 100 }

/-! ## Lemmas: C integer conversions without wrap-around -/

theorem toInt_of_le {u : Nat} (h : u ≤ 2147483647) : toInt u = (u : Int) := by
  unfold toInt
  have h1 : u % 4294967296 = u := Nat.mod_eq_of_lt (by omega)
  rw [h1]
  split_ifs with h2
  · rfl
  · omega

theorem toUnsigned_natCast {u : Nat} (h : u ≤ 4294967295) :
    toUnsigned (u : Int) = u := by
  unfold toUnsigned
  omega

theorem toUnsigned_toInt (u : Nat) : toUnsigned (toInt u) = u % 4294967296 := by
  unfold toUnsigned toInt
  split_ifs <;> omega

theorem toUnsigned_lt (i : Int) : toUnsigned i < 4294967296 := by
  unfold toUnsigned
  omega

theorem toUnsigned_of_range {i : Int} (h0 : 0 ≤ i) (h : i ≤ 4294967295) :
    (toUnsigned i : Int) = i := by
  unfold toUnsigned
  omega

theorem iadd_of_range {a b : Int} (h0 : 0 ≤ a + b) (h : a + b ≤ 2147483647) :
    iadd a b = a + b := by
  unfold iadd
  have h1 : (toUnsigned (a + b) : Int) = a + b := toUnsigned_of_range h0 (by omega)
  rw [toInt_of_le (by omega), h1]

theorem toUnsigned_le_iff {t : Nat} {o : Int} (h0 : 0 ≤ o) (h : o ≤ 2147483647) :
    toUnsigned o ≤ t ↔ o ≤ (t : Int) := by
  unfold toUnsigned
  omega

theorem buttonFits_iff {t : Nat} {o : Int} (ht : t ≤ 2147483647) (h0 : 0 ≤ o)
    (h : o ≤ 2147483647) : buttonFits t o ↔ 2 * (t : Int) < o := by
  unfold buttonFits umul toUnsigned
  omega

theorem inButton_iff {t : Nat} {o x : Int} (hto : (t : Int) ≤ o) (h : o ≤ 2147483647)
    (hx0 : 0 ≤ x) (hx : x ≤ 2147483647) :
    inButton t o x ↔ o - (t : Int) < x ∧ x < o := by
  unfold inButton usub toUnsigned
  omega

theorem nextOffset_eq {t : Nat} {o : Int} (hto : (t : Int) ≤ o) (h : o ≤ 2147483647) :
    nextOffset t o = o - (t : Int) := by
  unfold nextOffset
  have h1 : usub (toUnsigned o) t = (o - (t : Int)).toNat := by
    unfold usub toUnsigned
    omega
  rw [h1, toInt_of_le (by omega)]
  omega

theorem toInt_usub_eq {t : Nat} {o : Int} (hto : (t : Int) ≤ o) (h : o ≤ 2147483647) :
    toInt (usub (toUnsigned o) t) = o - (t : Int) := nextOffset_eq hto h

/-! ## Lemmas: GetBorderSize and GetButtonCount -/

theorem GetBorderSize_west_cases (settings : Settings) (state : ClientState) :
    (GetBorderSize settings state).west = 0
    ∨ (GetBorderSize settings state).west = toInt settings.borderWidth := by
  cases hF : state.status.STAT_FULLSCREEN <;> cases hT : state.border.BORDER_TITLE <;>
    cases hH : settings.handles <;> cases hO : state.border.BORDER_OUTLINE <;>
    cases hV : state.status.STAT_VMAX <;> cases hM : state.status.STAT_HMAX <;>
    cases hS : state.status.STAT_SHADED <;>
    simp [GetBorderSize, hF, hT, hH, hO, hV, hM, hS]

theorem GetBorderSize_west_range (settings : Settings) (state : ClientState)
    (hbw : settings.borderWidth ≤ 2147483647) :
    0 ≤ (GetBorderSize settings state).west
    ∧ (GetBorderSize settings state).west ≤ settings.borderWidth := by
  rcases GetBorderSize_west_cases settings state with h | h
  · rw [h]; omega
  · rw [h, toInt_of_le hbw]; omega

theorem countFromMin_le (np : ClientNode) (c : Nat) :
    c ≤ countFromMin np c ∧ countFromMin np c ≤ c + 1 := by
  unfold countFromMin
  split_ifs <;> omega

theorem countFromMax_mono (settings : Settings) (np : ClientNode) (c : Nat) (o1 o2 : Int)
    (h : toUnsigned o1 ≤ toUnsigned o2) :
    countFromMax settings np c o1 ≤ countFromMax settings np c o2 := by
  have hm := countFromMin_le np (c + 1)
  unfold countFromMax
  split_ifs <;> omega

theorem countFromClose_mono (settings : Settings) (np : ClientNode) (c : Nat) (o1 o2 : Int)
    (hth : settings.titleHeight ≤ 2147483647)
    (h1 : umul 2 settings.titleHeight < toUnsigned o1)
    (h : toUnsigned o1 ≤ toUnsigned o2) :
    countFromClose settings np c o1 ≤ countFromClose settings np c o2 := by
  have hmul : umul 2 settings.titleHeight = 2 * settings.titleHeight := by
    unfold umul; omega
  have hl1 := toUnsigned_lt o1
  have hl2 := toUnsigned_lt o2
  unfold countFromClose
  split_ifs with hc ha hb
  · omega
  · omega
  · omega
  · apply countFromMax_mono
    rw [toUnsigned_toInt, toUnsigned_toInt]
    unfold usub
    omega
  · exact countFromMax_mono _ _ _ _ _ h

/-! ## Lemmas: the actions GetBorderActionType can return -/

theorem maskedResize_respects (n s e w : Bool) (m : ResizeMask) :
    respectsMask m (maskedResize n s e w m) := by
  cases n <;> cases s <;> cases e <;> cases w <;>
    simp [respectsMask, maskedResize, BorderActionType.edges]

theorem edgeAction_respects (np : ClientNode) (b : BorderSize) (m : ResizeMask) (x y : Int) :
    respectsMask m (edgeAction np b m x y) := by
  unfold edgeAction
  split_ifs
  · exact maskedResize_respects _ _ _ _ _
  · exact maskedResize_respects _ _ _ _ _
  · exact maskedResize_respects _ _ _ _ _
  · exact maskedResize_respects _ _ _ _ _
  · simp [respectsMask, BorderActionType.edges]

theorem cornerAction_respects (settings : Settings) (np : ClientNode) (b : BorderSize)
    (m : ResizeMask) (n s : Bool) (x y : Int) :
    respectsMask m (cornerAction settings np b m n s x y) := by
  unfold cornerAction
  split_ifs
  · exact maskedResize_respects _ _ _ _ _
  · exact maskedResize_respects _ _ _ _ _
  · exact edgeAction_respects _ _ _ _ _

theorem resizeAction_respects (settings : Settings) (np : ClientNode) (b : BorderSize)
    (x y : Int) :
    respectsMask (resizeMaskOf np.state.status) (resizeAction settings np b x y) := by
  unfold resizeAction
  split_ifs
  · simp [respectsMask, BorderActionType.edges]
  · exact cornerAction_respects _ _ _ _ _ _ _ _
  · exact cornerAction_respects _ _ _ _ _ _ _ _
  · exact edgeAction_respects _ _ _ _ _
  · exact edgeAction_respects _ _ _ _ _

theorem hitFromMove_cases (settings : Settings) (np : ClientNode) (t : Nat) (x y o : Int) :
    hitFromMove settings np t x y o = none
    ∨ hitFromMove settings np t x y o = some .BA_MOVE
    ∨ hitFromMove settings np t x y o = some .BA_NONE := by
  unfold hitFromMove
  split_ifs <;> simp

theorem hitFromMove_edges (settings : Settings) (np : ClientNode) (t : Nat) (x y o : Int)
    (a : BorderActionType) (h : hitFromMove settings np t x y o = some a) :
    a.edges = ⟨false, false, false, false⟩ := by
  rcases hitFromMove_cases settings np t x y o with h1 | h1 | h1 <;>
    rw [h1] at h <;> simp at h <;> subst h <;> rfl

theorem hitFromMin_edges (settings : Settings) (np : ClientNode) (t : Nat) (x y o : Int)
    (a : BorderActionType) (h : hitFromMin settings np t x y o = some a) :
    a.edges = ⟨false, false, false, false⟩ := by
  unfold hitFromMin at h
  split_ifs at h
  · simp at h; subst h; rfl
  · exact hitFromMove_edges _ _ _ _ _ _ _ h
  · exact hitFromMove_edges _ _ _ _ _ _ _ h

theorem hitFromMax_edges (settings : Settings) (np : ClientNode) (t : Nat) (x y o : Int)
    (a : BorderActionType) (h : hitFromMax settings np t x y o = some a) :
    a.edges = ⟨false, false, false, false⟩ := by
  unfold hitFromMax at h
  split_ifs at h
  · simp at h; subst h; rfl
  · exact hitFromMin_edges _ _ _ _ _ _ _ h
  · exact hitFromMin_edges _ _ _ _ _ _ _ h

theorem hitFromClose_edges (settings : Settings) (np : ClientNode) (t : Nat) (x y o : Int)
    (a : BorderActionType) (h : hitFromClose settings np t x y o = some a) :
    a.edges = ⟨false, false, false, false⟩ := by
  unfold hitFromClose at h
  split_ifs at h
  · simp at h; subst h; rfl
  · exact hitFromMax_edges _ _ _ _ _ _ _ h
  · exact hitFromMax_edges _ _ _ _ _ _ _ h

theorem titleBarAction_edges (settings : Settings) (np : ClientNode) (t : Nat)
    (west x y : Int) (a : BorderActionType)
    (h : titleBarAction settings np t west x y = some a) :
    a.edges = ⟨false, false, false, false⟩ := by
  unfold titleBarAction at h
  dsimp only at h
  split_ifs at h
  · simp at h; subst h; rfl
  · exact hitFromClose_edges _ _ _ _ _ _ _ h
  · exact hitFromClose_edges _ _ _ _ _ _ _ h
  · exact hitFromMove_edges _ _ _ _ _ _ _ h

theorem GetBorderActionType_respects (settings : Settings) (np : ClientNode) (x y : Int) :
    respectsMask (resizeMaskOf np.state.status) (GetBorderActionType settings np x y) := by
  unfold GetBorderActionType
  dsimp only
  split
  · rename_i a h
    split_ifs at h
    · have := titleBarAction_edges _ _ _ _ _ _ _ h
      simp [respectsMask, this]
  · exact resizeAction_respects _ _ _ _ _

theorem resizeMaskOf_hmax (st : StatusFlags) (h : st.STAT_HMAX = true) :
    (resizeMaskOf st).e = false ∧ (resizeMaskOf st).w = false := by
  cases hV : st.STAT_VMAX <;> cases hS : st.STAT_SHADED <;> simp [resizeMaskOf, h, hV, hS]

theorem resizeMaskOf_vmax_shaded (st : StatusFlags)
    (h : st.STAT_VMAX = true ∨ st.STAT_SHADED = true) :
    (resizeMaskOf st).n = false ∧ (resizeMaskOf st).s = false := by
  cases hH : st.STAT_HMAX <;> cases hV : st.STAT_VMAX <;> cases hS : st.STAT_SHADED <;>
    simp_all [resizeMaskOf]

theorem edgeAction_cases (np : ClientNode) (b : BorderSize) (m : ResizeMask) (x y : Int) :
    edgeAction np b m x y = .BA_NONE
    ∨ ∃ n s e w, edgeAction np b m x y = .BA_RESIZE n s e w := by
  unfold edgeAction
  split_ifs
  · exact Or.inr ⟨_, _, _, _, rfl⟩
  · exact Or.inr ⟨_, _, _, _, rfl⟩
  · exact Or.inr ⟨_, _, _, _, rfl⟩
  · exact Or.inr ⟨_, _, _, _, rfl⟩
  · exact Or.inl rfl

theorem cornerAction_cases (settings : Settings) (np : ClientNode) (b : BorderSize)
    (m : ResizeMask) (n s : Bool) (x y : Int) :
    cornerAction settings np b m n s x y = .BA_NONE
    ∨ ∃ n' s' e w, cornerAction settings np b m n s x y = .BA_RESIZE n' s' e w := by
  unfold cornerAction
  split_ifs
  · exact Or.inr ⟨_, _, _, _, rfl⟩
  · exact Or.inr ⟨_, _, _, _, rfl⟩
  · exact edgeAction_cases _ _ _ _ _

theorem resizeAction_cases (settings : Settings) (np : ClientNode) (b : BorderSize)
    (x y : Int) :
    resizeAction settings np b x y = .BA_NONE
    ∨ ∃ n s e w, resizeAction settings np b x y = .BA_RESIZE n s e w := by
  unfold resizeAction
  split_ifs
  · exact Or.inl rfl
  · exact cornerAction_cases _ _ _ _ _ _ _ _
  · exact cornerAction_cases _ _ _ _ _ _ _ _
  · exact edgeAction_cases _ _ _ _ _
  · exact edgeAction_cases _ _ _ _ _

theorem hitFromMin_of_not_fits (settings : Settings) (np : ClientNode) (t : Nat)
    (x y o : Int) (h : ¬ buttonFits t o) :
    hitFromMin settings np t x y o = hitFromMove settings np t x y o := by
  unfold hitFromMin
  rw [if_neg (fun hc => h hc.2)]

theorem hitFromMax_of_not_fits (settings : Settings) (np : ClientNode) (t : Nat)
    (x y o : Int) (h : ¬ buttonFits t o) :
    hitFromMax settings np t x y o = hitFromMove settings np t x y o := by
  unfold hitFromMax
  rw [if_neg (fun hc => h hc.2)]
  exact hitFromMin_of_not_fits _ _ _ _ _ _ h

/-! ## Lemmas: drawn button boxes and hit-testing, handle style off -/

theorem drawFromMin_hit (settings : Settings) (np : ClientNode) (p : ButtonPaint)
    (o x y : Int) (cmd : DrawCmd) (a : BorderActionType) (xo yo : Int)
    (hH : settings.handles = false) (ht : settings.titleHeight ≤ 2147483647)
    (ho : 2 * (settings.titleHeight : Int) < o) (ho2 : o ≤ 2147483647)
    (hmem : cmd ∈ drawFromMin settings np p (o - (settings.titleHeight : Int)))
    (hbox : cmd.buttonBox = some (a, xo, yo))
    (hx1 : xo < x) (hx2 : x < xo + (settings.titleHeight : Int)) :
    (settings.titleHeight : Int) < xo ∧ xo ≤ o - (settings.titleHeight : Int)
    ∧ yo = p.yoffset
    ∧ hitFromMin settings np settings.titleHeight x y o = some a := by
  unfold drawFromMin separatorLines at hmem
  rw [hH] at hmem
  cases hM : np.state.border.BORDER_MIN
  · rw [hM] at hmem
    simp at hmem
  · rw [hM] at hmem
    simp at hmem
    rcases hmem with h | h
    · subst h; simp [DrawCmd.buttonBox] at hbox
    · subst h
      simp [DrawCmd.buttonBox] at hbox
      obtain ⟨ha, hxo, hyo⟩ := hbox
      subst ha
      refine ⟨by omega, by omega, hyo.symm, ?_⟩
      unfold hitFromMin
      have hf : buttonFits settings.titleHeight o :=
        (buttonFits_iff ht (by omega) ho2).2 ho
      have hb : inButton settings.titleHeight o x :=
        (inButton_iff (by omega) ho2 (by omega) (by omega)).2 ⟨by omega, by omega⟩
      rw [if_pos ⟨hM, hf⟩, if_pos hb]

theorem drawFromMax_hit (settings : Settings) (np : ClientNode) (p : ButtonPaint)
    (o x y : Int) (cmd : DrawCmd) (a : BorderActionType) (xo yo : Int)
    (hH : settings.handles = false) (ht : settings.titleHeight ≤ 2147483647)
    (ho : 2 * (settings.titleHeight : Int) < o) (ho2 : o ≤ 2147483647)
    (hmem : cmd ∈ drawFromMax settings np p (o - (settings.titleHeight : Int)))
    (hbox : cmd.buttonBox = some (a, xo, yo))
    (hx1 : xo < x) (hx2 : x < xo + (settings.titleHeight : Int)) :
    (settings.titleHeight : Int) < xo ∧ xo ≤ o - (settings.titleHeight : Int)
    ∧ yo = p.yoffset
    ∧ hitFromMax settings np settings.titleHeight x y o = some a := by
  have hf : buttonFits settings.titleHeight o :=
    (buttonFits_iff ht (by omega) ho2).2 ho
  unfold drawFromMax separatorLines at hmem
  rw [hH] at hmem
  cases hM : np.state.border.BORDER_MAX
  · rw [hM] at hmem
    simp only [Bool.false_eq_true, if_false, List.nil_append] at hmem
    have hmem2 : cmd ∈ drawFromMin settings np p (o - (settings.titleHeight : Int)) := by
      simpa [drawFromMin, separatorLines, hH] using hmem
    obtain ⟨h1, h2, h3, h4⟩ := drawFromMin_hit settings np p o x y cmd a xo yo hH ht ho ho2
      hmem2 hbox hx1 hx2
    refine ⟨h1, h2, h3, ?_⟩
    unfold hitFromMax
    rw [if_neg (by simp [hM])]
    exact h4
  · rw [hM] at hmem
    rw [toInt_usub_eq (by omega) (by omega)] at hmem
    simp only [Bool.false_eq_true, if_false, if_true, List.nil_append, List.mem_append,
      List.mem_cons, List.mem_singleton, List.not_mem_nil, or_false] at hmem
    rcases hmem with (h | h) | h
    · subst h; simp [DrawCmd.buttonBox] at hbox
    · have hbox2 : a = .BA_MAXIMIZE ∧ xo = o - (settings.titleHeight : Int)
          ∧ yo = p.yoffset := by
        subst h
        split_ifs at hbox <;> simp [DrawCmd.buttonBox] at hbox <;>
          exact ⟨hbox.1.symm, hbox.2.1.symm, hbox.2.2.symm⟩
      obtain ⟨ha, hxo, hyo⟩ := hbox2
      subst ha
      refine ⟨by omega, by omega, hyo, ?_⟩
      unfold hitFromMax
      have hb : inButton settings.titleHeight o x :=
        (inButton_iff (by omega) ho2 (by omega) (by omega)).2 ⟨by omega, by omega⟩
      rw [if_pos ⟨hM, hf⟩, if_pos hb]
    · split_ifs at h with hstop
      · simp at h
      · rw [toUnsigned_le_iff (by omega) (by omega)] at hstop
        obtain ⟨h1, h2, h3, h4⟩ := drawFromMin_hit settings np p
          (o - (settings.titleHeight : Int)) x y cmd a xo yo hH ht (by omega) (by omega)
          h hbox hx1 hx2
        refine ⟨h1, by omega, h3, ?_⟩
        unfold hitFromMax
        have hb : ¬ inButton settings.titleHeight o x := by
          rw [inButton_iff (by omega) ho2 (by omega) (by omega)]
          omega
        rw [if_pos ⟨hM, hf⟩, if_neg hb, nextOffset_eq (by omega) ho2]
        exact h4

theorem drawFromClose_hit (settings : Settings) (np : ClientNode) (p : ButtonPaint)
    (o x y : Int) (cmd : DrawCmd) (a : BorderActionType) (xo yo : Int)
    (hH : settings.handles = false) (ht : settings.titleHeight ≤ 2147483647)
    (ho : 2 * (settings.titleHeight : Int) < o) (ho2 : o ≤ 2147483647)
    (hmem : cmd ∈ drawFromClose settings np p (o - (settings.titleHeight : Int)))
    (hbox : cmd.buttonBox = some (a, xo, yo))
    (hx1 : xo < x) (hx2 : x < xo + (settings.titleHeight : Int)) :
    (settings.titleHeight : Int) < xo ∧ xo ≤ o - (settings.titleHeight : Int)
    ∧ yo = p.yoffset
    ∧ hitFromClose settings np settings.titleHeight x y o = some a := by
  have hf : buttonFits settings.titleHeight o :=
    (buttonFits_iff ht (by omega) ho2).2 ho
  unfold drawFromClose at hmem
  cases hC : np.state.border.BORDER_CLOSE
  · rw [hC] at hmem
    simp only [Bool.false_eq_true, if_false] at hmem
    obtain ⟨h1, h2, h3, h4⟩ := drawFromMax_hit settings np p o x y cmd a xo yo hH ht ho ho2
      hmem hbox hx1 hx2
    refine ⟨h1, h2, h3, ?_⟩
    unfold hitFromClose
    rw [if_neg (by simp [hC])]
    exact h4
  · rw [hC] at hmem
    rw [toInt_usub_eq (by omega) (by omega)] at hmem
    simp only [if_true, List.mem_append, List.mem_cons, List.mem_singleton,
      List.not_mem_nil, or_false] at hmem
    rcases hmem with (h | h) | h
    · subst h; simp [DrawCmd.buttonBox] at hbox
    · subst h
      simp [DrawCmd.buttonBox] at hbox
      obtain ⟨ha, hxo, hyo⟩ := hbox
      subst ha
      refine ⟨by omega, by omega, hyo.symm, ?_⟩
      unfold hitFromClose
      have hb : inButton settings.titleHeight o x :=
        (inButton_iff (by omega) ho2 (by omega) (by omega)).2 ⟨by omega, by omega⟩
      rw [if_pos ⟨hC, hf⟩, if_pos hb]
    · split_ifs at h with hstop
      · simp at h
      · rw [toUnsigned_le_iff (by omega) (by omega)] at hstop
        obtain ⟨h1, h2, h3, h4⟩ := drawFromMax_hit settings np p
          (o - (settings.titleHeight : Int)) x y cmd a xo yo hH ht (by omega) (by omega)
          h hbox hx1 hx2
        refine ⟨h1, by omega, h3, ?_⟩
        unfold hitFromClose
        have hb : ¬ inButton settings.titleHeight o x := by
          rw [inButton_iff (by omega) ho2 (by omega) (by omega)]
          omega
        rw [if_pos ⟨hC, hf⟩, if_neg hb, nextOffset_eq (by omega) ho2]
        exact h4

/-! ## Theorems: GetBorderSize -/

/-- C1: whenever the status has the fullscreen flag set, `GetBorderSize`
returns north = south = east = west = 0, for every settings value and every
other style and status flag. -/
theorem GetBorderSize_fullscreen (settings : Settings) (state : ClientState)
    (hfs : state.status.STAT_FULLSCREEN = true) :
    GetBorderSize settings state = ⟨0, 0, 0, 0⟩ := by
  simp [GetBorderSize, hfs]

theorem GetBorderSize_fullscreen_witness :
    ({ status := { STAT_FULLSCREEN := true, STAT_SHADED := true },
       border := { BORDER_OUTLINE := true, BORDER_TITLE := true } } :
        ClientState).status.STAT_FULLSCREEN = true
    ∧ GetBorderSize { handles := true }
        { status := { STAT_FULLSCREEN := true, STAT_SHADED := true },
          border := { BORDER_OUTLINE := true, BORDER_TITLE := true } }
      = ⟨0, 0, 0, 0⟩ :=
  ⟨rfl, GetBorderSize_fullscreen _ _ rfl⟩

/-- C2: for a non-fullscreen state, the north inset is the outline
contribution (`borderWidth` if an outline is requested and the window is not
vertically maximized, else 0) when no title bar is requested; exactly
`titleHeight` when a title bar is requested and handle style is disabled; and
`titleHeight` plus the outline contribution when a title bar is requested and
handle style is enabled.  The settings are such that
`titleHeight + borderWidth` is an `int` value. -/
theorem GetBorderSize_north (settings : Settings) (state : ClientState)
    (hfs : state.status.STAT_FULLSCREEN = false)
    (hcfg : settings.titleHeight + settings.borderWidth ≤ 2147483647) :
    (GetBorderSize settings state).north =
      if state.border.BORDER_TITLE = true then
        if settings.handles = true then
          (settings.titleHeight : Int) + outlineNorth settings state
        else (settings.titleHeight : Int)
      else outlineNorth settings state := by
  have hbw : toInt settings.borderWidth = (settings.borderWidth : Int) :=
    toInt_of_le (by omega)
  have hth : toInt settings.titleHeight = (settings.titleHeight : Int) :=
    toInt_of_le (by omega)
  have hsum : toInt (uadd (toUnsigned (settings.borderWidth : Int)) settings.titleHeight)
      = (settings.titleHeight : Int) + (settings.borderWidth : Int) := by
    rw [toUnsigned_natCast (by omega)]
    unfold uadd
    rw [Nat.mod_eq_of_lt (by omega), toInt_of_le (by omega)]
    push_cast
    ring
  have hzero : toInt (uadd (toUnsigned 0) settings.titleHeight)
      = (settings.titleHeight : Int) := by
    have h0 : toUnsigned 0 = 0 := by decide
    rw [h0]
    unfold uadd
    rw [Nat.zero_add, Nat.mod_eq_of_lt (by omega), toInt_of_le (by omega)]
  cases hT : state.border.BORDER_TITLE <;> cases hH : settings.handles <;>
    cases hO : state.border.BORDER_OUTLINE <;> cases hV : state.status.STAT_VMAX <;>
    cases hM : state.status.STAT_HMAX <;> cases hS : state.status.STAT_SHADED <;>
    simp [GetBorderSize, outlineNorth, hfs, hT, hH, hO, hV, hM, hS, hbw, hth, hsum, hzero]

theorem GetBorderSize_north_witness :
    (GetBorderSize { titleHeight := 20, borderWidth := 4, handles := false }
        { border := { BORDER_TITLE := true, BORDER_OUTLINE := true,
                      BORDER_CLOSE := true } }).north = 20 := by
  have h := GetBorderSize_north { titleHeight := 20, borderWidth := 4, handles := false }
    { border := { BORDER_TITLE := true, BORDER_OUTLINE := true, BORDER_CLOSE := true } }
    rfl (by decide)
  simpa using h

/-- C3: for a non-fullscreen state, east = west = `borderWidth` if an outline
is requested and the window is not horizontally maximized, else 0; and south =
`borderWidth` if an outline is requested, the window is not vertically
maximized, and it is not the case that handle style is disabled and the window
is shaded, else 0.  The settings are such that `borderWidth` is an `int`
value. -/
theorem GetBorderSize_south_east_west (settings : Settings) (state : ClientState)
    (hfs : state.status.STAT_FULLSCREEN = false)
    (hcfg : settings.borderWidth ≤ 2147483647) :
    (GetBorderSize settings state).east = outlineSide settings state
    ∧ (GetBorderSize settings state).west = outlineSide settings state
    ∧ (GetBorderSize settings state).south =
        if state.border.BORDER_OUTLINE = true ∧ state.status.STAT_VMAX = false
            ∧ ¬ (settings.handles = false ∧ state.status.STAT_SHADED = true) then
          (settings.borderWidth : Int)
        else 0 := by
  have hbw : toInt settings.borderWidth = (settings.borderWidth : Int) :=
    toInt_of_le hcfg
  cases hT : state.border.BORDER_TITLE <;> cases hH : settings.handles <;>
    cases hO : state.border.BORDER_OUTLINE <;> cases hV : state.status.STAT_VMAX <;>
    cases hM : state.status.STAT_HMAX <;> cases hS : state.status.STAT_SHADED <;>
    simp [GetBorderSize, outlineSide, hfs, hT, hH, hO, hV, hM, hS, hbw]

theorem GetBorderSize_south_east_west_witness :
    GetBorderSize { titleHeight := 20, borderWidth := 4, handles := false }
        { border := { BORDER_TITLE := true, BORDER_OUTLINE := true,
                      BORDER_CLOSE := true } } = ⟨20, 4, 4, 4⟩
    ∧ GetBorderSize { titleHeight := 20, borderWidth := 4, handles := false }
        { status := { STAT_VMAX := true },
          border := { BORDER_TITLE := true, BORDER_OUTLINE := true,
                      BORDER_CLOSE := true } } = ⟨20, 0, 4, 4⟩
    ∧ (GetBorderSize { titleHeight := 20, borderWidth := 4, handles := false }
        { status := { STAT_VMAX := true },
          border := { BORDER_TITLE := true, BORDER_OUTLINE := true,
                      BORDER_CLOSE := true } }).south = 0 := by
  refine ⟨by decide, by decide, ?_⟩
  have h := (GetBorderSize_south_east_west
    { titleHeight := 20, borderWidth := 4, handles := false }
    { status := { STAT_VMAX := true },
      border := { BORDER_TITLE := true, BORDER_OUTLINE := true, BORDER_CLOSE := true } }
    rfl (by decide)).2.2
  simpa using h

/-- C4 as stated fails: with handle style enabled, the shaded status set and
an outline requested, the south inset is `borderWidth = 4`, not 0. -/
theorem GetBorderSize_handles_shaded_south_counterexample :
    (GetBorderSize { titleHeight := 24, borderWidth := 4, handles := true }
        { status := { STAT_MAPPED := true, STAT_SHADED := true },
          border := { BORDER_OUTLINE := true, BORDER_TITLE := true } }).south = 4
    ∧ (GetBorderSize { titleHeight := 24, borderWidth := 4, handles := true }
        { status := { STAT_MAPPED := true, STAT_SHADED := true },
          border := { BORDER_OUTLINE := true, BORDER_TITLE := true } }).south ≠ 0 := by
  decide

/-- C4, amended: with the shaded status set, the south inset is forced to 0
when handle style is disabled, even when the style requests an outline; when
handle style is enabled the shaded status does not change the south inset: it
is the south inset of the same state without the shaded flag. -/
theorem GetBorderSize_shaded_south (settings : Settings) (state : ClientState)
    (hsh : state.status.STAT_SHADED = true) :
    (settings.handles = false → (GetBorderSize settings state).south = 0)
    ∧ (settings.handles = true →
        (GetBorderSize settings state).south =
          (GetBorderSize settings
            { state with status := { state.status with STAT_SHADED := false } }).south) := by
  constructor
  · intro hH
    cases hF : state.status.STAT_FULLSCREEN <;> simp [GetBorderSize, hsh, hH, hF]
  · intro hH
    cases hF : state.status.STAT_FULLSCREEN <;> simp [GetBorderSize, hsh, hH, hF]

theorem GetBorderSize_shaded_south_witness :
    ({ status := { STAT_SHADED := true },
       border := { BORDER_OUTLINE := true, BORDER_TITLE := true } } :
        ClientState).status.STAT_SHADED = true
    ∧ (GetBorderSize { handles := false }
        { status := { STAT_SHADED := true },
          border := { BORDER_OUTLINE := true, BORDER_TITLE := true } }).south = 0 :=
  ⟨rfl, (GetBorderSize_shaded_south { handles := false }
    { status := { STAT_SHADED := true },
      border := { BORDER_OUTLINE := true, BORDER_TITLE := true } } rfl).1 rfl⟩

/-- C5: `GetBorderSize` depends only on the `titleHeight`, `borderWidth` and
`handles` settings and on the outline and title style flags and the
fullscreen, horizontal-maximized, vertical-maximized and shaded status flags:
two settings records that agree on these three fields and two client states
that agree on these six flags get the same four insets, whatever the other
settings, style flags and status flags are. -/
theorem GetBorderSize_depends_only (c1 c2 : Settings) (s1 s2 : ClientState)
    (hth : c1.titleHeight = c2.titleHeight)
    (hbw : c1.borderWidth = c2.borderWidth)
    (hhd : c1.handles = c2.handles)
    (hO : s1.border.BORDER_OUTLINE = s2.border.BORDER_OUTLINE)
    (hT : s1.border.BORDER_TITLE = s2.border.BORDER_TITLE)
    (hF : s1.status.STAT_FULLSCREEN = s2.status.STAT_FULLSCREEN)
    (hH : s1.status.STAT_HMAX = s2.status.STAT_HMAX)
    (hV : s1.status.STAT_VMAX = s2.status.STAT_VMAX)
    (hS : s1.status.STAT_SHADED = s2.status.STAT_SHADED) :
    GetBorderSize c1 s1 = GetBorderSize c2 s2 := by
  simp only [GetBorderSize, hth, hbw, hhd, hO, hT, hF, hH, hV, hS]

theorem GetBorderSize_depends_only_witness :
    GetBorderSize { titleHeight := 20, borderWidth := 4, borderRadius := 9,
                    doubleClickSpeed := 100, desktopWidth := 2 }
        { status := { STAT_VMAX := true, STAT_ACTIVE := true, STAT_MAPPED := true },
          border := { BORDER_OUTLINE := true, BORDER_TITLE := true,
                      BORDER_CLOSE := true, BORDER_RESIZE := true } }
      = GetBorderSize { titleHeight := 20, borderWidth := 4 }
        { status := { STAT_VMAX := true, STAT_HIDDEN := true },
          border := { BORDER_OUTLINE := true, BORDER_TITLE := true,
                      BORDER_MIN := true, BORDER_MOVE := true } } :=
  GetBorderSize_depends_only _ _ _ _ rfl rfl rfl rfl rfl rfl rfl rfl rfl

/-! ## Theorems: button count, drawn buttons and hit-testing -/

/-- C6, evaluated at a failing input: for a normal window 50 pixels wide
under the default settings (`offset = 54`, `titleHeight = 20`),
`GetButtonCount` returns 2 although the shrink procedure of the spec accepts
only the close button (after it `offset = 34 ≤ 40`). -/
theorem GetButtonCount_narrow_overcounts :
    GetButtonCount defaultSettings narrowClient = 2
    ∧ specButtonCount defaultSettings narrowClient = 1 := by decide

/-- C7, evaluated at a failing input: for a normal window 50 pixels wide
under the default settings, `GetButtonCount` reports 2 buttons, while
`DrawBorderButtons` draws the close button only (at `xoffset = 34`), the close
button is clickable, and no pointer position at all is classified as Maximize
or Minimize. -/
theorem narrowClient_count_drawn_clickable_disagree :
    GetButtonCount defaultSettings narrowClient = 2
    ∧ (DrawBorderButtons defaultSettings narrowClient).filterMap DrawCmd.buttonBox
        = [(.BA_CLOSE, 34, 0)]
    ∧ GetBorderActionType defaultSettings narrowClient 40 10 = .BA_CLOSE
    ∧ ∀ x y : Int,
        GetBorderActionType defaultSettings narrowClient x y ≠ .BA_MAXIMIZE
        ∧ GetBorderActionType defaultSettings narrowClient x y ≠ .BA_MINIMIZE := by
  refine ⟨by decide, by decide, by decide, ?_⟩
  intro x y
  have hth : hitTitleHeight defaultSettings narrowClient = 20 := by decide
  have hb : GetBorderSize defaultSettings narrowClient.state = ⟨20, 4, 4, 4⟩ := by decide
  have hnf : ¬ buttonFits 20 (nextOffset 20 (iadd narrowClient.width 4)) := by decide
  have hfit : buttonFits 20 (iadd narrowClient.width 4) := by decide
  have hmove : ∀ o : Int,
      hitFromMove defaultSettings narrowClient 20 x y o ≠ some .BA_MAXIMIZE
      ∧ hitFromMove defaultSettings narrowClient 20 x y o ≠ some .BA_MINIMIZE := by
    intro o
    rcases hitFromMove_cases defaultSettings narrowClient 20 x y o with h | h | h <;>
      rw [h] <;> simp
  have hclose :
      hitFromClose defaultSettings narrowClient 20 x y (iadd narrowClient.width 4)
        ≠ some .BA_MAXIMIZE
      ∧ hitFromClose defaultSettings narrowClient 20 x y (iadd narrowClient.width 4)
        ≠ some .BA_MINIMIZE := by
    unfold hitFromClose
    rw [if_pos ⟨rfl, hfit⟩]
    by_cases hin : inButton 20 (iadd narrowClient.width 4) x
    · rw [if_pos hin]; simp
    · rw [if_neg hin, hitFromMax_of_not_fits _ _ _ _ _ _ hnf]
      exact hmove _
  have htitle :
      titleBarAction defaultSettings narrowClient 20 4 x y ≠ some .BA_MAXIMIZE
      ∧ titleBarAction defaultSettings narrowClient 20 4 x y ≠ some .BA_MINIMIZE := by
    unfold titleBarAction
    dsimp only
    split_ifs
    · simp
    · exact hclose
    · exact hclose
    · exact hmove _
  unfold GetBorderActionType
  dsimp only
  rw [hth, hb, if_pos (by decide)]
  dsimp only
  rcases hopt : titleBarAction defaultSettings narrowClient 20 4 x y with _ | a
  · dsimp only
    rcases resizeAction_cases defaultSettings narrowClient ⟨20, 4, 4, 4⟩ x y
      with h | ⟨n, s, e, w, h⟩ <;> rw [h] <;> simp
  · dsimp only
    rw [hopt] at htitle
    simpa using htitle

/-- C8 as stated fails at three inputs.  (1) Default settings, Scenario A
client: the close button is drawn in the box at `(184, 0)`, the point
`(190, 2)` is strictly inside it, and the action there is None (a row above
`borderWidth`).  (2) Handle style on: the maximize button is drawn at
`(155, 3)`, the point `(178, 10)` is strictly inside its box, and the action
is Close.  (3) A client 10 pixels wide: the close button is drawn at
`(-6, 0)`, the point `(5, 10)` is strictly inside its box, and the action is
Move. -/
theorem GetBorderActionType_in_drawn_button_counterexample :
    (DrawCmd.DrawCloseButton 184 0 ∈ DrawBorderButtons defaultSettings scenarioAClient
      ∧ (184 : Int) < 190 ∧ (190 : Int) < 184 + 20 ∧ (0 : Int) < 2 ∧ (2 : Int) < 0 + 20
      ∧ GetBorderActionType defaultSettings scenarioAClient 190 2 = .BA_NONE)
    ∧ (DrawCmd.DrawMaxIButton 155 3
          ∈ DrawBorderButtons handleSettings { narrowClient with width := 200 }
      ∧ (155 : Int) < 178 ∧ (178 : Int) < 155 + 24 ∧ (3 : Int) < 10 ∧ (10 : Int) < 3 + 24
      ∧ GetBorderActionType handleSettings { narrowClient with width := 200 } 178 10
          = .BA_CLOSE)
    ∧ (DrawCmd.DrawCloseButton (-6) 0
          ∈ DrawBorderButtons defaultSettings { narrowClient with width := 10 }
      ∧ (-6 : Int) < 5 ∧ (5 : Int) < -6 + 20 ∧ (0 : Int) < 10 ∧ (10 : Int) < 0 + 20
      ∧ GetBorderActionType defaultSettings { narrowClient with width := 10 } 5 10
          = .BA_MOVE) := by
  decide

/-- C8, amended: with handle style disabled, a title bar requested,
`borderWidth < titleHeight` (the condition under which `DrawBorderHelper`
calls `DrawBorderButtons`) and `titleHeight ≤ clientWidth + west`, for every
control button that `DrawBorderButtons` draws, with box corner `(xo, yo)`,
`GetBorderActionType` returns that button's action at every point strictly
inside the `titleHeight × titleHeight` box whose row `y` is at least
`borderWidth`.  The sizes are `int` values: `titleHeight ≤ INT_MAX`,
`0 ≤ clientWidth` and `clientWidth + borderWidth ≤ INT_MAX`. -/
theorem GetBorderActionType_in_drawn_button (settings : Settings) (np : ClientNode)
    (cmd : DrawCmd) (a : BorderActionType) (xo yo x y : Int)
    (hH : settings.handles = false)
    (hT : np.state.border.BORDER_TITLE = true)
    (hthin : settings.borderWidth < settings.titleHeight)
    (ht : settings.titleHeight ≤ 2147483647)
    (hw0 : 0 ≤ np.width)
    (hw : np.width + (settings.borderWidth : Int) ≤ 2147483647)
    (hwide : (settings.titleHeight : Int)
      ≤ np.width + (GetBorderSize settings np.state).west)
    (hmem : cmd ∈ DrawBorderButtons settings np)
    (hbox : cmd.buttonBox = some (a, xo, yo))
    (hx1 : xo < x) (hx2 : x < xo + (settings.titleHeight : Int))
    (hy1 : yo < y) (hy2 : y < yo + (settings.titleHeight : Int))
    (hy3 : (settings.borderWidth : Int) ≤ y) :
    GetBorderActionType settings np x y = a := by
  have hwest := GetBorderSize_west_range settings np.state (by omega)
  have hsum : iadd np.width (GetBorderSize settings np.state).west
      = np.width + (GetBorderSize settings np.state).west :=
    iadd_of_range (by omega) (by omega)
  unfold DrawBorderButtons at hmem
  dsimp only at hmem
  rw [hH, hsum, toInt_usub_eq hwide (by omega)] at hmem
  simp only [Bool.false_eq_true, if_false] at hmem
  by_cases hstop : toUnsigned (np.width + (GetBorderSize settings np.state).west
      - (settings.titleHeight : Int)) ≤ settings.titleHeight
  · rw [if_pos hstop] at hmem
    simp at hmem
  · rw [if_neg hstop] at hmem
    rw [toUnsigned_le_iff (by omega) (by omega)] at hstop
    obtain ⟨h1, _, h3, h4⟩ := drawFromClose_hit settings np _
      (np.width + (GetBorderSize settings np.state).west) x y cmd a xo yo hH ht
      (by omega) (by omega) hmem hbox hx1 hx2
    dsimp only at h3
    have hrows : inTitleRows settings settings.titleHeight y := by
      unfold inTitleRows toUnsigned
      omega
    have hnomenu : ¬ (settings.borderWidth < toUnsigned x
        ∧ toUnsigned x ≤ settings.titleHeight) := by
      unfold toUnsigned
      omega
    have hth : hitTitleHeight settings np = settings.titleHeight := by
      unfold hitTitleHeight
      rw [if_neg (by simp [hH])]
    unfold GetBorderActionType
    dsimp only
    rw [hth, if_pos ⟨hT, hthin⟩]
    unfold titleBarAction
    dsimp only
    rw [hsum, if_pos hrows, if_neg hnomenu, ite_self, h4]

theorem GetBorderActionType_in_drawn_button_witness :
    GetBorderActionType defaultSettings scenarioAClient 190 10 = .BA_CLOSE :=
  GetBorderActionType_in_drawn_button defaultSettings scenarioAClient
    (.DrawCloseButton 184 0) .BA_CLOSE 184 0 190 10 rfl rfl (by decide) (by decide)
    (by decide) (by decide) (by decide) (by decide) rfl (by decide) (by decide)
    (by decide) (by decide) (by decide)

/-- C9: for every settings value, client and pointer position, the resize
directions of the action `GetBorderActionType` returns contain neither E nor W
when the window is horizontally maximized, and neither N nor S when the window
is vertically maximized or shaded. -/
theorem GetBorderActionType_resize_masked (settings : Settings) (np : ClientNode)
    (x y : Int) :
    (np.state.status.STAT_HMAX = true →
      (GetBorderActionType settings np x y).edges.e = false
      ∧ (GetBorderActionType settings np x y).edges.w = false)
    ∧ (np.state.status.STAT_VMAX = true ∨ np.state.status.STAT_SHADED = true →
      (GetBorderActionType settings np x y).edges.n = false
      ∧ (GetBorderActionType settings np x y).edges.s = false) := by
  obtain ⟨hn, hs, he, hw⟩ := GetBorderActionType_respects settings np x y
  constructor
  · intro h
    obtain ⟨h1, h2⟩ := resizeMaskOf_hmax _ h
    rw [h1] at he
    rw [h2] at hw
    constructor
    · cases hE : (GetBorderActionType settings np x y).edges.e
      · rfl
      · exact absurd (he hE) (by simp)
    · cases hW : (GetBorderActionType settings np x y).edges.w
      · rfl
      · exact absurd (hw hW) (by simp)
  · intro h
    obtain ⟨h1, h2⟩ := resizeMaskOf_vmax_shaded _ h
    rw [h1] at hn
    rw [h2] at hs
    constructor
    · cases hN : (GetBorderActionType settings np x y).edges.n
      · rfl
      · exact absurd (hn hN) (by simp)
    · cases hS : (GetBorderActionType settings np x y).edges.s
      · rfl
      · exact absurd (hs hS) (by simp)

theorem GetBorderActionType_resize_masked_witness :
    (GetBorderActionType defaultSettings
        { narrowClient with
          state := { narrowClient.state with
                     status := { STAT_MAPPED := true, STAT_HMAX := true } } }
        300 50).edges.e = false :=
  ((GetBorderActionType_resize_masked defaultSettings
      { narrowClient with
        state := { narrowClient.state with
                   status := { STAT_MAPPED := true, STAT_HMAX := true } } }
      300 50).1 rfl).1

/-- C10: for fixed settings (with `titleHeight` an `int` value), style and
status, and any two client widths `0 ≤ w1 ≤ w2 ≤ INT_MAX`, `GetButtonCount`
at width `w1` is at most `GetButtonCount` at width `w2`. -/
theorem GetButtonCount_mono (settings : Settings) (np : ClientNode) (w1 w2 : Int)
    (hth : settings.titleHeight ≤ 2147483647)
    (h0 : 0 ≤ w1) (h12 : w1 ≤ w2) (h2 : w2 ≤ 2147483647) :
    GetButtonCount settings { np with width := w1 }
      ≤ GetButtonCount settings { np with width := w2 } := by
  unfold GetButtonCount
  dsimp only
  split_ifs with hT hthin ha hb hb
  · exact le_refl _
  · exact le_refl _
  · exact le_refl _
  · exact Nat.zero_le _
  · exfalso
    have hw := GetBorderSize_west_range settings np.state (by omega)
    have e1 : toUnsigned (iadd w1 (GetBorderSize settings np.state).west)
        = (w1 + (GetBorderSize settings np.state).west).toNat % 4294967296 := by
      unfold iadd; rw [toUnsigned_toInt]; unfold toUnsigned; omega
    have e2 : toUnsigned (iadd w2 (GetBorderSize settings np.state).west)
        = (w2 + (GetBorderSize settings np.state).west).toNat % 4294967296 := by
      unfold iadd; rw [toUnsigned_toInt]; unfold toUnsigned; omega
    omega
  · have hw := GetBorderSize_west_range settings np.state (by omega)
    have e1 : toUnsigned (iadd w1 (GetBorderSize settings np.state).west)
        = (w1 + (GetBorderSize settings np.state).west).toNat % 4294967296 := by
      unfold iadd; rw [toUnsigned_toInt]; unfold toUnsigned; omega
    have e2 : toUnsigned (iadd w2 (GetBorderSize settings np.state).west)
        = (w2 + (GetBorderSize settings np.state).west).toNat % 4294967296 := by
      unfold iadd; rw [toUnsigned_toInt]; unfold toUnsigned; omega
    apply countFromClose_mono _ _ _ _ _ hth
    · omega
    · omega

theorem GetButtonCount_mono_witness :
    GetButtonCount defaultSettings { narrowClient with width := 50 }
      ≤ GetButtonCount defaultSettings { narrowClient with width := 200 } :=
  GetButtonCount_mono defaultSettings narrowClient 50 200 (by decide) (by decide)
    (by decide) (by decide)

/-! ## Lemmas: the title strip result and the resize checks -/

theorem FixRange_range (value lo hi d : Nat) (hd : lo ≤ d ∧ d ≤ hi) :
    lo ≤ FixRange value lo hi d ∧ FixRange value lo hi d ≤ hi := by
  unfold FixRange
  split_ifs with h
  · exact hd
  · omega

theorem GetBorderActionType_eq (settings : Settings) (np : ClientNode) (x y : Int) :
    GetBorderActionType settings np x y
      = match titleStripResult settings np x y with
        | some a => a
        | none => resizeAction settings np (GetBorderSize settings np.state) x y := rfl

theorem GetBorderActionType_of_some {settings : Settings} {np : ClientNode} {x y : Int}
    {a : BorderActionType} (h : titleStripResult settings np x y = some a) :
    GetBorderActionType settings np x y = a := by
  rw [GetBorderActionType_eq, h]

theorem GetBorderActionType_of_none {settings : Settings} {np : ClientNode} {x y : Int}
    (h : titleStripResult settings np x y = none) :
    GetBorderActionType settings np x y
      = resizeAction settings np (GetBorderSize settings np.state) x y := by
  rw [GetBorderActionType_eq, h]

theorem GetBorderActionType_eq_iff (settings : Settings) (np : ClientNode) (x y : Int)
    (a : BorderActionType) (hres : a.isResize = false) (hnone : a ≠ .BA_NONE) :
    GetBorderActionType settings np x y = a ↔ titleStripResult settings np x y = some a := by
  rcases hopt : titleStripResult settings np x y with _ | a'
  · rw [GetBorderActionType_of_none hopt]
    constructor
    · intro h
      rcases resizeAction_cases settings np (GetBorderSize settings np.state) x y
        with h1 | ⟨n, s, e, w, h1⟩
      · rw [h1] at h; exact absurd h.symm hnone
      · rw [h1] at h; rw [← h] at hres; simp [BorderActionType.isResize] at hres
    · intro h
      simp at h
  · rw [GetBorderActionType_of_some hopt]
    simp

theorem hitFromMove_isResize (settings : Settings) (np : ClientNode) (t : Nat) (x y o : Int)
    (a : BorderActionType) (h : hitFromMove settings np t x y o = some a) :
    a.isResize = false := by
  rcases hitFromMove_cases settings np t x y o with h1 | h1 | h1 <;>
    rw [h1] at h <;> simp at h <;> subst h <;> rfl

theorem hitFromMin_isResize (settings : Settings) (np : ClientNode) (t : Nat) (x y o : Int)
    (a : BorderActionType) (h : hitFromMin settings np t x y o = some a) :
    a.isResize = false := by
  unfold hitFromMin at h
  split_ifs at h
  · simp at h; subst h; rfl
  · exact hitFromMove_isResize _ _ _ _ _ _ _ h
  · exact hitFromMove_isResize _ _ _ _ _ _ _ h

theorem hitFromMax_isResize (settings : Settings) (np : ClientNode) (t : Nat) (x y o : Int)
    (a : BorderActionType) (h : hitFromMax settings np t x y o = some a) :
    a.isResize = false := by
  unfold hitFromMax at h
  split_ifs at h
  · simp at h; subst h; rfl
  · exact hitFromMin_isResize _ _ _ _ _ _ _ h
  · exact hitFromMin_isResize _ _ _ _ _ _ _ h

theorem hitFromClose_isResize (settings : Settings) (np : ClientNode) (t : Nat) (x y o : Int)
    (a : BorderActionType) (h : hitFromClose settings np t x y o = some a) :
    a.isResize = false := by
  unfold hitFromClose at h
  split_ifs at h
  · simp at h; subst h; rfl
  · exact hitFromMax_isResize _ _ _ _ _ _ _ h
  · exact hitFromMax_isResize _ _ _ _ _ _ _ h

theorem titleStripResult_isResize (settings : Settings) (np : ClientNode) (x y : Int)
    (a : BorderActionType) (h : titleStripResult settings np x y = some a) :
    a.isResize = false := by
  unfold titleStripResult at h
  split_ifs at h
  unfold titleBarAction at h
  dsimp only at h
  split_ifs at h
  · simp at h; subst h; rfl
  · exact hitFromClose_isResize _ _ _ _ _ _ _ h
  · exact hitFromClose_isResize _ _ _ _ _ _ _ h
  · exact hitFromMove_isResize _ _ _ _ _ _ _ h

theorem titleStripResult_below_rows (settings : Settings) (np : ClientNode) (x y : Int)
    (hy : ¬ inTitleRows settings (hitTitleHeight settings np) y) :
    titleStripResult settings np x y = none := by
  unfold titleStripResult
  split_ifs
  · unfold titleBarAction
    dsimp only
    rw [if_neg hy]
    unfold hitFromMove
    rw [if_neg hy]
  · rfl

theorem resizeAction_of_no_resize (settings : Settings) (np : ClientNode) (b : BorderSize)
    (x y : Int) (hR : np.state.border.BORDER_RESIZE = false) :
    resizeAction settings np b x y = .BA_NONE := by
  unfold resizeAction
  rw [if_pos hR]

theorem edgeAction_south (np : ClientNode) (b : BorderSize) (m : ResizeMask) (x y : Int)
    (hy : iadd np.height b.north ≤ y) :
    edgeAction np b m x y = maskedResize false false false true m
    ∨ edgeAction np b m x y = maskedResize false false true false m
    ∨ edgeAction np b m x y = maskedResize false true false false m := by
  unfold edgeAction
  by_cases h1 : x ≤ b.west
  · rw [if_pos h1]; exact Or.inl rfl
  · rw [if_neg h1]
    by_cases h2 : iadd np.width b.west ≤ x
    · rw [if_pos h2]; exact Or.inr (Or.inl rfl)
    · rw [if_neg h2, if_pos hy]; exact Or.inr (Or.inr rfl)

theorem cornerAction_south (settings : Settings) (np : ClientNode) (b : BorderSize)
    (m : ResizeMask) (n s : Bool) (x y : Int) (hy : iadd np.height b.north ≤ y) :
    ∃ n' s' e w, cornerAction settings np b m n s x y = maskedResize n' s' e w m := by
  unfold cornerAction
  split_ifs
  · exact ⟨_, _, _, _, rfl⟩
  · exact ⟨_, _, _, _, rfl⟩
  · rcases edgeAction_south np b m x y hy with h | h | h <;> exact ⟨_, _, _, _, h⟩

theorem resizeAction_south (settings : Settings) (np : ClientNode) (b : BorderSize)
    (x y : Int) (hR : np.state.border.BORDER_RESIZE = true)
    (hy : iadd np.height b.north ≤ y) :
    ∃ n s e w, resizeAction settings np b x y
      = maskedResize n s e w (resizeMaskOf np.state.status) := by
  unfold resizeAction
  rw [if_neg (by simp [hR])]
  dsimp only
  split_ifs
  · exact cornerAction_south _ _ _ _ _ _ _ _ hy
  · exact cornerAction_south _ _ _ _ _ _ _ _ hy
  · rcases edgeAction_south np b _ x y hy with h | h | h <;> exact ⟨_, _, _, _, h⟩
  · rcases edgeAction_south np b _ x y hy with h | h | h <;> exact ⟨_, _, _, _, h⟩

theorem GetBorderSize_insets_range (settings : Settings) (state : ClientState)
    (hcfg : settings.titleHeight + settings.borderWidth ≤ 2147483647) :
    0 ≤ (GetBorderSize settings state).north
    ∧ (GetBorderSize settings state).north
        ≤ (settings.titleHeight : Int) + (settings.borderWidth : Int)
    ∧ 0 ≤ (GetBorderSize settings state).south
    ∧ (GetBorderSize settings state).south ≤ (settings.borderWidth : Int)
    ∧ 0 ≤ (GetBorderSize settings state).east
    ∧ (GetBorderSize settings state).east ≤ (settings.borderWidth : Int) := by
  have hbw : toInt settings.borderWidth = (settings.borderWidth : Int) :=
    toInt_of_le (by omega)
  have hth : toInt settings.titleHeight = (settings.titleHeight : Int) :=
    toInt_of_le (by omega)
  have hsum : toInt (uadd (toUnsigned (settings.borderWidth : Int)) settings.titleHeight)
      = (settings.titleHeight : Int) + (settings.borderWidth : Int) := by
    rw [toUnsigned_natCast (by omega)]
    unfold uadd
    rw [Nat.mod_eq_of_lt (by omega), toInt_of_le (by omega)]
    push_cast
    ring
  have hzero : toInt (uadd (toUnsigned 0) settings.titleHeight)
      = (settings.titleHeight : Int) := by
    have h0 : toUnsigned 0 = 0 := by decide
    rw [h0]
    unfold uadd
    rw [Nat.zero_add, Nat.mod_eq_of_lt (by omega), toInt_of_le (by omega)]
  cases hF : state.status.STAT_FULLSCREEN <;> cases hT : state.border.BORDER_TITLE <;>
    cases hH : settings.handles <;> cases hO : state.border.BORDER_OUTLINE <;>
    cases hV : state.status.STAT_VMAX <;> cases hM : state.status.STAT_HMAX <;>
    cases hS : state.status.STAT_SHADED <;>
    simp [GetBorderSize, hF, hT, hH, hO, hV, hM, hS, hbw, hth, hsum, hzero] <;> omega

theorem resizeMaskOf_free (st : StatusFlags) (hM : st.STAT_HMAX = false)
    (hV : st.STAT_VMAX = false) (hS : st.STAT_SHADED = false) :
    resizeMaskOf st = ⟨true, true, true, true⟩ := by
  simp [resizeMaskOf, hM, hV, hS]

theorem edgeAction_free (np : ClientNode) (b : BorderSize) (x y : Int)
    (hw : iadd np.width b.west = np.width + b.west)
    (hh : iadd np.height b.north = np.height + b.north) :
    edgeAction np b ⟨true, true, true, true⟩ x y
      = if x ≤ b.west then .BA_RESIZE false false false true
        else if np.width + b.west ≤ x then .BA_RESIZE false false true false
        else if np.height + b.north ≤ y then .BA_RESIZE false true false false
        else if y ≤ b.south then .BA_RESIZE true false false false
        else .BA_NONE := by
  unfold edgeAction
  rw [hw, hh]
  rfl

theorem resizeAction_outside_corners (settings : Settings) (np : ClientNode) (b : BorderSize)
    (x y : Int)
    (hR : np.state.border.BORDER_RESIZE = true)
    (hth : settings.titleHeight ≤ 1073741823)
    (hw0 : 0 ≤ np.width) (hw : np.width ≤ 1073741823)
    (hh0 : 0 ≤ np.height) (hh : np.height ≤ 1073741823)
    (hn0 : 0 ≤ b.north) (hn : b.north ≤ 1073741823)
    (hb0 : 0 ≤ b.west) (hb : b.west ≤ 1073741823)
    (hx0 : 0 ≤ x) (hx : x ≤ 2147483647)
    (hy0 : -2147483648 ≤ y) (hy : y ≤ 2147483647)
    (hnc : ¬ (2 * (settings.titleHeight : Int) ≤ np.width
              ∧ 2 * (settings.titleHeight : Int) ≤ np.height
              ∧ (y < (settings.titleHeight : Int)
                  ∨ np.height + b.north - (settings.titleHeight : Int) < y)
              ∧ (x < (settings.titleHeight : Int)
                  ∨ np.width + b.west - (settings.titleHeight : Int) < x))) :
    resizeAction settings np b x y
      = edgeAction np b (resizeMaskOf np.state.status) x y := by
  have hiw : iadd np.width b.west = np.width + b.west := iadd_of_range (by omega) (by omega)
  have hih : iadd np.height b.north = np.height + b.north :=
    iadd_of_range (by omega) (by omega)
  unfold resizeAction
  rw [if_neg (by simp [hR])]
  dsimp only
  rw [hih]
  by_cases hc : umul settings.titleHeight 2 ≤ toUnsigned np.width
      ∧ umul settings.titleHeight 2 ≤ toUnsigned np.height
  · rw [if_pos hc]
    have hc' : 2 * (settings.titleHeight : Int) ≤ np.width
        ∧ 2 * (settings.titleHeight : Int) ≤ np.height := by
      unfold umul toUnsigned at hc
      omega
    have hxn : ¬ toUnsigned x < settings.titleHeight → 
        ¬ usub (toUnsigned (np.width + b.west)) settings.titleHeight < toUnsigned x →
        ¬ (x < (settings.titleHeight : Int)
                  ∨ np.width + b.west - (settings.titleHeight : Int) < x) := by
      unfold usub toUnsigned
      omega
    by_cases hs : usub (toUnsigned (np.height + b.north)) settings.titleHeight < toUnsigned y
    · rw [if_pos hs]
      have hrow : y < (settings.titleHeight : Int)
          ∨ np.height + b.north - (settings.titleHeight : Int) < y := by
        unfold usub toUnsigned at hs
        omega
      unfold cornerAction
      rw [hiw]
      by_cases h1 : toUnsigned x < settings.titleHeight
      · exfalso
        apply hnc
        refine ⟨hc'.1, hc'.2, hrow, Or.inl ?_⟩
        unfold toUnsigned at h1
        omega
      · rw [if_neg h1]
        by_cases h2 : usub (toUnsigned (np.width + b.west)) settings.titleHeight < toUnsigned x
        · exfalso
          apply hnc
          refine ⟨hc'.1, hc'.2, hrow, Or.inr ?_⟩
          unfold usub toUnsigned at h2
          omega
        · rw [if_neg h2]
    · rw [if_neg hs]
      by_cases hnrow : toUnsigned y < settings.titleHeight
      · rw [if_pos hnrow]
        have hrow : y < (settings.titleHeight : Int)
            ∨ np.height + b.north - (settings.titleHeight : Int) < y := by
          unfold toUnsigned at hnrow
          omega
        unfold cornerAction
        rw [hiw]
        by_cases h1 : toUnsigned x < settings.titleHeight
        · exfalso
          apply hnc
          refine ⟨hc'.1, hc'.2, hrow, Or.inl ?_⟩
          unfold toUnsigned at h1
          omega
        · rw [if_neg h1]
          by_cases h2 : usub (toUnsigned (np.width + b.west)) settings.titleHeight
              < toUnsigned x
          · exfalso
            apply hnc
            refine ⟨hc'.1, hc'.2, hrow, Or.inr ?_⟩
            unfold usub toUnsigned at h2
            omega
          · rw [if_neg h2]
      · rw [if_neg hnrow]
  · rw [if_neg hc]

theorem resizeAction_in_corner (settings : Settings) (np : ClientNode) (b : BorderSize)
    (x y : Int) (south east : Bool)
    (hR : np.state.border.BORDER_RESIZE = true)
    (hth : settings.titleHeight ≤ 1073741823)
    (hw0 : 2 * (settings.titleHeight : Int) ≤ np.width) (hw : np.width ≤ 1073741823)
    (hh0 : 2 * (settings.titleHeight : Int) ≤ np.height) (hh : np.height ≤ 1073741823)
    (hn0 : 0 ≤ b.north) (hn : b.north ≤ 1073741823)
    (hb0 : 0 ≤ b.west) (hb : b.west ≤ 1073741823)
    (hx0 : 0 ≤ x) (hx : x ≤ 2147483647)
    (hy0 : 0 ≤ y) (hy : y ≤ 2147483647)
    (hrow : if south = true then np.height + b.north - (settings.titleHeight : Int) < y
            else y < (settings.titleHeight : Int))
    (hcol : if east = true then np.width + b.west - (settings.titleHeight : Int) < x
            else x < (settings.titleHeight : Int)) :
    resizeAction settings np b x y
      = maskedResize (!south) south east (!east) (resizeMaskOf np.state.status) := by
  have hiw : iadd np.width b.west = np.width + b.west := iadd_of_range (by omega) (by omega)
  have hih : iadd np.height b.north = np.height + b.north :=
    iadd_of_range (by omega) (by omega)
  have hc : umul settings.titleHeight 2 ≤ toUnsigned np.width
      ∧ umul settings.titleHeight 2 ≤ toUnsigned np.height := by
    unfold umul toUnsigned
    omega
  have hcorner : ∀ n s : Bool,
      cornerAction settings np b (resizeMaskOf np.state.status) n s x y
        = maskedResize n s east (!east) (resizeMaskOf np.state.status) := by
    intro n s
    unfold cornerAction
    rw [hiw]
    cases east
    · have h1 : toUnsigned x < settings.titleHeight := by
        simp only [Bool.false_eq_true, if_false] at hcol
        unfold toUnsigned
        omega
      rw [if_pos h1]
      rfl
    · simp only [if_true] at hcol
      have h1 : ¬ toUnsigned x < settings.titleHeight := by
        unfold toUnsigned
        omega
      have h2 : usub (toUnsigned (np.width + b.west)) settings.titleHeight < toUnsigned x := by
        unfold usub toUnsigned
        omega
      rw [if_neg h1, if_pos h2]
      rfl
  unfold resizeAction
  rw [if_neg (by simp [hR])]
  dsimp only
  rw [hih, if_pos hc]
  cases south
  · simp only [Bool.false_eq_true, if_false] at hrow
    have h1 : ¬ usub (toUnsigned (np.height + b.north)) settings.titleHeight < toUnsigned y := by
      unfold usub toUnsigned
      omega
    have h2 : toUnsigned y < settings.titleHeight := by
      unfold toUnsigned
      omega
    rw [if_neg h1, if_pos h2, hcorner]
    rfl
  · simp only [if_true] at hrow
    have h1 : usub (toUnsigned (np.height + b.north)) settings.titleHeight < toUnsigned y := by
      unfold usub toUnsigned
      omega
    rw [if_pos h1, hcorner]
    rfl

/-! ## Lemmas: the title strip over mathematical integers -/

theorem hitFromMove_plain (settings : Settings) (np : ClientNode) (t : Nat) (x y o : Int)
    (hrows : inTitleRows settings t y) (hx0 : 0 ≤ x) (hx : x ≤ 2147483647) :
    hitFromMove settings np t x y o
      = if (settings.borderWidth : Int) < x ∧ x < o then some (moveOrNone np) else none := by
  unfold hitFromMove moveOrNone
  rw [if_pos hrows]
  have hiff : (settings.borderWidth < toUnsigned x ∧ x < o)
      ↔ ((settings.borderWidth : Int) < x ∧ x < o) := by
    unfold toUnsigned
    omega
  by_cases h : (settings.borderWidth : Int) < x ∧ x < o
  · rw [if_pos (hiff.2 h), if_pos h]
    cases np.state.border.BORDER_MOVE <;> rfl
  · rw [if_neg (fun hc => h (hiff.1 hc)), if_neg h]

theorem hitFromMin_plain (settings : Settings) (np : ClientNode) (t : Nat) (x y o : Int)
    (ht : t ≤ 1073741823) (ho0 : 0 ≤ o) (ho : o ≤ 2147483647)
    (hx0 : 0 ≤ x) (hx : x ≤ 2147483647) :
    hitFromMin settings np t x y o
      = if np.state.border.BORDER_MIN = true ∧ 2 * (t : Int) < o then
          if o - (t : Int) < x ∧ x < o then some .BA_MINIMIZE
          else hitFromMove settings np t x y o
        else hitFromMove settings np t x y o := by
  unfold hitFromMin
  have hf := @buttonFits_iff t o (by omega) ho0 ho
  by_cases h : np.state.border.BORDER_MIN = true ∧ 2 * (t : Int) < o
  · have hb := @inButton_iff t o x (by omega) ho hx0 hx
    rw [if_pos ⟨h.1, hf.2 h.2⟩, if_pos h]
    by_cases hz : o - (t : Int) < x ∧ x < o
    · rw [if_pos (hb.2 hz), if_pos hz]
    · rw [if_neg (fun hc => hz (hb.1 hc)), if_neg hz]
  · rw [if_neg (fun hc => h ⟨hc.1, hf.1 hc.2⟩), if_neg h]

theorem hitFromMax_plain (settings : Settings) (np : ClientNode) (t : Nat) (x y o : Int)
    (ht : t ≤ 1073741823) (ho0 : 0 ≤ o) (ho : o ≤ 2147483647)
    (hx0 : 0 ≤ x) (hx : x ≤ 2147483647) :
    hitFromMax settings np t x y o
      = if np.state.border.BORDER_MAX = true ∧ 2 * (t : Int) < o then
          if o - (t : Int) < x ∧ x < o then some .BA_MAXIMIZE
          else hitFromMin settings np t x y (o - (t : Int))
        else hitFromMin settings np t x y o := by
  unfold hitFromMax
  have hf := @buttonFits_iff t o (by omega) ho0 ho
  by_cases h : np.state.border.BORDER_MAX = true ∧ 2 * (t : Int) < o
  · have hb := @inButton_iff t o x (by omega) ho hx0 hx
    rw [if_pos ⟨h.1, hf.2 h.2⟩, if_pos h, nextOffset_eq (by omega) ho]
    by_cases hz : o - (t : Int) < x ∧ x < o
    · rw [if_pos (hb.2 hz), if_pos hz]
    · rw [if_neg (fun hc => hz (hb.1 hc)), if_neg hz]
  · rw [if_neg (fun hc => h ⟨hc.1, hf.1 hc.2⟩), if_neg h]

theorem hitFromClose_plain (settings : Settings) (np : ClientNode) (t : Nat) (x y o : Int)
    (ht : t ≤ 1073741823) (ho0 : 0 ≤ o) (ho : o ≤ 2147483647)
    (hx0 : 0 ≤ x) (hx : x ≤ 2147483647) :
    hitFromClose settings np t x y o
      = if np.state.border.BORDER_CLOSE = true ∧ 2 * (t : Int) < o then
          if o - (t : Int) < x ∧ x < o then some .BA_CLOSE
          else hitFromMax settings np t x y (o - (t : Int))
        else hitFromMax settings np t x y o := by
  unfold hitFromClose
  have hf := @buttonFits_iff t o (by omega) ho0 ho
  by_cases h : np.state.border.BORDER_CLOSE = true ∧ 2 * (t : Int) < o
  · have hb := @inButton_iff t o x (by omega) ho hx0 hx
    rw [if_pos ⟨h.1, hf.2 h.2⟩, if_pos h, nextOffset_eq (by omega) ho]
    by_cases hz : o - (t : Int) < x ∧ x < o
    · rw [if_pos (hb.2 hz), if_pos hz]
    · rw [if_neg (fun hc => hz (hb.1 hc)), if_neg hz]
  · rw [if_neg (fun hc => h ⟨hc.1, hf.1 hc.2⟩), if_neg h]

theorem moveOrNone_ne (np : ClientNode) :
    moveOrNone np ≠ .BA_MINIMIZE ∧ moveOrNone np ≠ .BA_MAXIMIZE
    ∧ moveOrNone np ≠ .BA_CLOSE ∧ moveOrNone np ≠ .BA_MENU := by
  unfold moveOrNone
  cases np.state.border.BORDER_MOVE <;> simp

theorem offsetAfter_le (flag : Bool) (t o : Int) (ht : 0 ≤ t) : offsetAfter flag t o ≤ o := by
  unfold offsetAfter
  split_ifs <;> omega

theorem hitFromMin_stage (settings : Settings) (np : ClientNode) (t : Nat) (x y o : Int)
    (hrows : inTitleRows settings t y)
    (ht : t ≤ 1073741823) (ho0 : 0 ≤ o) (ho : o ≤ 2147483647)
    (hx0 : 0 ≤ x) (hx : x ≤ 2147483647) :
    (hitFromMin settings np t x y o = some .BA_MINIMIZE
        ↔ np.state.border.BORDER_MIN = true ∧ 2 * (t : Int) < o
          ∧ o - (t : Int) < x ∧ x < o)
    ∧ hitFromMin settings np t x y o ≠ some .BA_MAXIMIZE
    ∧ hitFromMin settings np t x y o ≠ some .BA_CLOSE
    ∧ hitFromMin settings np t x y o ≠ some .BA_MENU
    ∧ ((settings.borderWidth : Int) < x
        → x < offsetAfter np.state.border.BORDER_MIN (t : Int) o
        → hitFromMin settings np t x y o = some (moveOrNone np)) := by
  obtain ⟨m1, m2, m3, m4⟩ := moveOrNone_ne np
  rw [hitFromMin_plain settings np t x y o ht ho0 ho hx0 hx,
    hitFromMove_plain settings np t x y o hrows hx0 hx]
  unfold offsetAfter
  by_cases h : np.state.border.BORDER_MIN = true ∧ 2 * (t : Int) < o
  · rw [if_pos h, if_pos h]
    by_cases hz : o - (t : Int) < x ∧ x < o
    · rw [if_pos hz]
      refine ⟨⟨fun _ => ⟨h.1, h.2, hz.1, hz.2⟩, fun _ => rfl⟩, by simp, by simp, by simp, ?_⟩
      intro _ hlt
      omega
    · rw [if_neg hz]
      by_cases hm : (settings.borderWidth : Int) < x ∧ x < o
      · rw [if_pos hm]
        refine ⟨⟨fun hc => ?_, fun hc => absurd ⟨hc.2.2.1, hc.2.2.2⟩ hz⟩, ?_, ?_, ?_, ?_⟩
        · simp only [Option.some.injEq] at hc; exact absurd hc m1
        · simp only [ne_eq, Option.some.injEq]; exact m2
        · simp only [ne_eq, Option.some.injEq]; exact m3
        · simp only [ne_eq, Option.some.injEq]; exact m4
        · intro _ _; rfl
      · rw [if_neg hm]
        refine ⟨⟨fun hc => by simp at hc, fun hc => absurd ⟨hc.2.2.1, hc.2.2.2⟩ hz⟩,
          by simp, by simp, by simp, ?_⟩
        intro h1 h2
        omega
  · rw [if_neg h, if_neg h]
    by_cases hm : (settings.borderWidth : Int) < x ∧ x < o
    · rw [if_pos hm]
      refine ⟨⟨fun hc => ?_, fun hc => absurd ⟨hc.1, hc.2.1⟩ h⟩, ?_, ?_, ?_, ?_⟩
      · simp only [Option.some.injEq] at hc; exact absurd hc m1
      · simp only [ne_eq, Option.some.injEq]; exact m2
      · simp only [ne_eq, Option.some.injEq]; exact m3
      · simp only [ne_eq, Option.some.injEq]; exact m4
      · intro _ _; rfl
    · rw [if_neg hm]
      refine ⟨⟨fun hc => by simp at hc, fun hc => absurd ⟨hc.1, hc.2.1⟩ h⟩,
        by simp, by simp, by simp, ?_⟩
      intro h1 h2
      omega

theorem hitFromMax_stage (settings : Settings) (np : ClientNode) (t : Nat) (x y o : Int)
    (hrows : inTitleRows settings t y)
    (ht : t ≤ 1073741823) (ho0 : 0 ≤ o) (ho : o ≤ 2147483647)
    (hx0 : 0 ≤ x) (hx : x ≤ 2147483647) :
    (hitFromMax settings np t x y o = some .BA_MAXIMIZE
        ↔ np.state.border.BORDER_MAX = true ∧ 2 * (t : Int) < o
          ∧ o - (t : Int) < x ∧ x < o)
    ∧ (hitFromMax settings np t x y o = some .BA_MINIMIZE
        ↔ np.state.border.BORDER_MIN = true
          ∧ 2 * (t : Int) < offsetAfter np.state.border.BORDER_MAX (t : Int) o
          ∧ offsetAfter np.state.border.BORDER_MAX (t : Int) o - (t : Int) < x
          ∧ x < offsetAfter np.state.border.BORDER_MAX (t : Int) o)
    ∧ hitFromMax settings np t x y o ≠ some .BA_CLOSE
    ∧ hitFromMax settings np t x y o ≠ some .BA_MENU
    ∧ ((settings.borderWidth : Int) < x
        → x < offsetAfter np.state.border.BORDER_MIN (t : Int)
                (offsetAfter np.state.border.BORDER_MAX (t : Int) o)
        → hitFromMax settings np t x y o = some (moveOrNone np)) := by
  rw [hitFromMax_plain settings np t x y o ht ho0 ho hx0 hx]
  by_cases h : np.state.border.BORDER_MAX = true ∧ 2 * (t : Int) < o
  · have ho2 : offsetAfter np.state.border.BORDER_MAX (t : Int) o = o - (t : Int) := by
      unfold offsetAfter; rw [if_pos h]
    rw [ho2, if_pos h]
    by_cases hz : o - (t : Int) < x ∧ x < o
    · rw [if_pos hz]
      have hle := offsetAfter_le np.state.border.BORDER_MIN (t : Int) (o - (t : Int))
        (by omega)
      refine ⟨⟨fun _ => ⟨h.1, h.2, hz.1, hz.2⟩, fun _ => rfl⟩, ⟨fun hc => by simp at hc, ?_⟩,
        by simp, by simp, ?_⟩
      · intro hc
        omega
      · intro _ hlt
        omega
    · rw [if_neg hz]
      obtain ⟨s1, s2, s3, s4, s5⟩ := hitFromMin_stage settings np t x y (o - (t : Int)) hrows
        ht (by omega) (by omega) hx0 hx
      exact ⟨⟨fun hc => absurd hc s2, fun hc => absurd ⟨hc.2.2.1, hc.2.2.2⟩ hz⟩,
        s1, s3, s4, s5⟩
  · have ho2 : offsetAfter np.state.border.BORDER_MAX (t : Int) o = o := by
      unfold offsetAfter; rw [if_neg h]
    rw [ho2, if_neg h]
    obtain ⟨s1, s2, s3, s4, s5⟩ := hitFromMin_stage settings np t x y o hrows
      ht ho0 ho hx0 hx
    exact ⟨⟨fun hc => absurd hc s2, fun hc => absurd ⟨hc.1, hc.2.1⟩ h⟩, s1, s3, s4, s5⟩

theorem hitFromClose_stage (settings : Settings) (np : ClientNode) (t : Nat) (x y o : Int)
    (hrows : inTitleRows settings t y)
    (ht : t ≤ 1073741823) (ho0 : 0 ≤ o) (ho : o ≤ 2147483647)
    (hx0 : 0 ≤ x) (hx : x ≤ 2147483647) :
    (hitFromClose settings np t x y o = some .BA_CLOSE
        ↔ np.state.border.BORDER_CLOSE = true ∧ 2 * (t : Int) < o
          ∧ o - (t : Int) < x ∧ x < o)
    ∧ (hitFromClose settings np t x y o = some .BA_MAXIMIZE
        ↔ np.state.border.BORDER_MAX = true
          ∧ 2 * (t : Int) < offsetAfter np.state.border.BORDER_CLOSE (t : Int) o
          ∧ offsetAfter np.state.border.BORDER_CLOSE (t : Int) o - (t : Int) < x
          ∧ x < offsetAfter np.state.border.BORDER_CLOSE (t : Int) o)
    ∧ (hitFromClose settings np t x y o = some .BA_MINIMIZE
        ↔ np.state.border.BORDER_MIN = true
          ∧ 2 * (t : Int) < offsetAfter np.state.border.BORDER_MAX (t : Int)
                (offsetAfter np.state.border.BORDER_CLOSE (t : Int) o)
          ∧ offsetAfter np.state.border.BORDER_MAX (t : Int)
                (offsetAfter np.state.border.BORDER_CLOSE (t : Int) o) - (t : Int) < x
          ∧ x < offsetAfter np.state.border.BORDER_MAX (t : Int)
                (offsetAfter np.state.border.BORDER_CLOSE (t : Int) o))
    ∧ hitFromClose settings np t x y o ≠ some .BA_MENU
    ∧ ((settings.borderWidth : Int) < x
        → x < offsetAfter np.state.border.BORDER_MIN (t : Int)
                (offsetAfter np.state.border.BORDER_MAX (t : Int)
                  (offsetAfter np.state.border.BORDER_CLOSE (t : Int) o))
        → hitFromClose settings np t x y o = some (moveOrNone np)) := by
  rw [hitFromClose_plain settings np t x y o ht ho0 ho hx0 hx]
  by_cases h : np.state.border.BORDER_CLOSE = true ∧ 2 * (t : Int) < o
  · have ho1 : offsetAfter np.state.border.BORDER_CLOSE (t : Int) o = o - (t : Int) := by
      unfold offsetAfter; rw [if_pos h]
    rw [ho1, if_pos h]
    by_cases hz : o - (t : Int) < x ∧ x < o
    · rw [if_pos hz]
      have hle1 := offsetAfter_le np.state.border.BORDER_MAX (t : Int) (o - (t : Int))
        (by omega)
      have hle2 := offsetAfter_le np.state.border.BORDER_MIN (t : Int)
        (offsetAfter np.state.border.BORDER_MAX (t : Int) (o - (t : Int))) (by omega)
      refine ⟨⟨fun _ => ⟨h.1, h.2, hz.1, hz.2⟩, fun _ => rfl⟩, ⟨fun hc => by simp at hc, ?_⟩,
        ⟨fun hc => by simp at hc, ?_⟩, by simp, ?_⟩
      · intro hc
        omega
      · intro hc
        omega
      · intro _ hlt
        omega
    · rw [if_neg hz]
      obtain ⟨s1, s2, s3, s4, s5⟩ := hitFromMax_stage settings np t x y (o - (t : Int)) hrows
        ht (by omega) (by omega) hx0 hx
      exact ⟨⟨fun hc => absurd hc s3, fun hc => absurd ⟨hc.2.2.1, hc.2.2.2⟩ hz⟩,
        s1, s2, s4, s5⟩
  · have ho1 : offsetAfter np.state.border.BORDER_CLOSE (t : Int) o = o := by
      unfold offsetAfter; rw [if_neg h]
    rw [ho1, if_neg h]
    obtain ⟨s1, s2, s3, s4, s5⟩ := hitFromMax_stage settings np t x y o hrows
      ht ho0 ho hx0 hx
    exact ⟨⟨fun hc => absurd hc s3, fun hc => absurd ⟨hc.1, hc.2.1⟩ h⟩, s1, s2, s4, s5⟩

theorem hitTitleHeight_eq (settings : Settings) (np : ClientNode)
    (hcfg : settings.titleHeight + settings.borderWidth ≤ 4294967295) :
    ((hitTitleHeight settings np : Nat) : Int) = effectiveTitleHeight settings np := by
  unfold hitTitleHeight effectiveTitleHeight
  split_ifs
  · unfold uadd
    rw [Nat.mod_eq_of_lt (by omega)]
    push_cast
    rfl
  · rfl

/-! ## Theorems: scenarios, DrawBorder, StartupSettings, title strip and resize zones -/

/-- C11 as stated fails: in Scenario C (client width 30, `titleHeight = 20`,
`borderWidth = 4`, handle style off, style {title, close, maximize})
`GetButtonCount` returns 0, not 1. -/
theorem GetButtonCount_scenarioC_counterexample :
    GetButtonCount { titleHeight := 20, borderWidth := 4, handles := false } scenarioCClient = 0
    ∧ GetButtonCount { titleHeight := 20, borderWidth := 4, handles := false } scenarioCClient
        ≠ 1 := by
  decide

/-- C11, amended: with client width 30, `titleHeight = 20`, handle style off
and style {title, close, maximize}, `GetButtonCount` returns 0 for every
`borderWidth`, status and client height: `offset = 30` is not above
`2 × titleHeight = 40`, so no button fits. -/
theorem GetButtonCount_scenarioC (borderWidth : Nat) (status : StatusFlags) (height : Int) :
    GetButtonCount { titleHeight := 20, borderWidth := borderWidth, handles := false }
      { state := { status := status,
                   border := { BORDER_TITLE := true, BORDER_CLOSE := true,
                               BORDER_MAX := true } },
        width := 30, height := height } = 0 := by
  have h30 : toUnsigned (iadd 30 0) ≤ umul 2 20 := by decide
  cases hF : status.STAT_FULLSCREEN <;> cases hS : status.STAT_SHADED <;>
    simp [GetButtonCount, GetBorderSize, hF, hS, h30]

/-- C12 (Scenario A, layout and close): with `titleHeight = 20`,
`borderWidth = 4`, handle style off, style {title, outline, close}, no
maximize or shade status and client width 200, the insets are `(20,4,4,4)`,
`GetButtonCount` returns 1, the only button drawn is the close button, in the
box starting at `x = 200 + 4 - 20 = 184`, and `GetBorderActionType` at
`(190, 10)` returns Close. -/
theorem scenarioA_layout_and_close :
    GetBorderSize { titleHeight := 20, borderWidth := 4, handles := false }
        scenarioAClient.state = ⟨20, 4, 4, 4⟩
    ∧ GetButtonCount { titleHeight := 20, borderWidth := 4, handles := false }
        scenarioAClient = 1
    ∧ (DrawBorderButtons { titleHeight := 20, borderWidth := 4, handles := false }
        scenarioAClient).filterMap DrawCmd.buttonBox = [(.BA_CLOSE, 200 + 4 - 20, 0)]
    ∧ GetBorderActionType { titleHeight := 20, borderWidth := 4, handles := false }
        scenarioAClient 190 10 = .BA_CLOSE := by
  decide

/-- C13 as stated fails: in Scenario A with the style {title, outline, close}
as given (moving not among the flags), `GetBorderActionType` at `(100, 10)`
returns None, not Move. -/
theorem scenarioA_move_counterexample :
    GetBorderActionType { titleHeight := 20, borderWidth := 4, handles := false }
        scenarioAClient 100 10 = .BA_NONE
    ∧ GetBorderActionType { titleHeight := 20, borderWidth := 4, handles := false }
        scenarioAClient 100 10 ≠ .BA_MOVE := by
  decide

/-- C13, amended: in Scenario A, `GetBorderActionType` at `(100, 10)` returns
Move when the style {title, outline, close} also has the move flag, and None
without it. -/
theorem scenarioA_move (move : Bool) :
    GetBorderActionType { titleHeight := 20, borderWidth := 4, handles := false }
        { scenarioAClient with
          state := { scenarioAClient.state with
                     border := { BORDER_OUTLINE := true, BORDER_TITLE := true,
                                 BORDER_CLOSE := true, BORDER_MOVE := move } } }
        100 10
      = if move = true then .BA_MOVE else .BA_NONE := by
  cases move <;> decide

/-- C14 as stated fails: in Scenario B with resizing permitted (style {title,
outline, resize}, vertically maximized, client 200 × 100) the insets are
`(20,0,4,4)`, and at the points `(100, 125)` and `(2, 125)` of the would-be
south resize zone (`y ≥ 100 + 20`) `GetBorderActionType` returns a resize
action, without direction and with the W direction, not None. -/
theorem scenarioB_south_zone_counterexample :
    GetBorderSize { titleHeight := 20, borderWidth := 4, handles := false }
        scenarioBClient.state = ⟨20, 0, 4, 4⟩
    ∧ scenarioBClient.height + 20 ≤ 125
    ∧ GetBorderActionType { titleHeight := 20, borderWidth := 4, handles := false }
        scenarioBClient 100 125 = .BA_RESIZE false false false false
    ∧ GetBorderActionType { titleHeight := 20, borderWidth := 4, handles := false }
        scenarioBClient 2 125 = .BA_RESIZE false false false true
    ∧ GetBorderActionType { titleHeight := 20, borderWidth := 4, handles := false }
        scenarioBClient 2 125 ≠ .BA_NONE := by
  decide

/-- C14, amended: with `titleHeight = 20`, `borderWidth = 4`, handle style
off, a style containing title and outline and a vertically maximized window
(not horizontally maximized, not fullscreen, client height at least 1), the
insets are `(20,0,4,4)`, and at every point with `y ≥ clientHeight + north`
`GetBorderActionType` returns None when the style does not permit resizing,
and otherwise a resize action without the N and S directions (the south edge
is masked out; E or W may remain). -/
theorem scenarioB_south_zone (settings : Settings) (np : ClientNode) (x y : Int)
    (hth : settings.titleHeight = 20) (hbw : settings.borderWidth = 4)
    (hH : settings.handles = false)
    (hT : np.state.border.BORDER_TITLE = true)
    (hO : np.state.border.BORDER_OUTLINE = true)
    (hV : np.state.status.STAT_VMAX = true)
    (hM : np.state.status.STAT_HMAX = false)
    (hF : np.state.status.STAT_FULLSCREEN = false)
    (hh : 1 ≤ np.height) (hh2 : np.height + 20 ≤ 2147483647)
    (hy : np.height + (GetBorderSize settings np.state).north ≤ y)
    (hy2 : y ≤ 2147483647) :
    GetBorderSize settings np.state = ⟨20, 0, 4, 4⟩
    ∧ (np.state.border.BORDER_RESIZE = false
        → GetBorderActionType settings np x y = .BA_NONE)
    ∧ (np.state.border.BORDER_RESIZE = true
        → ∃ e w, GetBorderActionType settings np x y = .BA_RESIZE false false e w) := by
  have h4 : toInt 4 = 4 := by decide
  have h20 : toInt 20 = 20 := by decide
  have hb : GetBorderSize settings np.state = ⟨20, 0, 4, 4⟩ := by
    cases hS : np.state.status.STAT_SHADED <;>
      simp [GetBorderSize, hth, hbw, hH, hT, hO, hV, hM, hF, hS, h4, h20]
  rw [hb] at hy
  dsimp only at hy
  have hT20 : hitTitleHeight settings np = 20 := by
    unfold hitTitleHeight
    rw [if_neg (by simp [hH]), hth]
  have hrows : ¬ inTitleRows settings (hitTitleHeight settings np) y := by
    rw [hT20]
    unfold inTitleRows toUnsigned
    omega
  have hnone := titleStripResult_below_rows settings np x y hrows
  refine ⟨hb, ?_, ?_⟩
  · intro hR
    rw [GetBorderActionType_of_none hnone]
    exact resizeAction_of_no_resize _ _ _ _ _ hR
  · intro hR
    rw [GetBorderActionType_of_none hnone, hb]
    have hy' : iadd np.height (⟨20, 0, 4, 4⟩ : BorderSize).north ≤ y := by
      dsimp only
      rw [iadd_of_range (by omega) (by omega)]
      exact hy
    obtain ⟨n, s, e, w, h⟩ := resizeAction_south settings np ⟨20, 0, 4, 4⟩ x y hR hy'
    rw [h]
    have hmask : (resizeMaskOf np.state.status).n = false
        ∧ (resizeMaskOf np.state.status).s = false :=
      resizeMaskOf_vmax_shaded _ (Or.inl hV)
    refine ⟨e && (resizeMaskOf np.state.status).e, w && (resizeMaskOf np.state.status).w, ?_⟩
    simp [maskedResize, hmask.1, hmask.2]

theorem scenarioB_south_zone_witness :
    GetBorderSize defaultSettings scenarioBClient.state = ⟨20, 0, 4, 4⟩
    ∧ ∃ e w, GetBorderActionType defaultSettings scenarioBClient 100 125
        = .BA_RESIZE false false e w :=
  ⟨(scenarioB_south_zone defaultSettings scenarioBClient 100 125 rfl rfl rfl rfl rfl rfl rfl rfl
      (by decide) (by decide) (by decide) (by decide)).1,
   (scenarioB_south_zone defaultSettings scenarioBClient 100 125 rfl rfl rfl rfl rfl rfl rfl rfl
      (by decide) (by decide) (by decide) (by decide)).2.2 rfl⟩

/-- C15: `DrawBorder` issues no drawing call unless the window is mapped or
shaded, is neither hidden nor fullscreen, and has a title or an outline
requested; in particular it issues none when the fullscreen status is set,
whatever the style.  When those conditions hold (and the manager is not
shutting down) its calls are those of `DrawBorderHelper`. -/
theorem DrawBorder_only_if {α : Type} (shouldExit : Bool)
    (DrawBorderHelper : ClientNode → List α) (np : ClientNode) :
    (¬ ((np.state.status.STAT_MAPPED = true ∨ np.state.status.STAT_SHADED = true)
          ∧ np.state.status.STAT_HIDDEN = false
          ∧ np.state.status.STAT_FULLSCREEN = false
          ∧ (np.state.border.BORDER_TITLE = true ∨ np.state.border.BORDER_OUTLINE = true))
        → DrawBorder shouldExit DrawBorderHelper np = [])
    ∧ (np.state.status.STAT_FULLSCREEN = true
        → DrawBorder shouldExit DrawBorderHelper np = [])
    ∧ ((np.state.status.STAT_MAPPED = true ∨ np.state.status.STAT_SHADED = true)
        → np.state.status.STAT_HIDDEN = false
        → np.state.status.STAT_FULLSCREEN = false
        → (np.state.border.BORDER_TITLE = true ∨ np.state.border.BORDER_OUTLINE = true)
        → shouldExit = false
        → DrawBorder shouldExit DrawBorderHelper np = DrawBorderHelper np) := by
  cases hM : np.state.status.STAT_MAPPED <;> cases hS : np.state.status.STAT_SHADED <;>
    cases hH : np.state.status.STAT_HIDDEN <;> cases hF : np.state.status.STAT_FULLSCREEN <;>
    cases hT : np.state.border.BORDER_TITLE <;> cases hO : np.state.border.BORDER_OUTLINE <;>
    cases shouldExit <;>
    simp [DrawBorder, hM, hS, hH, hF, hT, hO]

theorem DrawBorder_only_if_witness :
    DrawBorder false (fun np => [np.width])
      { state := { status := { STAT_MAPPED := true, STAT_FULLSCREEN := true },
                   border := { BORDER_TITLE := true, BORDER_OUTLINE := true } },
        width := 200, height := 100 } = [] :=
  (DrawBorder_only_if false (fun np => [np.width])
    { state := { status := { STAT_MAPPED := true, STAT_FULLSCREEN := true },
                 border := { BORDER_TITLE := true, BORDER_OUTLINE := true } },
      width := 200, height := 100 }).2.1 rfl

/-- C16: after `StartupSettings`, for every prior value of the settings
(handle style on or off), `1 ≤ borderWidth ≤ 128`, `1 ≤ titleHeight ≤ 256`
and `1 ≤ borderRadius ≤ 64`. -/
theorem StartupSettings_ranges (settings : Settings) :
    1 ≤ (StartupSettings settings).borderWidth
    ∧ (StartupSettings settings).borderWidth ≤ 128
    ∧ 1 ≤ (StartupSettings settings).titleHeight
    ∧ (StartupSettings settings).titleHeight ≤ 256
    ∧ 1 ≤ (StartupSettings settings).borderRadius
    ∧ (StartupSettings settings).borderRadius ≤ 64 := by
  have hb := FixRange_range settings.borderWidth 1 128 4 (by omega)
  have hr := FixRange_range settings.borderRadius 1 64 4 (by omega)
  have ht1 := FixRange_range settings.titleHeight 1 256 20 (by omega)
  have ht2 := FixRange_range
    (uadd settings.titleHeight (FixRange settings.borderWidth 1 128 4)) 1 256 20 (by omega)
  cases hH : settings.handles <;> simp [StartupSettings, hH] <;> omega

/-- C17: with a title bar requested and the effective title height above
`borderWidth`, for a pointer with `borderWidth ≤ y ≤` effective title height
and `x ≥ 0`: the action is Menu iff `clientWidth ≥` effective title height and
`borderWidth < x ≤` effective title height; otherwise the control buttons are
tested from the right, close, maximize, minimize in that order, each accepted
while the offset is above twice the effective title height and claiming the
`x` strictly between its left edge and the offset; and every remaining `x`
with `borderWidth < x <` the left edge of the last accepted button (or
`clientWidth + west` if none) gives Move if the style permits moving and None
otherwise.  The sizes are `int` values. -/
theorem GetBorderActionType_title_strip (settings : Settings) (np : ClientNode) (x y : Int)
    (hT : np.state.border.BORDER_TITLE = true)
    (hcfg : settings.titleHeight + settings.borderWidth ≤ 536870911)
    (hthick : (settings.borderWidth : Int) < effectiveTitleHeight settings np)
    (hw0 : 0 ≤ np.width) (hw : np.width ≤ 1073741823)
    (hy1 : (settings.borderWidth : Int) ≤ y) (hy2 : y ≤ effectiveTitleHeight settings np)
    (hx0 : 0 ≤ x) (hx : x ≤ 2147483647) :
    (GetBorderActionType settings np x y = .BA_MENU
        ↔ effectiveTitleHeight settings np ≤ np.width
          ∧ (settings.borderWidth : Int) < x ∧ x ≤ effectiveTitleHeight settings np)
    ∧ (¬ (effectiveTitleHeight settings np ≤ np.width
          ∧ (settings.borderWidth : Int) < x ∧ x ≤ effectiveTitleHeight settings np) →
        (GetBorderActionType settings np x y = .BA_CLOSE
          ↔ np.state.border.BORDER_CLOSE = true
            ∧ 2 * effectiveTitleHeight settings np < stripOffset0 settings np
            ∧ stripOffset0 settings np - effectiveTitleHeight settings np < x
            ∧ x < stripOffset0 settings np)
        ∧ (GetBorderActionType settings np x y = .BA_MAXIMIZE
          ↔ np.state.border.BORDER_MAX = true
            ∧ 2 * effectiveTitleHeight settings np < stripOffset1 settings np
            ∧ stripOffset1 settings np - effectiveTitleHeight settings np < x
            ∧ x < stripOffset1 settings np)
        ∧ (GetBorderActionType settings np x y = .BA_MINIMIZE
          ↔ np.state.border.BORDER_MIN = true
            ∧ 2 * effectiveTitleHeight settings np < stripOffset2 settings np
            ∧ stripOffset2 settings np - effectiveTitleHeight settings np < x
            ∧ x < stripOffset2 settings np)
        ∧ ((settings.borderWidth : Int) < x → x < stripLeftEdge settings np
            → GetBorderActionType settings np x y = moveOrNone np)) := by
  have hTe := hitTitleHeight_eq settings np (by omega)
  have hwst := GetBorderSize_west_range settings np.state (by omega)
  have hTb : effectiveTitleHeight settings np ≤ 536870911 := by
    unfold effectiveTitleHeight
    split_ifs <;> omega
  have hiw : iadd np.width (GetBorderSize settings np.state).west
      = np.width + (GetBorderSize settings np.state).west :=
    iadd_of_range (by omega) (by omega)
  have hrows : inTitleRows settings (hitTitleHeight settings np) y := by
    unfold inTitleRows toUnsigned
    omega
  have hthick' : settings.borderWidth < hitTitleHeight settings np := by omega
  -- the title strip result in terms of the menu test
  have hstrip : titleStripResult settings np x y
      = if effectiveTitleHeight settings np ≤ np.width
            ∧ (settings.borderWidth : Int) < x ∧ x ≤ effectiveTitleHeight settings np then
          some .BA_MENU
        else hitFromClose settings np (hitTitleHeight settings np) x y
          (np.width + (GetBorderSize settings np.state).west) := by
    unfold titleStripResult
    rw [if_pos ⟨hT, hthick'⟩]
    unfold titleBarAction
    dsimp only
    rw [hiw, if_pos hrows]
    by_cases hm : effectiveTitleHeight settings np ≤ np.width
        ∧ (settings.borderWidth : Int) < x ∧ x ≤ effectiveTitleHeight settings np
    · have h1 : hitTitleHeight settings np ≤ toUnsigned np.width := by
        unfold toUnsigned; omega
      have h2 : settings.borderWidth < toUnsigned x
          ∧ toUnsigned x ≤ hitTitleHeight settings np := by
        unfold toUnsigned; omega
      rw [if_pos h1, if_pos h2, if_pos hm]
    · rw [if_neg hm]
      by_cases h1 : hitTitleHeight settings np ≤ toUnsigned np.width
      · have h2 : ¬ (settings.borderWidth < toUnsigned x
            ∧ toUnsigned x ≤ hitTitleHeight settings np) := by
          unfold toUnsigned at h1 ⊢
          omega
        rw [if_pos h1, if_neg h2]
      · rw [if_neg h1]
  obtain ⟨c1, c2, c3, c4, c5⟩ := hitFromClose_stage settings np (hitTitleHeight settings np)
    x y (np.width + (GetBorderSize settings np.state).west) hrows (by omega) (by omega)
    (by omega) hx0 hx
  rw [hTe] at c1 c2 c3 c5
  constructor
  · rw [GetBorderActionType_eq_iff settings np x y .BA_MENU rfl (by simp), hstrip]
    by_cases hm : effectiveTitleHeight settings np ≤ np.width
        ∧ (settings.borderWidth : Int) < x ∧ x ≤ effectiveTitleHeight settings np
    · rw [if_pos hm]; simp [hm]
    · rw [if_neg hm]
      exact ⟨fun hc => absurd hc c4, fun hc => absurd hc hm⟩
  · intro hm
    rw [if_neg hm] at hstrip
    refine ⟨?_, ?_, ?_, ?_⟩
    · rw [GetBorderActionType_eq_iff settings np x y .BA_CLOSE rfl (by simp), hstrip]
      exact c1
    · rw [GetBorderActionType_eq_iff settings np x y .BA_MAXIMIZE rfl (by simp), hstrip]
      exact c2
    · rw [GetBorderActionType_eq_iff settings np x y .BA_MINIMIZE rfl (by simp), hstrip]
      exact c3
    · intro h1 h2
      exact GetBorderActionType_of_some (hstrip.trans (c5 h1 h2))

theorem GetBorderActionType_title_strip_witness :
    GetBorderActionType defaultSettings { narrowClient with width := 200 } 100 10
      = moveOrNone { narrowClient with width := 200 } :=
  (GetBorderActionType_title_strip defaultSettings { narrowClient with width := 200 } 100 10
    rfl (by decide) (by decide) (by decide) (by decide) (by decide) (by decide) (by decide)
    (by decide)).2 (by decide) |>.2.2.2 (by decide) (by decide)

/-- C18: if the style does not permit resizing, `GetBorderActionType` never
returns a resize action, and it returns None at every point that the title
strip does not claim. -/
theorem GetBorderActionType_no_resize (settings : Settings) (np : ClientNode) (x y : Int)
    (hR : np.state.border.BORDER_RESIZE = false) :
    (GetBorderActionType settings np x y).isResize = false
    ∧ (titleStripResult settings np x y = none
        → GetBorderActionType settings np x y = .BA_NONE) := by
  have hres : resizeAction settings np (GetBorderSize settings np.state) x y = .BA_NONE := by
    unfold resizeAction
    rw [if_pos hR]
  constructor
  · rcases hopt : titleStripResult settings np x y with _ | a
    · rw [GetBorderActionType_of_none hopt, hres]; rfl
    · rw [GetBorderActionType_of_some hopt]
      exact titleStripResult_isResize _ _ _ _ _ hopt
  · intro hnone
    rw [GetBorderActionType_of_none hnone, hres]

theorem GetBorderActionType_no_resize_witness :
    (GetBorderActionType defaultSettings scenarioAClient 2 125).isResize = false
    ∧ GetBorderActionType defaultSettings scenarioAClient 2 125 = .BA_NONE :=
  ⟨(GetBorderActionType_no_resize defaultSettings scenarioAClient 2 125 rfl).1,
   (GetBorderActionType_no_resize defaultSettings scenarioAClient 2 125 rfl).2 (by decide)⟩

/-- C19 as stated fails: for a resizable client 200 × 100 with a title bar and
no outline (insets `(20,0,0,0)`, frame 200 × 120), the point `(180, 119)` lies
in the `titleHeight`-sized square at the south-east corner of the frame, is
not claimed by the title strip, and is classified as None, not as S+E. -/
theorem corner_zone_counterexample :
    GetBorderSize defaultSettings borderlessClient.state = ⟨20, 0, 0, 0⟩
    ∧ titleStripResult defaultSettings borderlessClient 180 119 = none
    ∧ borderlessClient.width + 0 + 0 - 20 ≤ 180 ∧ (180 : Int) < borderlessClient.width + 0 + 0
    ∧ borderlessClient.height + 20 + 0 - 20 ≤ 119
    ∧ (119 : Int) < borderlessClient.height + 20 + 0
    ∧ GetBorderActionType defaultSettings borderlessClient 180 119 = .BA_NONE
    ∧ GetBorderActionType defaultSettings borderlessClient 180 119
        ≠ .BA_RESIZE false true true false := by
  decide

/-- C19, amended: for a resizable window that is not maximized or shaded,
whose client width and height are both at least `2 × titleHeight` and whose
east and south insets are at least 1 (an outline is requested), every point of
the frame not claimed by the title strip that lies in the `titleHeight`-sized
square at one of the four corners of the outer frame is classified as the
corresponding two-edge resize action (N+W, N+E, S+W, S+E).  The sizes are
`int` values. -/
theorem GetBorderActionType_corner_zones (settings : Settings) (np : ClientNode) (x y : Int)
    (hR : np.state.border.BORDER_RESIZE = true)
    (hM : np.state.status.STAT_HMAX = false)
    (hV : np.state.status.STAT_VMAX = false)
    (hS : np.state.status.STAT_SHADED = false)
    (hcfg : settings.titleHeight + settings.borderWidth ≤ 536870911)
    (hw0 : 2 * (settings.titleHeight : Int) ≤ np.width) (hw : np.width ≤ 1073741823)
    (hh0 : 2 * (settings.titleHeight : Int) ≤ np.height) (hh : np.height ≤ 1073741823)
    (he : 1 ≤ (GetBorderSize settings np.state).east)
    (hs : 1 ≤ (GetBorderSize settings np.state).south)
    (hx0 : 0 ≤ x)
    (hx : x < np.width + (GetBorderSize settings np.state).east
                + (GetBorderSize settings np.state).west)
    (hy0 : 0 ≤ y)
    (hy : y < np.height + (GetBorderSize settings np.state).north
                + (GetBorderSize settings np.state).south)
    (hnt : titleStripResult settings np x y = none) :
    (x < (settings.titleHeight : Int) ∧ y < (settings.titleHeight : Int)
        → GetBorderActionType settings np x y = .BA_RESIZE true false false true)
    ∧ (np.width + (GetBorderSize settings np.state).east
          + (GetBorderSize settings np.state).west - (settings.titleHeight : Int) ≤ x
        ∧ y < (settings.titleHeight : Int)
        → GetBorderActionType settings np x y = .BA_RESIZE true false true false)
    ∧ (x < (settings.titleHeight : Int)
        ∧ np.height + (GetBorderSize settings np.state).north
            + (GetBorderSize settings np.state).south - (settings.titleHeight : Int) ≤ y
        → GetBorderActionType settings np x y = .BA_RESIZE false true false true)
    ∧ (np.width + (GetBorderSize settings np.state).east
          + (GetBorderSize settings np.state).west - (settings.titleHeight : Int) ≤ x
        ∧ np.height + (GetBorderSize settings np.state).north
            + (GetBorderSize settings np.state).south - (settings.titleHeight : Int) ≤ y
        → GetBorderActionType settings np x y = .BA_RESIZE false true true false) := by
  have hi := GetBorderSize_insets_range settings np.state (by omega)
  have hwst := GetBorderSize_west_range settings np.state (by omega)
  have key : ∀ south east : Bool,
      (if south = true then
          np.height + (GetBorderSize settings np.state).north - (settings.titleHeight : Int) < y
        else y < (settings.titleHeight : Int)) →
      (if east = true then
          np.width + (GetBorderSize settings np.state).west - (settings.titleHeight : Int) < x
        else x < (settings.titleHeight : Int)) →
      GetBorderActionType settings np x y = .BA_RESIZE (!south) south east (!east) := by
    intro south east hrow hcol
    rw [GetBorderActionType_of_none hnt,
      resizeAction_in_corner settings np _ x y south east hR (by omega) hw0 hw hh0 hh
        (by omega) (by omega) (by omega) (by omega) hx0 (by omega) hy0 (by omega) hrow hcol,
      resizeMaskOf_free _ hM hV hS]
    simp [maskedResize]
  refine ⟨?_, ?_, ?_, ?_⟩
  · intro h
    exact key false false (by simpa using h.2) (by simpa using h.1)
  · intro h
    exact key false true (by simpa using h.2) (by simp only [if_true]; omega)
  · intro h
    exact key true false (by simp only [if_true]; omega) (by simpa using h.1)
  · intro h
    exact key true true (by simp only [if_true]; omega) (by simp only [if_true]; omega)

theorem GetBorderActionType_corner_zones_witness :
    GetBorderActionType defaultSettings { narrowClient with width := 200 } 190 110
      = .BA_RESIZE false true true false :=
  (GetBorderActionType_corner_zones defaultSettings { narrowClient with width := 200 }
    190 110 rfl rfl rfl rfl (by decide) (by decide) (by decide) (by decide) (by decide)
    (by decide) (by decide) (by decide) (by decide) (by decide) (by decide)
    (by decide)).2.2.2 ⟨by decide, by decide⟩

/-- C20 as stated fails: for a resizable, unmaximized, unshaded client
200 × 100 with outline and title bar under the default settings (insets
`(20,4,4,4)`, frame 208 × 124), the point `(186, 110)` is not claimed by the
title strip and lies outside every `titleHeight`-sized corner square of the
outer frame (`20 ≤ 186 < 208 - 20`); none of the four edge tests of the claim
holds there, so the claim gives None, but the action is S+E: the corner test
of the code is `x > clientWidth + west - titleHeight = 184`. -/
theorem edge_zone_counterexample :
    GetBorderSize defaultSettings ({ narrowClient with width := 200 } : ClientNode).state
      = ⟨20, 4, 4, 4⟩
    ∧ ({ narrowClient with width := 200 } : ClientNode).state.border.BORDER_RESIZE = true
    ∧ ({ narrowClient with width := 200 } : ClientNode).state.status.STAT_HMAX = false
    ∧ ({ narrowClient with width := 200 } : ClientNode).state.status.STAT_VMAX = false
    ∧ ({ narrowClient with width := 200 } : ClientNode).state.status.STAT_SHADED = false
    ∧ titleStripResult defaultSettings { narrowClient with width := 200 } 186 110 = none
    ∧ (20 : Int) ≤ 186 ∧ (186 : Int) < 200 + 4 + 4 - 20
    ∧ ¬ ((186 : Int) ≤ 4) ∧ ¬ ((200 : Int) + 4 ≤ 186)
    ∧ ¬ ((100 : Int) + 20 ≤ 110) ∧ ¬ ((110 : Int) ≤ 4)
    ∧ GetBorderActionType defaultSettings { narrowClient with width := 200 } 186 110
        = .BA_RESIZE false true true false
    ∧ GetBorderActionType defaultSettings { narrowClient with width := 200 } 186 110
        ≠ .BA_NONE := by
  decide

/-- C20, amended: for a resizable, unmaximized, unshaded window and a point
with `x ≥ 0` that neither the title strip nor the corner test of the code
claims (the corner test: client width and height both at least
`2 × titleHeight`, `y < titleHeight` or `y > clientHeight + north -
titleHeight`, and `x < titleHeight` or `x > clientWidth + west -
titleHeight`), `GetBorderActionType` returns West resize if `x ≤ west`; else
East resize if `x ≥ clientWidth + west`; else South resize if
`y ≥ clientHeight + north`; else North resize if `y ≤ south` (the south
inset); else None.  The sizes are `int` values. -/
theorem GetBorderActionType_edge_zones (settings : Settings) (np : ClientNode) (x y : Int)
    (hR : np.state.border.BORDER_RESIZE = true)
    (hM : np.state.status.STAT_HMAX = false)
    (hV : np.state.status.STAT_VMAX = false)
    (hS : np.state.status.STAT_SHADED = false)
    (hcfg : settings.titleHeight + settings.borderWidth ≤ 1073741823)
    (hw0 : 0 ≤ np.width) (hw : np.width ≤ 1073741823)
    (hh0 : 0 ≤ np.height) (hh : np.height ≤ 1073741823)
    (hx0 : 0 ≤ x) (hx : x ≤ 2147483647)
    (hy0 : -2147483648 ≤ y) (hy : y ≤ 2147483647)
    (hnt : titleStripResult settings np x y = none)
    (hnc : ¬ (2 * (settings.titleHeight : Int) ≤ np.width
              ∧ 2 * (settings.titleHeight : Int) ≤ np.height
              ∧ (y < (settings.titleHeight : Int)
                  ∨ np.height + (GetBorderSize settings np.state).north
                      - (settings.titleHeight : Int) < y)
              ∧ (x < (settings.titleHeight : Int)
                  ∨ np.width + (GetBorderSize settings np.state).west
                      - (settings.titleHeight : Int) < x))) :
    GetBorderActionType settings np x y
      = if x ≤ (GetBorderSize settings np.state).west then
          .BA_RESIZE false false false true
        else if np.width + (GetBorderSize settings np.state).west ≤ x then
          .BA_RESIZE false false true false
        else if np.height + (GetBorderSize settings np.state).north ≤ y then
          .BA_RESIZE false true false false
        else if y ≤ (GetBorderSize settings np.state).south then
          .BA_RESIZE true false false false
        else .BA_NONE := by
  have hi := GetBorderSize_insets_range settings np.state (by omega)
  have hwst := GetBorderSize_west_range settings np.state (by omega)
  rw [GetBorderActionType_of_none hnt,
    resizeAction_outside_corners settings np _ x y hR (by omega) hw0 hw hh0 hh
      (by omega) (by omega) (by omega) (by omega) hx0 hx hy0 hy hnc,
    resizeMaskOf_free _ hM hV hS,
    edgeAction_free np _ x y (iadd_of_range (by omega) (by omega))
      (iadd_of_range (by omega) (by omega))]

theorem GetBorderActionType_edge_zones_witness :
    GetBorderActionType defaultSettings { narrowClient with width := 200 } 100 2
      = .BA_RESIZE true false false false := by
  have h := GetBorderActionType_edge_zones defaultSettings { narrowClient with width := 200 }
    100 2 rfl rfl rfl rfl (by decide) (by decide) (by decide) (by decide) (by decide)
    (by decide) (by decide) (by decide) (by decide) (by decide) (by decide)
  simpa using h

/-! ## Theorems: StartupSettings, ResetBorder offsets, colours, negative x -/

/-- C22: `StartupSettings` adds `borderWidth` into `titleHeight` exactly once
when handle style is on: for an initial `borderWidth` in [1,128] and an
initial `titleHeight` with `titleHeight + borderWidth` in [1,256], the
resulting `titleHeight` is the initial `titleHeight + borderWidth` and
`borderWidth` is unchanged; with handle style off and `titleHeight` in
[1,256], `titleHeight` is unchanged. -/
theorem StartupSettings_adds_once (settings : Settings) :
    (settings.handles = true → 1 ≤ settings.borderWidth → settings.borderWidth ≤ 128
      → 1 ≤ settings.titleHeight + settings.borderWidth
      → settings.titleHeight + settings.borderWidth ≤ 256
      → (StartupSettings settings).titleHeight = settings.titleHeight + settings.borderWidth
        ∧ (StartupSettings settings).borderWidth = settings.borderWidth)
    ∧ (settings.handles = false → 1 ≤ settings.titleHeight → settings.titleHeight ≤ 256
      → (StartupSettings settings).titleHeight = settings.titleHeight) := by
  constructor
  · intro hH h1 h2 h3 h4
    have hb : FixRange settings.borderWidth 1 128 4 = settings.borderWidth := by
      unfold FixRange; rw [if_neg (by omega)]
    have hu : uadd settings.titleHeight settings.borderWidth
        = settings.titleHeight + settings.borderWidth := by
      unfold uadd; omega
    have ht : FixRange (settings.titleHeight + settings.borderWidth) 1 256 20
        = settings.titleHeight + settings.borderWidth := by
      unfold FixRange; rw [if_neg (by omega)]
    simp [StartupSettings, hH, hb, hu, ht]
  · intro hH h1 h2
    have ht : FixRange settings.titleHeight 1 256 20 = settings.titleHeight := by
      unfold FixRange; rw [if_neg (by omega)]
    simp [StartupSettings, hH, ht]

theorem StartupSettings_adds_once_witness :
    (StartupSettings { titleHeight := 20, borderWidth := 4, handles := true }).titleHeight = 24
    ∧ (StartupSettings { titleHeight := 20, borderWidth := 4, handles := true }).borderWidth
        = 4 :=
  (StartupSettings_adds_once { titleHeight := 20, borderWidth := 4, handles := true }).1
    rfl (by decide) (by decide) (by decide) (by decide)

/-- C27: for every state and configuration `GetBorderSize` returns
`east = west`; hence the offset `(east, north)` that `ResetBorder` adds to the
shape rectangles of the client equals the position `(west, north)` at which
it places the client window inside the frame. -/
theorem GetBorderSize_east_eq_west (settings : Settings) (np : ClientNode) :
    (GetBorderSize settings np.state).east = (GetBorderSize settings np.state).west
    ∧ shapeRectOffset settings np = clientWindowPosition settings np := by
  have h : (GetBorderSize settings np.state).east = (GetBorderSize settings np.state).west := by
    cases hF : np.state.status.STAT_FULLSCREEN <;> cases hT : np.state.border.BORDER_TITLE <;>
      cases hH : settings.handles <;> cases hO : np.state.border.BORDER_OUTLINE <;>
      cases hV : np.state.status.STAT_VMAX <;> cases hM : np.state.status.STAT_HMAX <;>
      cases hS : np.state.status.STAT_SHADED <;>
      simp [GetBorderSize, hF, hT, hH, hO, hV, hM, hS]
  refine ⟨h, ?_⟩
  unfold shapeRectOffset clientWindowPosition
  rw [h]

/-- C30, evaluated at failing inputs: `GetRGBFromXColor (GetXColorFromRGB
0x808080)` is `0x818181`, not `0x808080` (`(128 * 257 + 0x80) >> 8 = 129`), and
the RGB value `StartupColors` records for `#CC7700` is `0xCD7700`, while
`SetDefaultColor` records the table value `0xCC7700` itself. -/
theorem rgb_roundtrip_fails :
    GetRGBFromXColor (GetXColorFromRGB 0x808080) = 0x818181
    ∧ GetRGBFromXColor (GetXColorFromRGB 0x808080) ≠ 0x808080
    ∧ StartupColors_rgb 0xCC7700 = 0xCD7700
    ∧ SetDefaultColor_rgb 0xCC7700 = 0xCC7700 := by
  decide

/-- C28, evaluated at failing inputs: under the default settings, for the
Scenario A client (title, outline, close; width 200) the point `(-3, 10)` left
of the frame is classified as Close, and for a client with a title bar and the
move flag but no button the same point is classified as Move: `int x` is
converted to `unsigned int` in `x > offset - titleHeight` and in
`x > settings.borderWidth`. -/
theorem negative_x_title_actions :
    GetBorderActionType defaultSettings scenarioAClient (-3) 10 = .BA_CLOSE
    ∧ GetBorderActionType defaultSettings
        { state := { status := { STAT_MAPPED := true },
                     border := { BORDER_OUTLINE := true, BORDER_TITLE := true,
                                 BORDER_MOVE := true } },
          width := 200, height := 100 } (-3) 10 = .BA_MOVE := by
  decide

/-! ## Lemmas and theorems: DrawButton -/

theorem wrapInt_of_range {i : Int} (h0 : -2147483648 ≤ i) (h : i ≤ 2147483647) :
    wrapInt i = i := by
  unfold wrapInt toInt toUnsigned
  split_ifs <;> omega

theorem GetScaledIconSize_wide_eq (image : ImageNode) (m : Int)
    (hw2 : image.width ≤ 32767) (hh : 0 < image.height)
    (hlt : image.height < image.width) (hm0 : 0 ≤ m) (hm : m ≤ 32767) :
    GetScaledIconSize (.icon image) m
      = some (m, m * 65536 / (image.width * 65536 / image.height)) := by
  have hwr : wrapInt (image.width * 65536) = image.width * 65536 :=
    wrapInt_of_range (by omega) (by omega)
  have hmr : wrapInt (m * 65536) = m * 65536 := wrapInt_of_range (by omega) (by omega)
  have hratio : Int.tdiv (image.width * 65536) image.height
      = image.width * 65536 / image.height :=
    Int.tdiv_eq_ediv (by omega) (by omega)
  have hge : 65536 ≤ image.width * 65536 / image.height := by
    apply Int.le_ediv_of_mul_le hh
    nlinarith
  have hih : Int.tdiv (m * 65536) (image.width * 65536 / image.height)
      = m * 65536 / (image.width * 65536 / image.height) :=
    Int.tdiv_eq_ediv (by omega) (by omega)
  unfold GetScaledIconSize
  dsimp only
  rw [if_neg (by omega), if_pos hlt, hwr, hmr, hratio, if_neg (by omega), hih]

theorem GetScaledIconSize_tall_eq (image : ImageNode) (m : Int)
    (hw : 0 < image.width) (hh2 : image.height ≤ 32767)
    (hle : image.width ≤ image.height) (hm0 : 0 ≤ m) (hm : m ≤ 32767) :
    GetScaledIconSize (.icon image) m
      = some (m * (image.width * 65536 / image.height) / 65536, m) := by
  have hwr : wrapInt (image.width * 65536) = image.width * 65536 :=
    wrapInt_of_range (by omega) (by omega)
  have hratio : Int.tdiv (image.width * 65536) image.height
      = image.width * 65536 / image.height :=
    Int.tdiv_eq_ediv (by omega) (by omega)
  have hr0 : 0 ≤ image.width * 65536 / image.height :=
    Int.ediv_nonneg (by omega) (by omega)
  have hr1 : image.width * 65536 / image.height ≤ 65536 := by
    apply Int.ediv_le_of_le_mul (by omega)
    nlinarith
  have hprod0 : 0 ≤ m * (image.width * 65536 / image.height) := Int.mul_nonneg hm0 hr0
  have hprod1 : m * (image.width * 65536 / image.height) ≤ m * 65536 :=
    Int.mul_le_mul_of_nonneg_left hr1 hm0
  have hpr : wrapInt (m * (image.width * 65536 / image.height))
      = m * (image.width * 65536 / image.height) :=
    wrapInt_of_range (by omega) (by omega)
  unfold GetScaledIconSize
  dsimp only
  rw [if_neg (by omega), if_neg (by omega), hwr, hratio, hpr]

theorem scaled_wide_ratio (w h m : Int) (hh : 0 < h) (hlt : h < w)
    (hm0 : 0 ≤ m) (hm : m ≤ 32767) :
    0 ≤ m * 65536 / (w * 65536 / h) ∧ m * 65536 / (w * 65536 / h) ≤ m
    ∧ m * h - w < m * 65536 / (w * 65536 / h) * w
    ∧ m * 65536 / (w * 65536 / h) * w < m * h + w := by
  have hr : 65536 ≤ w * 65536 / h := by
    apply Int.le_ediv_of_mul_le hh
    nlinarith
  have ha : w * 65536 / h * h ≤ w * 65536 := Int.ediv_mul_le _ (by omega)
  have hb : w * 65536 < (w * 65536 / h + 1) * h := Int.lt_ediv_add_one_mul_self _ hh
  have hc : m * 65536 / (w * 65536 / h) * (w * 65536 / h) ≤ m * 65536 :=
    Int.ediv_mul_le _ (by omega)
  have hd : m * 65536 < (m * 65536 / (w * 65536 / h) + 1) * (w * 65536 / h) :=
    Int.lt_ediv_add_one_mul_self _ (by omega)
  have h0 : 0 ≤ m * 65536 / (w * 65536 / h) := Int.ediv_nonneg (by omega) (by omega)
  have h1 : m * 65536 / (w * 65536 / h) ≤ m := by
    apply Int.ediv_le_of_le_mul (by omega)
    nlinarith
  generalize w * 65536 / h = r at *
  generalize m * 65536 / r = ih at *
  refine ⟨h0, h1, ?_, ?_⟩
  · -- m * 65536 * h < (ih + 1) * r * h ≤ (ih + 1) * w * 65536
    have e1 : m * 65536 * h < (ih + 1) * r * h := by nlinarith
    have e2 : (ih + 1) * (r * h) ≤ (ih + 1) * (w * 65536) :=
      Int.mul_le_mul_of_nonneg_left ha (by omega)
    nlinarith
  · -- ih * w * 65536 ≤ ih * (r + 1) * h = ih * r * h + ih * h
    have e1 : ih * (w * 65536) ≤ ih * ((r + 1) * h) :=
      Int.mul_le_mul_of_nonneg_left (le_of_lt hb) h0
    have e2 : ih * r * h ≤ m * 65536 * h :=
      Int.mul_le_mul_of_nonneg_right hc (by omega)
    have e3 : ih * h ≤ m * h := Int.mul_le_mul_of_nonneg_right h1 (by omega)
    have e4 : m * h ≤ 32767 * h := Int.mul_le_mul_of_nonneg_right hm (by omega)
    nlinarith

theorem scaled_tall_ratio (w h m : Int) (hw : 0 < w) (hle : w ≤ h)
    (hm0 : 0 ≤ m) (hm : m ≤ 32767) :
    0 ≤ m * (w * 65536 / h) / 65536 ∧ m * (w * 65536 / h) / 65536 ≤ m
    ∧ m * w - 2 * h < m * (w * 65536 / h) / 65536 * h
    ∧ m * (w * 65536 / h) / 65536 * h ≤ m * w
    ∧ (w = h → m * (w * 65536 / h) / 65536 = m) := by
  have hh : 0 < h := by omega
  have hr0 : 0 ≤ w * 65536 / h := Int.ediv_nonneg (by omega) (by omega)
  have hr1 : w * 65536 / h ≤ 65536 := by
    apply Int.ediv_le_of_le_mul (by omega)
    nlinarith
  have ha : w * 65536 / h * h ≤ w * 65536 := Int.ediv_mul_le _ (by omega)
  have hb : w * 65536 < (w * 65536 / h + 1) * h := Int.lt_ediv_add_one_mul_self _ hh
  have hc : m * (w * 65536 / h) / 65536 * 65536 ≤ m * (w * 65536 / h) :=
    Int.ediv_mul_le _ (by omega)
  have hd : m * (w * 65536 / h) < (m * (w * 65536 / h) / 65536 + 1) * 65536 :=
    Int.lt_ediv_add_one_mul_self _ (by omega)
  have h0 : 0 ≤ m * (w * 65536 / h) / 65536 :=
    Int.ediv_nonneg (Int.mul_nonneg hm0 hr0) (by omega)
  have h1 : m * (w * 65536 / h) / 65536 ≤ m :=
    Int.ediv_le_of_le_mul (by omega) (Int.mul_le_mul_of_nonneg_left hr1 hm0)
  have hsq : w = h → m * (w * 65536 / h) / 65536 = m := by
    intro heq
    have h2 : w * 65536 / h = 65536 := by
      rw [heq, Int.mul_comm]
      exact Int.mul_ediv_cancel 65536 (by omega)
    rw [h2]
    exact Int.mul_ediv_cancel m (by omega)
  refine ⟨h0, h1, ?_, ?_, hsq⟩
  · clear hsq
    generalize w * 65536 / h = r at *
    generalize m * r / 65536 = iw at *
    -- m * w * 65536 ≤ m * (r + 1) * h < (iw + 1) * 65536 * h + m * h
    have e1 : m * (w * 65536) ≤ m * ((r + 1) * h) :=
      Int.mul_le_mul_of_nonneg_left (le_of_lt hb) hm0
    have e2 : m * r * h < (iw + 1) * 65536 * h := by nlinarith
    have e3 : m * h ≤ 32767 * h := Int.mul_le_mul_of_nonneg_right hm (by omega)
    nlinarith
  · clear hsq
    generalize w * 65536 / h = r at *
    generalize m * r / 65536 = iw at *
    have e1 : iw * 65536 * h ≤ m * r * h := Int.mul_le_mul_of_nonneg_right hc (by omega)
    have e2 : m * (r * h) ≤ m * (w * 65536) := Int.mul_le_mul_of_nonneg_left ha hm0
    nlinarith

/-- C24: `DrawButton` fits the icon into `m = min(width, height) - 5` pixels
preserving the aspect ratio.  For every icon image with width `w` and height
`h` in [1, 32767] (so that the 16-bit fixed-point shifts do not overflow) and
every `m` in [0, 32767], `GetScaledIconSize` does not divide by zero and
returns a size `(iw, ih)` with both sides in [0, `m`].  For `w > h` the width
is `m` and the height is `(m * 65536) / ((w * 65536) / h)`, less than one
pixel away from `m * h / w` (`m * h - w < ih * w < m * h + w`); for `w ≤ h`
the height is `m` and the width is `(m * ((w * 65536) / h)) / 65536`, at most
`m * w / h` and less than two pixels below it
(`m * w - 2 * h < iw * h ≤ m * w`); a square image gives `m × m`; the empty
icon gives `m × m`; and the size `DrawButton` asks for is
`min(width, height) - 5`. -/
theorem GetScaledIconSize_fits (image : ImageNode) (m : Int)
    (hw : 0 < image.width) (hw2 : image.width ≤ 32767)
    (hh : 0 < image.height) (hh2 : image.height ≤ 32767)
    (hm0 : 0 ≤ m) (hm : m ≤ 32767) :
    (∃ iw ih, GetScaledIconSize (.icon image) m = some (iw, ih)
      ∧ 0 ≤ iw ∧ iw ≤ m ∧ 0 ≤ ih ∧ ih ≤ m
      ∧ (image.height < image.width →
          iw = m ∧ ih = m * 65536 / (image.width * 65536 / image.height)
          ∧ m * image.height - image.width < ih * image.width
          ∧ ih * image.width < m * image.height + image.width)
      ∧ (image.width ≤ image.height →
          ih = m ∧ iw = m * (image.width * 65536 / image.height) / 65536
          ∧ m * image.width - 2 * image.height < iw * image.height
          ∧ iw * image.height ≤ m * image.width)
      ∧ (image.width = image.height → iw = m ∧ ih = m))
    ∧ GetScaledIconSize .emptyIcon m = some (m, m)
    ∧ (∀ bp : ButtonNode, -2147483643 ≤ bp.width → bp.width ≤ 2147483647
        → -2147483643 ≤ bp.height → bp.height ≤ 2147483647
        → bp.icon = some (.icon image) → min bp.width bp.height - 5 = m
        → buttonIconSize bp = GetScaledIconSize (.icon image) m) := by
  refine ⟨?_, rfl, ?_⟩
  · by_cases hlt : image.height < image.width
    · obtain ⟨h0, h1, h2, h3⟩ := scaled_wide_ratio image.width image.height m hh hlt hm0 hm
      exact ⟨m, _, GetScaledIconSize_wide_eq image m hw2 hh hlt hm0 hm, hm0, le_refl _,
        h0, h1, fun _ => ⟨rfl, rfl, h2, h3⟩, fun hc => by omega, fun hc => by omega⟩
    · obtain ⟨h0, h1, h2, h3, h4⟩ :=
        scaled_tall_ratio image.width image.height m hw (by omega) hm0 hm
      exact ⟨_, m, GetScaledIconSize_tall_eq image m hw hh2 (by omega) hm0 hm, h0, h1,
        hm0, le_refl _, fun hc => absurd hc hlt, fun _ => ⟨rfl, rfl, h2, h3⟩,
        fun hc => ⟨h4 hc, rfl⟩⟩
  · intro bp h1 h2 h3 h4 hicon hmin
    unfold buttonIconSize
    rw [hicon]
    dsimp only
    by_cases hwl : bp.width < bp.height
    · rw [if_pos hwl, wrapInt_of_range (by omega) (by omega)]
      congr 1
      rw [← hmin, min_eq_left (by omega)]
    · rw [if_neg hwl, wrapInt_of_range (by omega) (by omega)]
      congr 1
      rw [← hmin, min_eq_right (by omega)]

theorem GetScaledIconSize_fits_witness :
    GetScaledIconSize (.icon ⟨48, 32⟩) 15 = some (15, 10)
    ∧ (∃ iw ih, GetScaledIconSize (.icon ⟨48, 32⟩) 15 = some (iw, ih)
      ∧ 0 ≤ iw ∧ iw ≤ 15 ∧ 0 ≤ ih ∧ ih ≤ 15
      ∧ ((32 : Int) < 48 →
          iw = 15 ∧ ih = 15 * 65536 / (48 * 65536 / 32)
          ∧ 15 * 32 - 48 < ih * 48 ∧ ih * 48 < 15 * 32 + 48)
      ∧ ((48 : Int) ≤ 32 →
          ih = 15 ∧ iw = 15 * (48 * 65536 / 32) / 65536
          ∧ 15 * 48 - 2 * 32 < iw * 32 ∧ iw * 32 ≤ 15 * 48)
      ∧ ((48 : Int) = 32 → iw = 15 ∧ ih = 15)) :=
  ⟨by decide,
   (GetScaledIconSize_fits ⟨48, 32⟩ 15 (by decide) (by decide) (by decide) (by decide)
    (by decide) (by decide)).1⟩

theorem buttonTextWidth_plain (bp : ButtonNode) (iconWidth s : Int) (t : String)
    (htext : bp.text = some t)
    (hs0 : 0 ≤ s) (hs : s ≤ 1073741819)
    (hi0 : -1073741819 ≤ iconWidth) (hi : iconWidth ≤ 1073741819)
    (hw0 : -1073741819 ≤ bp.width) (hw : bp.width ≤ 1073741819) :
    buttonTextWidth bp iconWidth s
      = if s + iconWidth + 8 > bp.width then
          if bp.width - iconWidth - 8 < 0 then 0 else bp.width - iconWidth - 8
        else s := by
  unfold buttonTextWidth
  rw [htext]
  dsimp only
  rw [wrapInt_of_range (i := s + iconWidth) (by omega) (by omega),
    wrapInt_of_range (i := s + iconWidth + 8) (by omega) (by omega),
    wrapInt_of_range (i := bp.width - iconWidth) (by omega) (by omega),
    wrapInt_of_range (i := bp.width - iconWidth - 8) (by omega) (by omega)]

theorem DrawButton_label (bp : ButtonNode) (s sh : Int) (calls : List ButtonCall)
    (rx ry w : Int) (txt : String)
    (hdraw : DrawButton bp s sh = some calls)
    (hmem : ButtonCall.RenderString rx ry w txt ∈ calls) :
    ∃ iw ih, buttonIconSize bp = some (iw, ih)
      ∧ bp.text = some txt
      ∧ w = buttonTextWidth bp iw s ∧ w ≠ 0
      ∧ rx = wrapInt (bp.x + buttonLabelOffset bp iw w) := by
  unfold DrawButton at hdraw
  rcases hsz : buttonIconSize bp with _ | ⟨iw, ih⟩
  · rw [hsz] at hdraw
    simp at hdraw
  · rw [hsz] at hdraw
    dsimp only at hdraw
    simp only [Option.some.injEq] at hdraw
    subst hdraw
    rw [List.mem_append] at hmem
    rcases hmem with hmem | hmem
    · rcases hic : bp.icon with _ | ip
      · rw [hic] at hmem; simp at hmem
      · rw [hic] at hmem; simp at hmem
    · rcases htx : bp.text with _ | t
      · rw [htx] at hmem; simp at hmem
      · rw [htx] at hmem
        dsimp only at hmem
        by_cases hz : buttonTextWidth bp iw s ≠ 0
        · rw [if_pos hz] at hmem
          simp only [List.mem_singleton, ButtonCall.RenderString.injEq] at hmem
          obtain ⟨h1, _, h3, h4⟩ := hmem
          refine ⟨iw, ih, rfl, ?_, h3, ?_, ?_⟩
          · rw [h4]
          · rw [h3]; exact hz
          · rw [h1, h3]
        · rw [if_neg hz] at hmem
          simp at hmem

/-- C25: for a button with a text whose measured string width is `s ≥ 0`,
the text width `DrawButton` uses is `min s (max 0 (width - iconWidth - 8))`,
and every label `DrawButton` renders has that width, which is then non-zero.
The values are `int`s without wrap-around. -/
theorem DrawButton_text_width (bp : ButtonNode) (iconWidth s : Int) (t : String)
    (htext : bp.text = some t)
    (hs0 : 0 ≤ s) (hs : s ≤ 1073741819)
    (hi0 : -1073741819 ≤ iconWidth) (hi : iconWidth ≤ 1073741819)
    (hw0 : -1073741819 ≤ bp.width) (hw : bp.width ≤ 1073741819) :
    buttonTextWidth bp iconWidth s = min s (max 0 (bp.width - iconWidth - 8))
    ∧ (∀ (ih sh : Int) (calls : List ButtonCall) (rx ry w : Int) (txt : String),
        buttonIconSize bp = some (iconWidth, ih)
        → DrawButton bp s sh = some calls
        → ButtonCall.RenderString rx ry w txt ∈ calls
        → w = min s (max 0 (bp.width - iconWidth - 8)) ∧ w ≠ 0) := by
  have hplain := buttonTextWidth_plain bp iconWidth s t htext hs0 hs hi0 hi hw0 hw
  have heq : buttonTextWidth bp iconWidth s = min s (max 0 (bp.width - iconWidth - 8)) := by
    rw [hplain]
    split_ifs <;> omega
  refine ⟨heq, ?_⟩
  intro ih0 sh calls rx ry w txt hsz hdraw hmem
  obtain ⟨iw, ih, h1, _, h3, h4, _⟩ := DrawButton_label bp s sh calls rx ry w txt hdraw hmem
  have hiw : iw = iconWidth := by
    rw [hsz] at h1
    simp at h1
    exact h1.1.symm
  rw [hiw] at h3
  exact ⟨by rw [h3, heq], h4⟩

theorem DrawButton_text_width_witness :
    buttonTextWidth { width := 40, height := 20, icon := some (.icon ⟨48, 32⟩),
                      text := some "abc" } 15 30
      = min 30 (max 0 (40 - 15 - 8)) :=
  (DrawButton_text_width { width := 40, height := 20, icon := some (.icon ⟨48, 32⟩),
                           text := some "abc" } 15 30 "abc" rfl (by decide) (by decide)
    (by decide) (by decide) (by decide) (by decide)).1

/-- C29: the label `DrawButton` renders stays inside the button.  For an
icon width `≥ 0` and a measured string width `≥ 0`, centred or left-aligned,
whenever the label is rendered it is rendered at `x + offset`, where `offset`
is the alignment offset plus `iconWidth + 2` when an icon is present, with
`0 ≤ offset` and `offset + textWidth ≤ width - 2`.  The values are `int`s
without wrap-around. -/
theorem DrawButton_label_inside (bp : ButtonNode) (iconWidth iconHeight s sh : Int)
    (calls : List ButtonCall) (rx ry w : Int) (txt : String)
    (hsz : buttonIconSize bp = some (iconWidth, iconHeight))
    (hi0 : 0 ≤ iconWidth) (hi : iconWidth ≤ 1073741819)
    (hs0 : 0 ≤ s) (hs : s ≤ 1073741819)
    (hw0 : -1073741819 ≤ bp.width) (hw : bp.width ≤ 1073741819)
    (hdraw : DrawButton bp s sh = some calls)
    (hmem : ButtonCall.RenderString rx ry w txt ∈ calls) :
    rx = wrapInt (bp.x + buttonLabelOffset bp iconWidth w)
    ∧ buttonLabelOffset bp iconWidth w
        = buttonAlignOffset bp iconWidth w
          + (if bp.icon = none then 0 else iconWidth + 2)
    ∧ 0 ≤ buttonLabelOffset bp iconWidth w
    ∧ buttonLabelOffset bp iconWidth w + w ≤ bp.width - 2 := by
  obtain ⟨iw, ih, h1, htxt, h3, h4, h5⟩ :=
    DrawButton_label bp s sh calls rx ry w txt hdraw hmem
  have hiw : iw = iconWidth := by
    rw [hsz] at h1
    simp at h1
    exact h1.1.symm
  subst hiw
  have hplain := buttonTextWidth_plain bp iw s txt htxt hs0 hs (by omega) hi hw0 hw
  rw [← h3] at hplain
  -- the text leaves at least 8 pixels beside the icon
  have hroom : 0 < w ∧ w + iw + 8 ≤ bp.width := by
    split_ifs at hplain <;> omega
  have hnoicon : bp.icon = none → iw = 0 := by
    intro hn
    have h0 : buttonIconSize bp = some (0, 0) := by
      unfold buttonIconSize
      rw [hn]
    rw [h0] at hsz
    simp only [Option.some.injEq, Prod.mk.injEq] at hsz
    exact hsz.1.symm
  have halign : 0 ≤ buttonAlignOffset bp iw w
      ∧ 2 * buttonAlignOffset bp iw w ≤ bp.width - iw - w + 1 := by
    unfold buttonAlignOffset
    rw [wrapInt_of_range (i := bp.width - iw) (by omega) (by omega),
      wrapInt_of_range (i := bp.width - iw - w) (by omega) (by omega),
      wrapInt_of_range (i := bp.width - iw - w + 1) (by omega) (by omega),
      Int.tdiv_eq_ediv (by omega) (by omega)]
    by_cases hc : bp.alignment = .ALIGN_CENTER
    · rw [if_pos hc]
      by_cases hneg : (bp.width - iw - w + 1) / 2 < 0
      · rw [if_pos hneg]; omega
      · rw [if_neg hneg]; omega
    · rw [if_neg hc]; omega
  have hoff : buttonLabelOffset bp iw w
      = buttonAlignOffset bp iw w + (if bp.icon = none then 0 else iw + 2) := by
    unfold buttonLabelOffset
    rcases hic : bp.icon with _ | ip
    · simp
    · dsimp only
      rw [wrapInt_of_range (i := iw + 2) (by omega) (by omega),
        wrapInt_of_range (by omega) (by omega)]
      simp
  refine ⟨h5, hoff, ?_, ?_⟩
  · rw [hoff]
    split_ifs <;> omega
  · rw [hoff]
    split_ifs with hn
    · have := hnoicon hn
      omega
    · omega

theorem DrawButton_label_inside_witness :
    (21 : Int) = wrapInt (0 + buttonLabelOffset
        { width := 40, height := 20, icon := some (.icon ⟨48, 32⟩), text := some "abc",
          alignment := .ALIGN_CENTER } 15 17)
    ∧ 0 ≤ buttonLabelOffset
        { width := 40, height := 20, icon := some (.icon ⟨48, 32⟩), text := some "abc",
          alignment := .ALIGN_CENTER } 15 17
    ∧ buttonLabelOffset
        { width := 40, height := 20, icon := some (.icon ⟨48, 32⟩), text := some "abc",
          alignment := .ALIGN_CENTER } 15 17 + 17 ≤ 40 - 2 := by
  have h := DrawButton_label_inside
    { width := 40, height := 20, icon := some (.icon ⟨48, 32⟩), text := some "abc",
      alignment := .ALIGN_CENTER } 15 10 30 12
    [.PutIcon 4 5 15 10, .RenderString 21 4 17 "abc"] 21 4 17 "abc"
    (by decide) (by decide) (by decide) (by decide) (by decide) (by decide) (by decide)
    (by decide) (by decide)
  exact ⟨h.1, h.2.2.1, h.2.2.2⟩

/-! ## Theorems: drawn buttons and hit-testing on a tiny client -/

theorem hitFromClose_of_not_fits (settings : Settings) (np : ClientNode) (t : Nat)
    (x y o : Int) (h : ¬ buttonFits t o) :
    hitFromClose settings np t x y o = hitFromMove settings np t x y o := by
  unfold hitFromClose
  rw [if_neg (fun hc => h hc.2)]
  exact hitFromMax_of_not_fits _ _ _ _ _ _ h

/-- C26, evaluated at a failing input: for a client 10 pixels wide with all
three buttons requested, under the default settings (handle style off, title
bar requested, `titleHeight = 20 > borderWidth = 4`), `DrawBorderButtons` draws
the close, maximize and minimize buttons with left edges `-6`, `-26` and
`-46`; the point `(5, 10)`, inside the title rows and strictly between `-6`
and `-6 + 20`, is classified as Move; and no pointer position at all is
classified as Close, Maximize or Minimize. -/
theorem tinyClient_drawn_not_clickable :
    defaultSettings.handles = false
    ∧ tinyClient.state.border.BORDER_TITLE = true
    ∧ defaultSettings.borderWidth < defaultSettings.titleHeight
    ∧ 0 ≤ tinyClient.width
    ∧ (DrawBorderButtons defaultSettings tinyClient).filterMap DrawCmd.buttonBox
        = [(.BA_CLOSE, -6, 0), (.BA_MAXIMIZE, -26, 0), (.BA_MINIMIZE, -46, 0)]
    ∧ GetBorderActionType defaultSettings tinyClient 5 10 = .BA_MOVE
    ∧ ∀ x y : Int,
        GetBorderActionType defaultSettings tinyClient x y ≠ .BA_CLOSE
        ∧ GetBorderActionType defaultSettings tinyClient x y ≠ .BA_MAXIMIZE
        ∧ GetBorderActionType defaultSettings tinyClient x y ≠ .BA_MINIMIZE := by
  refine ⟨by decide, by decide, by decide, by decide, by decide, by decide, ?_⟩
  intro x y
  have hth : hitTitleHeight defaultSettings tinyClient = 20 := by decide
  have hb : GetBorderSize defaultSettings tinyClient.state = ⟨20, 4, 4, 4⟩ := by decide
  have hnf : ¬ buttonFits 20 (iadd tinyClient.width 4) := by decide
  have hmove : ∀ o : Int,
      hitFromMove defaultSettings tinyClient 20 x y o ≠ some .BA_CLOSE
      ∧ hitFromMove defaultSettings tinyClient 20 x y o ≠ some .BA_MAXIMIZE
      ∧ hitFromMove defaultSettings tinyClient 20 x y o ≠ some .BA_MINIMIZE := by
    intro o
    rcases hitFromMove_cases defaultSettings tinyClient 20 x y o with h | h | h <;>
      rw [h] <;> simp
  have hclose :
      hitFromClose defaultSettings tinyClient 20 x y (iadd tinyClient.width 4)
        ≠ some .BA_CLOSE
      ∧ hitFromClose defaultSettings tinyClient 20 x y (iadd tinyClient.width 4)
        ≠ some .BA_MAXIMIZE
      ∧ hitFromClose defaultSettings tinyClient 20 x y (iadd tinyClient.width 4)
        ≠ some .BA_MINIMIZE := by
    rw [hitFromClose_of_not_fits _ _ _ _ _ _ hnf]
    exact hmove _
  have htitle :
      titleBarAction defaultSettings tinyClient 20 4 x y ≠ some .BA_CLOSE
      ∧ titleBarAction defaultSettings tinyClient 20 4 x y ≠ some .BA_MAXIMIZE
      ∧ titleBarAction defaultSettings tinyClient 20 4 x y ≠ some .BA_MINIMIZE := by
    unfold titleBarAction
    dsimp only
    split_ifs
    · simp
    · exact hclose
    · exact hclose
    · exact hmove _
  unfold GetBorderActionType
  dsimp only
  rw [hth, hb, if_pos (by decide)]
  dsimp only
  rcases hopt : titleBarAction defaultSettings tinyClient 20 4 x y with _ | a
  · dsimp only
    rcases resizeAction_cases defaultSettings tinyClient ⟨20, 4, 4, 4⟩ x y
      with h | ⟨n, s, e, w, h⟩ <;> rw [h] <;> simp
  · dsimp only
    rw [hopt] at htitle
    simpa using htitle

/-! ## Lemmas and theorems: DrawBorderHelper -/

theorem countFromMax_le (settings : Settings) (np : ClientNode) (c : Nat) (o : Int) :
    countFromMax settings np c o ≤ c + 2 := by
  unfold countFromMax
  have h1 := countFromMin_le np c
  have h2 := countFromMin_le np (c + 1)
  split_ifs <;> omega

theorem countFromClose_le (settings : Settings) (np : ClientNode) (c : Nat) (o : Int) :
    countFromClose settings np c o ≤ c + 3 := by
  unfold countFromClose
  have h1 := countFromMax_le settings np c o
  have h2 := countFromMax_le settings np (c + 1)
    (toInt (usub (toUnsigned o) settings.titleHeight))
  split_ifs <;> omega

theorem GetButtonCount_le_three (settings : Settings) (np : ClientNode) :
    GetButtonCount settings np ≤ 3 := by
  unfold GetButtonCount
  dsimp only
  have h := countFromClose_le settings np 0
    (iadd np.width (GetBorderSize settings np.state).west)
  split_ifs <;> omega

theorem toInt_usub_toUnsigned {a : Int} {u : Nat}
    (ha0 : -2147483648 ≤ a) (ha : a ≤ 2147483647) (hu : u ≤ 2147483647)
    (h0 : -2147483648 ≤ a - u) :
    toInt (usub (toUnsigned a) u) = a - u := by
  unfold toInt usub toUnsigned
  omega

theorem frameWidth_eq (settings : Settings) (np : ClientNode)
    (hcfg : settings.titleHeight + settings.borderWidth ≤ 536870911)
    (hw0 : 0 ≤ np.width) (hw : np.width ≤ 1073741823) :
    ((frameWidth settings np : Nat) : Int)
      = np.width + (GetBorderSize settings np.state).east
          + (GetBorderSize settings np.state).west
    ∧ frameWidth settings np ≤ 2147483645 := by
  have hr := GetBorderSize_insets_range settings np.state (by omega)
  have hwr := GetBorderSize_west_range settings np.state (by omega)
  unfold frameWidth
  dsimp only
  rw [iadd_of_range (a := np.width) (b := (GetBorderSize settings np.state).east)
      (by omega) (by omega), iadd_of_range (by omega) (by omega)]
  unfold toUnsigned
  omega

theorem frameHeight_eq (settings : Settings) (np : ClientNode)
    (hcfg : settings.titleHeight + settings.borderWidth ≤ 536870911)
    (hh0 : 0 ≤ np.height) (hh : np.height ≤ 1073741823) :
    ((frameHeight settings np : Nat) : Int)
      = (if np.state.status.STAT_SHADED = true then 0 else np.height)
          + (GetBorderSize settings np.state).north
          + (GetBorderSize settings np.state).south
    ∧ frameHeight settings np ≤ 2147483645 := by
  have hr := GetBorderSize_insets_range settings np.state (by omega)
  unfold frameHeight
  dsimp only
  by_cases hs : np.state.status.STAT_SHADED = true
  · rw [if_pos hs, if_pos hs, iadd_of_range (by omega) (by omega)]
    unfold toUnsigned
    omega
  · rw [if_neg hs, if_neg hs,
      iadd_of_range (a := np.height) (b := (GetBorderSize settings np.state).north)
        (by omega) (by omega),
      iadd_of_range (by omega) (by omega)]
    unfold toUnsigned
    omega

theorem titleBarCalls_no_outline (settings : Settings) (np : ClientNode) (tc : ClientTitle)
    (sheight : Int) :
    (titleBarCalls settings np tc sheight).filter FrameCall.isOutline = [] := by
  unfold titleBarCalls
  dsimp only
  rw [List.filter_eq_nil_iff]
  intro c hc
  simp only [List.mem_append, List.mem_singleton] at hc
  rcases hc with ((hc | hc) | hc) | hc
  · rw [hc]; simp [FrameCall.isOutline]
  · by_cases hi : tc.icon = true ∧ settings.titleHeight ≤ toUnsigned np.width
    · rw [if_pos hi, List.mem_singleton] at hc
      rw [hc]; simp [FrameCall.isOutline]
    · rw [if_neg hi] at hc
      simp at hc
  · rcases hn : tc.name with _ | name
    · rw [hn] at hc; simp at hc
    · rw [hn] at hc
      dsimp only at hc
      by_cases hi : name ≠ "" ∧ titleWidth settings np > 0
      · rw [if_pos hi, List.mem_singleton] at hc
        rw [hc]; simp [FrameCall.isOutline]
      · rw [if_neg hi] at hc
        simp at hc
  · rw [hc]; simp [FrameCall.isOutline]

/-- C21 as stated fails for a shaded window that is maximized on both axes
(default settings, handle style off, client 200 wide): the one outline
`DrawBorderHelper` draws is the rounded rectangle
`DrawRoundedRectangle 0 0 199 19 4`, not a plain rectangle. -/
theorem DrawBorderHelper_shaded_maximized_counterexample :
    defaultSettings.handles = false
    ∧ shadedMaxClient.state.status.STAT_HMAX = true
    ∧ shadedMaxClient.state.status.STAT_VMAX = true
    ∧ (DrawBorderHelper defaultSettings shadedMaxClient {} 12).filter FrameCall.isOutline
        = [.DrawRoundedRectangle 0 0 199 19 4]
    ∧ (DrawBorderHelper defaultSettings shadedMaxClient {} 12).filter FrameCall.isOutline
        ≠ [.JXDrawRectangle 0 0 199 19] := by
  decide

theorem frameWidth_sub_one (settings : Settings) (np : ClientNode)
    (hcfg : settings.titleHeight + settings.borderWidth ≤ 536870911)
    (hw0 : 1 ≤ np.width) (hw : np.width ≤ 1073741823) :
    toInt (usub (frameWidth settings np) 1)
      = np.width + (GetBorderSize settings np.state).east
          + (GetBorderSize settings np.state).west - 1
    ∧ usub (frameWidth settings np) 1
      = (np.width + (GetBorderSize settings np.state).east
          + (GetBorderSize settings np.state).west - 1).toNat := by
  have hr := GetBorderSize_insets_range settings np.state (by omega)
  have hwr := GetBorderSize_west_range settings np.state (by omega)
  unfold frameWidth
  dsimp only
  rw [iadd_of_range (a := np.width) (b := (GetBorderSize settings np.state).east)
      (by omega) (by omega), iadd_of_range (by omega) (by omega)]
  unfold toInt usub toUnsigned
  omega

theorem frameHeight_sub_one (settings : Settings) (np : ClientNode)
    (hs : np.state.status.STAT_SHADED = false)
    (hcfg : settings.titleHeight + settings.borderWidth ≤ 536870911)
    (hh0 : 1 ≤ np.height) (hh : np.height ≤ 1073741823) :
    toInt (usub (frameHeight settings np) 1)
      = np.height + (GetBorderSize settings np.state).north
          + (GetBorderSize settings np.state).south - 1
    ∧ usub (frameHeight settings np) 1
      = (np.height + (GetBorderSize settings np.state).north
          + (GetBorderSize settings np.state).south - 1).toNat := by
  have hr := GetBorderSize_insets_range settings np.state (by omega)
  unfold frameHeight
  dsimp only
  rw [hs, if_neg (by decide),
    iadd_of_range (a := np.height) (b := (GetBorderSize settings np.state).north)
      (by omega) (by omega),
    iadd_of_range (by omega) (by omega)]
  unfold toInt usub toUnsigned
  omega

/-- C21, amended: with handle style off `DrawBorderHelper` draws exactly one
outline.  For a shaded window, maximized or not, it is a rounded rectangle of
width `frameWidth - 1` and height `north - 1` with the configured
`borderRadius`; for an unshaded window maximized on either axis it is a plain
rectangle of width `frameWidth - 1` and height `frameHeight - 1`; otherwise it
is a rounded rectangle of that size with `borderRadius`.  Here
`frameWidth = clientWidth + east + west` and
`frameHeight = clientHeight + north + south`, without wrap-around. -/
theorem DrawBorderHelper_outline (settings : Settings) (np : ClientNode) (tc : ClientTitle)
    (sheight : Int)
    (hH : settings.handles = false)
    (hcfg : settings.titleHeight + settings.borderWidth ≤ 536870911)
    (hrad : settings.borderRadius ≤ 2147483647)
    (hw0 : 1 ≤ np.width) (hw : np.width ≤ 1073741823)
    (hh0 : 1 ≤ np.height) (hh : np.height ≤ 1073741823) :
    (DrawBorderHelper settings np tc sheight).filter FrameCall.isOutline
      = [if np.state.status.STAT_SHADED = true then
           .DrawRoundedRectangle 0 0
             (np.width + (GetBorderSize settings np.state).east
                + (GetBorderSize settings np.state).west - 1)
             ((GetBorderSize settings np.state).north - 1)
             (settings.borderRadius : Int)
         else if np.state.status.STAT_HMAX = true ∨ np.state.status.STAT_VMAX = true then
           .JXDrawRectangle 0 0
             (np.width + (GetBorderSize settings np.state).east
                + (GetBorderSize settings np.state).west - 1).toNat
             (np.height + (GetBorderSize settings np.state).north
                + (GetBorderSize settings np.state).south - 1).toNat
         else
           .DrawRoundedRectangle 0 0
             (np.width + (GetBorderSize settings np.state).east
                + (GetBorderSize settings np.state).west - 1)
             (np.height + (GetBorderSize settings np.state).north
                + (GetBorderSize settings np.state).south - 1)
             (settings.borderRadius : Int)] := by
  have hr := GetBorderSize_insets_range settings np.state (by omega)
  have hnorth : wrapInt ((GetBorderSize settings np.state).north - 1)
      = (GetBorderSize settings np.state).north - 1 :=
    wrapInt_of_range (by omega) (by omega)
  clear hr
  unfold DrawBorderHelper
  dsimp only
  simp only [List.filter_append]
  have htitle : (List.filter FrameCall.isOutline
      (if np.state.border.BORDER_TITLE = true ∧ settings.borderWidth < settings.titleHeight
       then titleBarCalls settings np tc sheight else [])) = [] := by
    by_cases ht : np.state.border.BORDER_TITLE = true
        ∧ settings.borderWidth < settings.titleHeight
    · rw [if_pos ht]; exact titleBarCalls_no_outline settings np tc sheight
    · rw [if_neg ht]; rfl
  rw [htitle]
  unfold outlineCalls
  dsimp only
  rw [hH, (frameWidth_sub_one settings np hcfg hw0 hw).1,
    (frameWidth_sub_one settings np hcfg hw0 hw).2, toInt_of_le hrad, hnorth]
  by_cases hs : np.state.status.STAT_SHADED = true
  · simp only [hs, if_true]
    simp [FrameCall.isOutline]
  · have hsf : np.state.status.STAT_SHADED = false := by
      cases h : np.state.status.STAT_SHADED
      · rfl
      · exact absurd h hs
    rw [(frameHeight_sub_one settings np hsf hcfg hh0 hh).1,
      (frameHeight_sub_one settings np hsf hcfg hh0 hh).2]
    simp only [hsf]
    by_cases hm : np.state.status.STAT_HMAX = true ∨ np.state.status.STAT_VMAX = true
    · rw [if_pos hm]
      have hb : (np.state.status.STAT_HMAX || np.state.status.STAT_VMAX) = true := by
        simpa using hm
      rw [hb]
      simp [FrameCall.isOutline]
    · rw [if_neg hm]
      have hb : (np.state.status.STAT_HMAX || np.state.status.STAT_VMAX) = false := by
        simpa using hm
      rw [hb]
      simp [FrameCall.isOutline]

theorem DrawBorderHelper_outline_witness :
    (DrawBorderHelper defaultSettings scenarioAClient { name := some "xterm" } 12).filter
        FrameCall.isOutline
      = [.DrawRoundedRectangle 0 0 207 123 4] :=
  DrawBorderHelper_outline defaultSettings scenarioAClient { name := some "xterm" } 12
    (by decide) (by decide) (by decide) (by decide) (by decide) (by decide) (by decide)

theorem GetBorderIconSize_eq (settings : Settings) (ht : settings.titleHeight ≤ 2147483647) :
    GetBorderIconSize settings = (settings.titleHeight : Int) - 4 := by
  unfold GetBorderIconSize toInt usub
  omega

theorem titleWidth_arith (fw th c : Nat) (hfw : fw ≤ 2147483645) (hth : th ≤ 268435455)
    (hc : c ≤ 3) :
    wrapInt (toInt (usub (toUnsigned (toInt fw)) (umul th c))
        - wrapInt (wrapInt (toInt (usub th 4) + 7) + 6))
      = (fw : Int) - (c : Int) * (th : Int) - ((th : Int) - 4) - 13 := by
  have hicon : toInt (usub th 4) = (th : Int) - 4 := by
    unfold toInt usub
    omega
  have hmul : umul th c = th * c := by
    unfold umul
    apply Nat.mod_eq_of_lt
    calc th * c ≤ th * 3 := Nat.mul_le_mul_left _ hc
      _ < 4294967296 := by omega
  have hmul3 : th * c ≤ 3 * th := by
    calc th * c ≤ th * 3 := Nat.mul_le_mul_left _ hc
      _ = 3 * th := Nat.mul_comm _ _
  have hcast : ((th * c : Nat) : Int) = (c : Int) * (th : Int) := by
    push_cast
    ring
  rw [hmul, toInt_of_le (u := fw) (by omega),
    toInt_usub_toUnsigned (by omega) (by omega) (by omega) (by omega), hicon,
    wrapInt_of_range (i := (th : Int) - 4 + 7) (by omega) (by omega),
    wrapInt_of_range (i := (th : Int) - 4 + 7 + 6) (by omega) (by omega),
    wrapInt_of_range (by omega) (by omega), hcast]
  omega

theorem titleWidth_eq (settings : Settings) (np : ClientNode)
    (hcfg : settings.titleHeight + settings.borderWidth ≤ 268435455)
    (hw0 : 0 ≤ np.width) (hw : np.width ≤ 1073741823) :
    titleWidth settings np
      = (np.width + (GetBorderSize settings np.state).east
            + (GetBorderSize settings np.state).west)
          - (GetButtonCount settings np : Int) * (settings.titleHeight : Int)
          - GetBorderIconSize settings - 13 := by
  rw [GetBorderIconSize_eq settings (by omega),
    ← (frameWidth_eq settings np (by omega) hw0 hw).1]
  unfold titleWidth GetBorderIconSize
  dsimp only
  exact titleWidth_arith _ _ _ (frameWidth_eq settings np (by omega) hw0 hw).2 (by omega)
    (GetButtonCount_le_three settings np)

theorem titleBarCalls_RenderString (settings : Settings) (np : ClientNode) (tc : ClientTitle)
    (sheight : Int) (c : ColorType) (x y w : Int) (text : String)
    (hmem : FrameCall.RenderString c x y w text ∈ titleBarCalls settings np tc sheight) :
    w = titleWidth settings np ∧ 0 < titleWidth settings np ∧ tc.name = some text := by
  unfold titleBarCalls at hmem
  dsimp only at hmem
  simp only [List.mem_append, List.mem_singleton] at hmem
  rcases hmem with ((hc | hc) | hc) | hc
  · simp at hc
  · by_cases hi : tc.icon = true ∧ settings.titleHeight ≤ toUnsigned np.width
    · rw [if_pos hi, List.mem_singleton] at hc
      simp at hc
    · rw [if_neg hi] at hc
      simp at hc
  · rcases hn : tc.name with _ | name
    · rw [hn] at hc; simp at hc
    · rw [hn] at hc
      dsimp only at hc
      by_cases hi : name ≠ "" ∧ titleWidth settings np > 0
      · rw [if_pos hi, List.mem_singleton] at hc
        simp only [FrameCall.RenderString.injEq] at hc
        exact ⟨hc.2.2.2.1, hi.2, by rw [hc.2.2.2.2]⟩
      · rw [if_neg hi] at hc
        simp at hc
  · simp at hc

theorem outlineCalls_no_RenderString (settings : Settings) (np : ClientNode)
    (c : ColorType) (x y w : Int) (text : String) :
    FrameCall.RenderString c x y w text ∉ outlineCalls settings np := by
  unfold outlineCalls
  dsimp only
  intro hmem
  by_cases hH : settings.handles = true
  · rw [if_pos hH] at hmem
    simp at hmem
  · rw [if_neg hH] at hmem
    simp only [List.mem_cons, List.mem_singleton, List.not_mem_nil, or_false] at hmem
    rcases hmem with hmem | hmem
    · simp at hmem
    · by_cases hs : np.state.status.STAT_SHADED = true
      · rw [if_pos hs] at hmem
        simp at hmem
      · rw [if_neg hs] at hmem
        by_cases hm : (np.state.status.STAT_HMAX || np.state.status.STAT_VMAX) = true
        · rw [if_pos hm] at hmem
          simp at hmem
        · rw [if_neg hm] at hmem
          simp at hmem

/-- C23: the width `DrawBorderHelper` makes available for the title text is
`frameWidth - buttonCount × titleHeight - iconSize - 13`, where
`frameWidth = clientWidth + east + west`, `buttonCount = GetButtonCount` and
`iconSize = GetBorderIconSize = titleHeight - 4`; every title string
`DrawBorderHelper` renders has this width, and it is rendered only if the
width is greater than zero.  The values are without wrap-around. -/
theorem DrawBorderHelper_title_width (settings : Settings) (np : ClientNode)
    (tc : ClientTitle) (sheight : Int)
    (hcfg : settings.titleHeight + settings.borderWidth ≤ 268435455)
    (hw0 : 0 ≤ np.width) (hw : np.width ≤ 1073741823) :
    titleWidth settings np
      = (np.width + (GetBorderSize settings np.state).east
            + (GetBorderSize settings np.state).west)
          - (GetButtonCount settings np : Int) * (settings.titleHeight : Int)
          - GetBorderIconSize settings - 13
    ∧ GetBorderIconSize settings = (settings.titleHeight : Int) - 4
    ∧ ((frameWidth settings np : Nat) : Int)
        = np.width + (GetBorderSize settings np.state).east
            + (GetBorderSize settings np.state).west
    ∧ (∀ (c : ColorType) (x y w : Int) (text : String),
        FrameCall.RenderString c x y w text ∈ DrawBorderHelper settings np tc sheight
        → w = titleWidth settings np ∧ 0 < titleWidth settings np) := by
  refine ⟨titleWidth_eq settings np hcfg hw0 hw, GetBorderIconSize_eq settings (by omega),
    (frameWidth_eq settings np (by omega) hw0 hw).1, ?_⟩
  intro c x y w text hmem
  unfold DrawBorderHelper at hmem
  dsimp only at hmem
  simp only [List.mem_append] at hmem
  rcases hmem with ((hc | hc) | hc) | hc
  · simp at hc
  · by_cases ht : np.state.border.BORDER_TITLE = true
        ∧ settings.borderWidth < settings.titleHeight
    · rw [if_pos ht] at hc
      have h := titleBarCalls_RenderString settings np tc sheight c x y w text hc
      exact ⟨h.1, h.2.1⟩
    · rw [if_neg ht] at hc
      simp at hc
  · simp at hc
  · exact absurd hc (outlineCalls_no_RenderString settings np c x y w text)

theorem DrawBorderHelper_title_width_witness :
    titleWidth defaultSettings scenarioAClient = (200 + 4 + 4) - 1 * 20 - 16 - 13
    ∧ (159 : Int) = titleWidth defaultSettings scenarioAClient
    ∧ 0 < titleWidth defaultSettings scenarioAClient := by
  have h := DrawBorderHelper_title_width defaultSettings scenarioAClient
    { name := some "xterm" } 12 (by decide) (by decide) (by decide)
  exact ⟨h.1.trans (by decide), h.2.2.2 0 29 4 159 "xterm" (by decide)⟩

end JWM
